import Mathlib

/-!
# Serial link test unit (`src/testunit.c`): protocol engine

A shallow embedding of the two copies of the master/slave state machine of
`testunit.c` (the loop of `serial_2_pthread` and the loop of `main`), of the
frame signature, and of the payload generator.

Conventions of the embedding.

* A byte is a `Nat` (intended range `0..255`); a `uint32_t` is a `Nat`
  (intended range `0..2^32-1`); `int` and `long` values are `Int`.  The
  counters are only ever incremented by one, signed overflow is undefined in C,
  and they are modelled without wrap-around.
* An array `unsigned char buf[BUFFER_SIZE]` is a `List Nat`.  A store through a
  pointer into an object never changes the size of the object: bytes that
  would fall behind its end are dropped by `store`.
* The functions of `serial.h` are not part of the translation unit.  One loop
  iteration performs at most one call that returns a value; the answer of the
  transport to that call is the `t_reply` handed to the step function, and the
  calls that the iteration makes are returned as a list of `t_call`.
* The object representation of `t_signature` is fixed to little endian.
-/

namespace Testunit

/-! ## Constants -/

/-- The macro `TIMEOUT_THREAD_MS`. -/
def TIMEOUT_THREAD_MS : Int := 1000

/-- The macro `TIMEOUT_MAIN_MS`. -/
def TIMEOUT_MAIN_MS : Int := 5000

/-- The macro `SERIAL_SIGNATURE_HEADER`. -/
def SERIAL_SIGNATURE_HEADER : Nat := 0x12345678

/-- The macro `SERIAL_SIGNATURE_FOOTER`. -/
def SERIAL_SIGNATURE_FOOTER : Nat := 0xdeadbeef

/-- The macro `BUFFER_SIZE`. -/
def BUFFER_SIZE : Nat := 4096

/-- The value of `sizeof(t_signature)`: three `uint32_t` fields. -/
def SIZEOF_SIGNATURE : Nat := 12

/-- The value of `EINTR` of `errno.h` on Linux. -/
def EINTR : Int := 4

/-- The value of `EAGAIN` of `errno.h` on Linux. -/
def EAGAIN : Int := 11

/-- The string literal `"DOSLAVE\r\n"`, as bytes without the terminator. -/
def DOSLAVE : List Nat := [68, 79, 83, 76, 65, 86, 69, 13, 10]

/-- The string literal `"DOSLAVECMDACK\r\n"`, as bytes without the terminator. -/
def DOSLAVECMDACK : List Nat :=
  [68, 79, 83, 76, 65, 86, 69, 67, 77, 68, 65, 67, 75, 13, 10]

/-- The string `str`, the alphabet of the payload generator:
`"0123456789ABCDEFABCDEFGHIJKLMNOPQRSTUVWXYZ[]=-,."`. -/
def str : List Nat :=
  [48, 49, 50, 51, 52, 53, 54, 55, 56, 57,
   65, 66, 67, 68, 69, 70,
   65, 66, 67, 68, 69, 70, 71, 72, 73, 74, 75, 76, 77, 78, 79, 80, 81, 82, 83,
   84, 85, 86, 87, 88, 89, 90,
   91, 93, 61, 45, 44, 46]

/-! ## Data model -/

/-- The enumeration `t_state`. -/
inductive t_state where
  | STATE_START
  | STATE_WAIT_COMMAND
  | STATE_COMMAND_RECEIVED
  | STATE_SEND_COMMAND_ACK
  | STATE_WAIT_SERIAL_PACKET_SIGNATURE
  | STATE_READ_SERIAL_PACKET
  | STATE_WRITE_SERIAL_PACKET_ACK
  | STATE_WRITE_SERIAL_PACKET_SIGNATURE_SLAVE
  | STATE_SEND_COMMAND
  | STATE_WAIT_COMMAND_ACK
  | STATE_WRITE_SERIAL_PACKET
  | STATE_WAIT_SERIAL_PACKET_ACK
  | STATE_WRITE_SERIAL_PACKET_SIGNATURE_MASTER
  | STATE_WAIT_SERIAL_PACKET_ACK_SIGNATURE
  | STATE_RESET_SERIAL
  | STATE_RESET
  | STATE_LAST
  deriving DecidableEq, Repr

/-- The structure `t_signature`. -/
structure t_signature where
  header : Nat
  len : Nat
  footer : Nat
  deriving DecidableEq, Repr

/-- The structure `t_port`. -/
structure t_port where
  fd : Int
  baudrate : Int
  pre : Int
  post : Int
  deriving DecidableEq, Repr

/-- The locals of `main` that its loop reads and never writes.  `dbg_n` tells
whether the logging macro `DBG_N` of `debug.h` (not part of the translation
unit) evaluates its arguments. -/
structure t_main where
  serfd : Int
  baudrate1 : Int
  baudrate2 : Int
  pre : Int
  post : Int
  dbg_n : Bool
  deriving DecidableEq, Repr

/-- The argument of `serial_2_pthread` together with `thread_print`, which
tells whether the logging macro `THREAD_PRINT` of `debug.h` (not part of the
translation unit) evaluates its arguments. -/
structure t_thread where
  port : t_port
  thread_print : Bool
  deriving DecidableEq, Repr

/-- The locals that one loop (of `main` or of `serial_2_pthread`) mutates,
with the error counter of that loop (`errornumbersMain` or
`errornumbersThread`). -/
structure t_engine where
  state : t_state
  state_next : t_state
  sbufferread : List Nat
  sbufferwrite : List Nat
  timeout : Int
  rval : Int
  signatureread : t_signature
  signaturewrite : t_signature
  goodpackettx : Int
  goodpacketrx : Int
  errornumbers : Int
  deriving DecidableEq, Repr

/-- The object a `serial_read_raw` call stores into. -/
inductive t_dest where
  | signatureread
  | sbufferread
  deriving DecidableEq, Repr

/-- A call of a function of `serial.h`, with the arguments the loop passes
(the file descriptor, constant for one loop, is left out).  For
`serial_send_raw` the bytes are the ones the length argument makes readable. -/
inductive t_call where
  | serial_flush_rx
  | serial_flush_tx
  | serial_device_status
  | serial_read_string (timeout : Int)
  | serial_read_raw (dest : t_dest) (len : Nat)
  | serial_send_string (s : List Nat)
  | serial_send_raw (bytes : List Nat) (len : Nat)
  | serial_device_reset (baudrate pre post : Int)
  deriving DecidableEq, Repr

/-- The answer of the transport to the call of one loop iteration: the
returned `int`, the value of `errno` after the call, and the bytes the call
stored at the start of its destination (none for a write). -/
structure t_reply where
  rval : Int
  errno : Int
  data : List Nat
  deriving DecidableEq, Repr

/-- The outcome of one loop iteration: the locals after it, the transport
calls it made, and whether it left the loop (`goto out`, `goto outThread`). -/
structure t_step where
  eng : t_engine
  calls : List t_call
  exited : Bool
  deriving DecidableEq, Repr

/-! ## Memory and string primitives -/

/-- Bytes `data` stored at the start of the object `buf`; bytes that would
fall behind the end of the object are left out (in C they are written behind
the end of the array, which is undefined). -/
def store : List Nat → List Nat → List Nat
  | [], _ => []
  | b :: bs, [] => b :: bs
  | _ :: bs, d :: ds => d :: store bs ds

/-- Bytes `data` stored at offset `off` of the object `buf`. -/
def store_at (buf : List Nat) (off : Nat) (data : List Nat) : List Nat :=
  buf.take off ++ store (buf.drop off) data

/-- The byte at index `i` of a memory area; `0` behind the end of the model. -/
def byte_at (buf : List Nat) (i : Nat) : Nat := buf.getD i 0

/-- The C string that starts at the beginning of `buf`. -/
def cstring : List Nat → List Nat
  | [] => []
  | c :: cs => if c = 0 then [] else c :: cstring cs

/-- The function `strcmp` of `string.h` (the end of the model is a NUL). -/
def strcmp : List Nat → List Nat → Int
  | [], [] => 0
  | [], b :: _ => 0 - (b : Int)
  | a :: _, [] => (a : Int)
  | a :: as, b :: bs =>
    if a ≠ b then (a : Int) - (b : Int) else if a = 0 then 0 else strcmp as bs

/-- The function `memcmp` of `string.h` on the first `n` bytes. -/
def memcmp (a b : List Nat) : Nat → Int
  | 0 => 0
  | n + 1 =>
    if a.headD 0 ≠ b.headD 0 then (a.headD 0 : Int) - (b.headD 0 : Int)
    else memcmp a.tail b.tail n

/-- The function `memcpy` of `string.h`: the first `n` bytes of `src` replace
the first `n` bytes of `dst`.  The model is that of the C function for `n`
up to the size of the two objects; for a greater `n` the C function reads and
writes behind their end (undefined), while the model stops at the end of the
objects, so statements about the copied bytes carry the bound on `n`. -/
def memcpy (dst src : List Nat) (n : Nat) : List Nat :=
  store dst (src.take n)

/-- The function `strncpy` of `string.h`, as the `n` bytes it writes: the
characters of `src` up to its terminator, then NUL padding. -/
def strncpy_bytes (src : List Nat) (n : Nat) : List Nat :=
  (cstring src).take n ++ List.replicate (n - (cstring src).length) 0

/-- The function `strlen` of `string.h`. -/
def strlen (s : List Nat) : Nat := (cstring s).length

/-- The conversion of a `uint32_t` to `int`. -/
def to_int (n : Nat) : Int :=
  if n % 4294967296 < 2147483648 then ((n % 4294967296 : Nat) : Int)
  else ((n % 4294967296 : Nat) : Int) - 4294967296

/-- The conversion of an `int` to `uint32_t`. -/
def to_u32 (i : Int) : Nat := (i % 4294967296).toNat

/-! ## Frame signature: object representation -/

/-- The four bytes of a `uint32_t`, least significant first. -/
def u32_bytes (x : Nat) : List Nat :=
  [x % 256, x / 256 % 256, x / 65536 % 256, x / 16777216 % 256]

/-- The `uint32_t` stored in the four bytes at the start of `l`. -/
def u32_of_bytes (l : List Nat) : Nat :=
  byte_at l 0 % 256 + 256 * (byte_at l 1 % 256) + 65536 * (byte_at l 2 % 256)
    + 16777216 * (byte_at l 3 % 256)

/-- The twelve bytes of a `t_signature` object. -/
def signature_bytes (s : t_signature) : List Nat :=
  u32_bytes s.header ++ u32_bytes s.len ++ u32_bytes s.footer

/-- The `t_signature` whose object holds the bytes `l`. -/
def signature_of_bytes (l : List Nat) : t_signature :=
  { header := u32_of_bytes l,
    len := u32_of_bytes (l.drop 4),
    footer := u32_of_bytes (l.drop 8) }

/-- A `t_signature` object after `data` was stored at its start. -/
def signature_store (s : t_signature) (data : List Nat) : t_signature :=
  signature_of_bytes (store (signature_bytes s) data)

/-- Every field of the signature is a `uint32_t` value. -/
def t_signature.wf (s : t_signature) : Prop :=
  s.header < 4294967296 ∧ s.len < 4294967296 ∧ s.footer < 4294967296

instance (s : t_signature) : Decidable s.wf := by
  unfold t_signature.wf
  infer_instance

/-! ## Frame codec and payload generator -/

/-- The function `bufferlen`. -/
def bufferlen (baudrate : Int) : Int :=
  if baudrate = 230400 then 70
  else if baudrate = 115200 then 45
  else if baudrate = 57600 then 42
  else if baudrate = 38400 then 40
  else if baudrate = 19200 then 38
  else if baudrate = 9600 then 35
  else if baudrate = 4800 then 30
  else if baudrate = 2400 then 20
  else 10

/-- The function `fill`; the pointer `buf` of the source, advanced by `len`
after each copy, is the offset `off` into the array. -/
def fill (buf : List Nat) (off : Nat) (s : List Nat) (len : Nat) : Nat → List Nat
  | 0 => buf
  | z + 1 => fill (store_at buf off (strncpy_bytes s len)) (off + len) s len z

/-- The function `fillbuffer` (the mutex it takes guards one sequential
call and has no effect on the bytes written). -/
def fillbuffer (buf : List Nat) (baudrate : Int) : List Nat :=
  fill buf 0 str (strlen str) (bufferlen baudrate).toNat

/-! ## The loop of `serial_2_pthread` -/

/-- The end of a loop iteration, common to both loops: `state` takes the
value of `state_next` when they differ. -/
def loop_end (e : t_engine) (calls : List t_call) : t_step :=
  { eng := if e.state ≠ e.state_next then { e with state := e.state_next } else e,
    calls := calls,
    exited := false }

/-- The locals of `serial_2_pthread` and `errornumbersThread` when the loop is
entered.  The two arrays are not initialised by the source; the first
iteration runs `STATE_RESET`, which clears both before any byte is read. -/
def serial_2_pthread_init : t_engine :=
  { state := t_state.STATE_RESET,
    state_next := t_state.STATE_LAST,
    sbufferread := List.replicate BUFFER_SIZE 0,
    sbufferwrite := List.replicate BUFFER_SIZE 0,
    timeout := TIMEOUT_THREAD_MS,
    rval := 0,
    signatureread :=
      { header := SERIAL_SIGNATURE_HEADER, len := 0, footer := SERIAL_SIGNATURE_FOOTER },
    signaturewrite :=
      { header := SERIAL_SIGNATURE_HEADER, len := 0, footer := SERIAL_SIGNATURE_FOOTER },
    goodpackettx := 0,
    goodpacketrx := 0,
    errornumbers := 0 }

/-- One iteration of the `for (;;)` loop of `serial_2_pthread`. -/
def serial_2_pthread_step (a : t_thread) (e : t_engine) (r : t_reply) : t_step :=
  match e.state with
  | t_state.STATE_START =>
    loop_end { e with state_next := t_state.STATE_WAIT_COMMAND }
      [t_call.serial_flush_rx, t_call.serial_flush_tx]
  | t_state.STATE_WAIT_COMMAND =>
    let e1 := { e with sbufferread := store e.sbufferread r.data, rval := r.rval }
    let calls := [t_call.serial_read_string e.timeout]
    if r.rval < 0 then
      if r.errno ≠ EAGAIN ∧ r.errno ≠ EINTR then
        loop_end { e1 with state_next := t_state.STATE_RESET } calls
      else loop_end e1 calls
    else if r.rval = 0 then
      loop_end { e1 with state_next := t_state.STATE_SEND_COMMAND } calls
    else loop_end { e1 with state_next := t_state.STATE_COMMAND_RECEIVED } calls
  | t_state.STATE_COMMAND_RECEIVED =>
    if strcmp DOSLAVE e.sbufferread = 0 then
      loop_end { e with state_next := t_state.STATE_SEND_COMMAND_ACK } []
    else
      loop_end { e with state_next := t_state.STATE_SEND_COMMAND }
        [t_call.serial_device_status]
  | t_state.STATE_SEND_COMMAND_ACK =>
    let e1 := { e with rval := r.rval }
    let calls := [t_call.serial_send_string DOSLAVECMDACK]
    if r.rval < 0 then
      if r.errno ≠ EAGAIN ∧ r.errno ≠ EINTR then
        loop_end { e1 with state_next := t_state.STATE_RESET,
                           errornumbers := e1.errornumbers + 1 } calls
      else loop_end e1 calls
    else if r.rval = 0 then loop_end e1 calls
    else loop_end { e1 with state_next := t_state.STATE_WAIT_SERIAL_PACKET_SIGNATURE } calls
  | t_state.STATE_WAIT_SERIAL_PACKET_SIGNATURE =>
    let e1 := { e with signatureread := signature_store e.signatureread r.data,
                       rval := r.rval }
    let calls := [t_call.serial_read_raw t_dest.signatureread SIZEOF_SIGNATURE]
    if r.rval < 0 then
      if r.errno ≠ EAGAIN ∧ r.errno ≠ EINTR then
        loop_end { e1 with state_next := t_state.STATE_RESET,
                           errornumbers := e1.errornumbers + 1 } calls
      else loop_end e1 calls
    else if r.rval = 0 then
      loop_end { e1 with state_next := t_state.STATE_RESET } calls
    else if r.rval ≠ (SIZEOF_SIGNATURE : Int) then
      loop_end { e1 with state_next := t_state.STATE_RESET,
                         errornumbers := e1.errornumbers + 1 }
        (calls ++ [t_call.serial_device_status])
    else loop_end { e1 with state_next := t_state.STATE_READ_SERIAL_PACKET } calls
  | t_state.STATE_READ_SERIAL_PACKET =>
    if e.signatureread.header = SERIAL_SIGNATURE_HEADER ∧
        e.signatureread.footer = SERIAL_SIGNATURE_FOOTER then
      let e1 := { e with sbufferread := store e.sbufferread r.data, rval := r.rval }
      let calls := [t_call.serial_read_raw t_dest.sbufferread e.signatureread.len]
      if r.rval < 0 then
        if r.errno ≠ EAGAIN ∧ r.errno ≠ EINTR then
          loop_end { e1 with state_next := t_state.STATE_RESET,
                             errornumbers := e1.errornumbers + 1 } calls
        else loop_end e1 calls
      else if r.rval = 0 then
        loop_end { e1 with state_next := t_state.STATE_RESET } calls
      else if r.rval ≠ to_int e.signatureread.len then
        loop_end { e1 with state_next := t_state.STATE_RESET,
                           errornumbers := e1.errornumbers + 1 }
          (calls ++ [t_call.serial_device_status])
      else
        loop_end { e1 with state_next := t_state.STATE_WRITE_SERIAL_PACKET_SIGNATURE_SLAVE }
          calls
    else
      loop_end { e with state_next := t_state.STATE_RESET,
                        errornumbers := e.errornumbers + 1 }
        [t_call.serial_device_status]
  | t_state.STATE_WRITE_SERIAL_PACKET_SIGNATURE_SLAVE =>
    let e1 := { e with signaturewrite :=
                         { header := e.signatureread.header,
                           len := e.signatureread.len,
                           footer := e.signatureread.footer },
                       rval := r.rval }
    let calls := [t_call.serial_send_raw (signature_bytes e1.signaturewrite) SIZEOF_SIGNATURE]
    if r.rval < 0 then
      if r.errno ≠ EAGAIN ∧ r.errno ≠ EINTR then
        loop_end { e1 with state_next := t_state.STATE_RESET,
                           errornumbers := e1.errornumbers + 1 } calls
      else loop_end e1 calls
    else if r.rval = 0 then loop_end e1 calls
    else if r.rval = (SIZEOF_SIGNATURE : Int) then
      loop_end { e1 with state_next := t_state.STATE_WRITE_SERIAL_PACKET_ACK } calls
    else
      loop_end { e1 with state_next := t_state.STATE_RESET,
                         errornumbers := e1.errornumbers + 1 } calls
  | t_state.STATE_WRITE_SERIAL_PACKET_ACK =>
    let e1 := { e with sbufferwrite := memcpy e.sbufferwrite e.sbufferread e.signatureread.len,
                       rval := r.rval }
    let calls :=
      [t_call.serial_send_raw (e1.sbufferwrite.take e.signatureread.len) e.signatureread.len]
    if r.rval < 0 then
      if r.errno ≠ EAGAIN ∧ r.errno ≠ EINTR then
        loop_end { e1 with state_next := t_state.STATE_RESET,
                           errornumbers := e1.errornumbers + 1 } calls
      else loop_end e1 calls
    else if r.rval = 0 then loop_end e1 calls
    else
      loop_end { e1 with state_next := t_state.STATE_WAIT_SERIAL_PACKET_SIGNATURE,
                         goodpacketrx :=
                           if a.thread_print then e1.goodpacketrx + 1 else e1.goodpacketrx }
        calls
  | t_state.STATE_SEND_COMMAND =>
    let e1 := { e with rval := r.rval }
    let calls := [t_call.serial_send_string DOSLAVE]
    if r.rval < 0 then
      if r.errno ≠ EAGAIN ∧ r.errno ≠ EINTR then
        loop_end { e1 with state_next := t_state.STATE_RESET_SERIAL,
                           errornumbers := e1.errornumbers + 1 } calls
      else loop_end e1 calls
    else if r.rval = 0 then loop_end e1 calls
    else loop_end { e1 with state_next := t_state.STATE_WAIT_COMMAND_ACK } calls
  | t_state.STATE_WAIT_COMMAND_ACK =>
    let e1 := { e with sbufferread := store e.sbufferread r.data, rval := r.rval }
    let calls := [t_call.serial_read_string 800]
    if r.rval < 0 then
      if r.errno ≠ EAGAIN ∧ r.errno ≠ EINTR then
        loop_end { e1 with state_next := t_state.STATE_RESET,
                           errornumbers := e1.errornumbers + 1 } calls
      else loop_end e1 calls
    else if r.rval = 0 then
      loop_end { e1 with state_next := t_state.STATE_RESET,
                         errornumbers := e1.errornumbers + 1 } calls
    else if strcmp DOSLAVECMDACK e1.sbufferread = 0 then
      loop_end { e1 with state_next := t_state.STATE_WRITE_SERIAL_PACKET_SIGNATURE_MASTER }
        calls
    else
      loop_end { e1 with state_next := t_state.STATE_RESET,
                         errornumbers := e1.errornumbers + 1 }
        (calls ++ [t_call.serial_device_status])
  | t_state.STATE_WRITE_SERIAL_PACKET_SIGNATURE_MASTER =>
    let e1 := { e with signaturewrite :=
                         { header := SERIAL_SIGNATURE_HEADER,
                           len := to_u32 (bufferlen a.port.baudrate),
                           footer := SERIAL_SIGNATURE_FOOTER },
                       rval := r.rval }
    let calls := [t_call.serial_send_raw (signature_bytes e1.signaturewrite) SIZEOF_SIGNATURE]
    if r.rval < 0 then
      if r.errno ≠ EINTR ∧ r.errno ≠ EAGAIN then
        loop_end { e1 with state_next := t_state.STATE_RESET,
                           errornumbers := e1.errornumbers + 1 } calls
      else loop_end e1 calls
    else if r.rval = 0 then loop_end e1 calls
    else loop_end { e1 with state_next := t_state.STATE_WRITE_SERIAL_PACKET } calls
  | t_state.STATE_WRITE_SERIAL_PACKET =>
    let e1 := { e with sbufferwrite := fillbuffer e.sbufferwrite a.port.baudrate,
                       rval := r.rval }
    let calls :=
      [t_call.serial_send_raw (e1.sbufferwrite.take e.signaturewrite.len) e.signaturewrite.len]
    if r.rval < 0 then
      if r.errno ≠ EINTR ∧ r.errno ≠ EAGAIN then
        loop_end { e1 with state_next := t_state.STATE_RESET,
                           errornumbers := e1.errornumbers + 1 } calls
      else loop_end e1 calls
    else if r.rval = 0 then loop_end e1 calls
    else if r.rval = to_int e.signaturewrite.len then
      loop_end { e1 with state_next := t_state.STATE_WAIT_SERIAL_PACKET_ACK_SIGNATURE } calls
    else
      loop_end { e1 with state_next := t_state.STATE_RESET,
                         errornumbers := e1.errornumbers + 1 }
        (calls ++ [t_call.serial_device_status])
  | t_state.STATE_WAIT_SERIAL_PACKET_ACK_SIGNATURE =>
    let e1 := { e with signatureread := signature_store e.signatureread r.data,
                       rval := r.rval }
    let calls := [t_call.serial_read_raw t_dest.signatureread SIZEOF_SIGNATURE]
    if r.rval < 0 then
      if r.errno ≠ EINTR ∨ r.errno ≠ EAGAIN then
        loop_end { e1 with state_next := t_state.STATE_RESET,
                           errornumbers := e1.errornumbers + 1 } calls
      else loop_end e1 calls
    else if r.rval = 0 then
      loop_end { e1 with state_next := t_state.STATE_RESET,
                         errornumbers := e1.errornumbers + 1 }
        (calls ++ [t_call.serial_device_status])
    else if r.rval ≠ (SIZEOF_SIGNATURE : Int) then
      loop_end { e1 with state_next := t_state.STATE_RESET,
                         errornumbers := e1.errornumbers + 1 }
        (calls ++ [t_call.serial_device_status])
    else loop_end { e1 with state_next := t_state.STATE_WAIT_SERIAL_PACKET_ACK } calls
  | t_state.STATE_WAIT_SERIAL_PACKET_ACK =>
    if memcmp (signature_bytes e.signatureread) (signature_bytes e.signaturewrite)
        SIZEOF_SIGNATURE = 0 then
      let e1 := { e with sbufferread := store e.sbufferread r.data, rval := r.rval }
      let calls := [t_call.serial_read_raw t_dest.sbufferread e.signatureread.len]
      if r.rval < 0 then
        if r.errno ≠ EAGAIN ∧ r.errno ≠ EINTR then
          loop_end { e1 with state_next := t_state.STATE_RESET,
                             errornumbers := e1.errornumbers + 1 } calls
        else loop_end e1 calls
      else if r.rval = 0 then
        loop_end { e1 with state_next := t_state.STATE_RESET,
                           errornumbers := e1.errornumbers + 1 } calls
      else if r.rval = to_int e.signatureread.len then
        if memcmp e1.sbufferread e1.sbufferwrite e.signatureread.len = 0 then
          loop_end { e1 with goodpackettx := e1.goodpackettx + 1,
                             state_next := t_state.STATE_WRITE_SERIAL_PACKET_SIGNATURE_MASTER }
            calls
        else
          loop_end { e1 with state_next := t_state.STATE_RESET,
                             errornumbers := e1.errornumbers + 1 }
            (calls ++ [t_call.serial_device_status])
      else
        loop_end { e1 with state_next := t_state.STATE_RESET,
                           errornumbers := e1.errornumbers + 1 }
          (calls ++ [t_call.serial_device_status])
    else
      loop_end { e with state_next := t_state.STATE_RESET,
                        errornumbers := e.errornumbers + 1 } []
  | t_state.STATE_RESET_SERIAL =>
    let e1 := { e with rval := r.rval }
    let calls := [t_call.serial_device_reset a.port.baudrate a.port.pre a.port.post]
    if r.rval < 0 then
      if r.errno ≠ EAGAIN ∧ r.errno ≠ EINTR then
        { eng := { e1 with errornumbers := e1.errornumbers + 1 },
          calls := calls,
          exited := true }
      else loop_end { e1 with state_next := t_state.STATE_RESET } calls
    else loop_end { e1 with state_next := t_state.STATE_RESET } calls
  | t_state.STATE_RESET =>
    loop_end { e with timeout :=
                        if e.timeout > 1000 then e.timeout - 1000 else TIMEOUT_THREAD_MS,
                      sbufferread := List.replicate BUFFER_SIZE 0,
                      sbufferwrite := List.replicate BUFFER_SIZE 0,
                      signatureread := signature_of_bytes (List.replicate SIZEOF_SIGNATURE 0),
                      signaturewrite := signature_of_bytes (List.replicate SIZEOF_SIGNATURE 0),
                      state_next := t_state.STATE_START,
                      goodpacketrx := 0,
                      goodpackettx := 0 } []
  | t_state.STATE_LAST => loop_end e []

/-! ## The loop of `main` -/

/-- The locals of `main` and `errornumbersMain` when the loop is
entered.  The two arrays are not initialised by the source; the first
iteration runs `STATE_RESET`, which clears both before any byte is read. -/
def main_init : t_engine :=
  { state := t_state.STATE_RESET,
    state_next := t_state.STATE_LAST,
    sbufferread := List.replicate BUFFER_SIZE 0,
    sbufferwrite := List.replicate BUFFER_SIZE 0,
    timeout := TIMEOUT_MAIN_MS,
    rval := 0,
    signatureread :=
      { header := SERIAL_SIGNATURE_HEADER, len := 0, footer := SERIAL_SIGNATURE_FOOTER },
    signaturewrite :=
      { header := SERIAL_SIGNATURE_HEADER, len := 0, footer := SERIAL_SIGNATURE_FOOTER },
    goodpackettx := 0,
    goodpacketrx := 0,
    errornumbers := 0 }

/-- One iteration of the `for (;;)` loop of `main`. -/
def main_step (a : t_main) (e : t_engine) (r : t_reply) : t_step :=
  match e.state with
  | t_state.STATE_START =>
    loop_end { e with state_next := t_state.STATE_WAIT_COMMAND }
      [t_call.serial_flush_rx, t_call.serial_flush_tx]
  | t_state.STATE_WAIT_COMMAND =>
    let e1 := { e with sbufferread := store e.sbufferread r.data, rval := r.rval }
    let calls := [t_call.serial_read_string e.timeout]
    if r.rval < 0 then
      if r.errno ≠ EAGAIN ∧ r.errno ≠ EINTR then
        loop_end { e1 with state_next := t_state.STATE_RESET } calls
      else loop_end e1 calls
    else if r.rval = 0 then
      loop_end { e1 with state_next := t_state.STATE_SEND_COMMAND } calls
    else loop_end { e1 with state_next := t_state.STATE_COMMAND_RECEIVED } calls
  | t_state.STATE_COMMAND_RECEIVED =>
    if strcmp DOSLAVE e.sbufferread = 0 then
      loop_end { e with state_next := t_state.STATE_SEND_COMMAND_ACK } []
    else
      loop_end { e with state_next := t_state.STATE_SEND_COMMAND }
        [t_call.serial_device_status]
  | t_state.STATE_SEND_COMMAND_ACK =>
    let e1 := { e with rval := r.rval }
    let calls := [t_call.serial_send_string DOSLAVECMDACK]
    if r.rval < 0 then
      if r.errno ≠ EAGAIN ∧ r.errno ≠ EINTR then
        loop_end { e1 with state_next := t_state.STATE_RESET,
                           errornumbers := e1.errornumbers + 1 } calls
      else loop_end e1 calls
    else if r.rval = 0 then loop_end e1 calls
    else loop_end { e1 with state_next := t_state.STATE_WAIT_SERIAL_PACKET_SIGNATURE } calls
  | t_state.STATE_WAIT_SERIAL_PACKET_SIGNATURE =>
    let e1 := { e with signatureread := signature_store e.signatureread r.data,
                       rval := r.rval }
    let calls := [t_call.serial_read_raw t_dest.signatureread SIZEOF_SIGNATURE]
    if r.rval < 0 then
      if r.errno ≠ EAGAIN ∧ r.errno ≠ EINTR then
        loop_end { e1 with state_next := t_state.STATE_RESET,
                           errornumbers := e1.errornumbers + 1 } calls
      else loop_end e1 calls
    else if r.rval = 0 then
      loop_end { e1 with state_next := t_state.STATE_RESET } calls
    else if r.rval ≠ (SIZEOF_SIGNATURE : Int) then
      loop_end { e1 with state_next := t_state.STATE_RESET,
                         errornumbers := e1.errornumbers + 1 }
        (calls ++ [t_call.serial_device_status])
    else loop_end { e1 with state_next := t_state.STATE_READ_SERIAL_PACKET } calls
  | t_state.STATE_READ_SERIAL_PACKET =>
    if e.signatureread.header = SERIAL_SIGNATURE_HEADER ∧
        e.signatureread.footer = SERIAL_SIGNATURE_FOOTER then
      let e1 := { e with sbufferread := store e.sbufferread r.data, rval := r.rval }
      let calls := [t_call.serial_read_raw t_dest.sbufferread e.signatureread.len]
      if r.rval < 0 then
        if r.errno ≠ EAGAIN ∧ r.errno ≠ EINTR then
          loop_end { e1 with state_next := t_state.STATE_RESET,
                             errornumbers := e1.errornumbers + 1 } calls
        else loop_end e1 calls
      else if r.rval = 0 then
        loop_end { e1 with state_next := t_state.STATE_RESET } calls
      else if r.rval ≠ to_int e.signatureread.len then
        loop_end { e1 with state_next := t_state.STATE_RESET,
                           errornumbers := e1.errornumbers + 1 }
          (calls ++ [t_call.serial_device_status])
      else
        loop_end { e1 with state_next := t_state.STATE_WRITE_SERIAL_PACKET_SIGNATURE_SLAVE }
          calls
    else
      loop_end { e with state_next := t_state.STATE_RESET,
                        errornumbers := e.errornumbers + 1 }
        [t_call.serial_device_status]
  | t_state.STATE_WRITE_SERIAL_PACKET_SIGNATURE_SLAVE =>
    let e1 := { e with signaturewrite :=
                         { header := e.signatureread.header,
                           len := e.signatureread.len,
                           footer := e.signatureread.footer },
                       rval := r.rval }
    let calls := [t_call.serial_send_raw (signature_bytes e1.signaturewrite) SIZEOF_SIGNATURE]
    if r.rval < 0 then
      if r.errno ≠ EAGAIN ∧ r.errno ≠ EINTR then
        loop_end { e1 with state_next := t_state.STATE_RESET,
                           errornumbers := e1.errornumbers + 1 } calls
      else loop_end e1 calls
    else if r.rval = 0 then loop_end e1 calls
    else if r.rval = (SIZEOF_SIGNATURE : Int) then
      loop_end { e1 with state_next := t_state.STATE_WRITE_SERIAL_PACKET_ACK } calls
    else
      loop_end { e1 with state_next := t_state.STATE_RESET,
                         errornumbers := e1.errornumbers + 1 } calls
  | t_state.STATE_WRITE_SERIAL_PACKET_ACK =>
    let e1 := { e with sbufferwrite := memcpy e.sbufferwrite e.sbufferread e.signatureread.len,
                       rval := r.rval }
    let calls :=
      [t_call.serial_send_raw (e1.sbufferwrite.take e.signatureread.len) e.signatureread.len]
    if r.rval < 0 then
      if r.errno ≠ EAGAIN ∧ r.errno ≠ EINTR then
        loop_end { e1 with state_next := t_state.STATE_RESET,
                           errornumbers := e1.errornumbers + 1 } calls
      else loop_end e1 calls
    else if r.rval = 0 then loop_end e1 calls
    else
      loop_end { e1 with state_next := t_state.STATE_WAIT_SERIAL_PACKET_SIGNATURE,
                         goodpacketrx :=
                           if a.dbg_n then e1.goodpacketrx + 1 else e1.goodpacketrx }
        calls
  | t_state.STATE_SEND_COMMAND =>
    let e1 := { e with rval := r.rval }
    let calls := [t_call.serial_send_string DOSLAVE]
    if r.rval < 0 then
      if r.errno ≠ EAGAIN ∧ r.errno ≠ EINTR then
        loop_end { e1 with state_next := t_state.STATE_RESET_SERIAL,
                           errornumbers := e1.errornumbers + 1 } calls
      else loop_end e1 calls
    else if r.rval = 0 then loop_end e1 calls
    else loop_end { e1 with state_next := t_state.STATE_WAIT_COMMAND_ACK } calls
  | t_state.STATE_WAIT_COMMAND_ACK =>
    let e1 := { e with sbufferread := store e.sbufferread r.data, rval := r.rval }
    let calls := [t_call.serial_read_string 800]
    if r.rval < 0 then
      if r.errno ≠ EAGAIN ∧ r.errno ≠ EINTR then
        loop_end { e1 with state_next := t_state.STATE_RESET,
                           errornumbers := e1.errornumbers + 1 } calls
      else loop_end e1 calls
    else if r.rval = 0 then
      loop_end { e1 with state_next := t_state.STATE_RESET,
                         errornumbers := e1.errornumbers + 1 } calls
    else if strcmp DOSLAVECMDACK e1.sbufferread = 0 then
      loop_end { e1 with state_next := t_state.STATE_WRITE_SERIAL_PACKET_SIGNATURE_MASTER }
        calls
    else
      loop_end { e1 with state_next := t_state.STATE_RESET,
                         errornumbers := e1.errornumbers + 1 }
        (calls ++ [t_call.serial_device_status])
  | t_state.STATE_WRITE_SERIAL_PACKET_SIGNATURE_MASTER =>
    let e1 := { e with signaturewrite :=
                         { header := SERIAL_SIGNATURE_HEADER,
                           len := to_u32 (bufferlen a.baudrate2),
                           footer := SERIAL_SIGNATURE_FOOTER },
                       rval := r.rval }
    let calls := [t_call.serial_send_raw (signature_bytes e1.signaturewrite) SIZEOF_SIGNATURE]
    if r.rval < 0 then
      if r.errno ≠ EINTR ∧ r.errno ≠ EAGAIN then
        loop_end { e1 with state_next := t_state.STATE_RESET,
                           errornumbers := e1.errornumbers + 1 } calls
      else loop_end e1 calls
    else if r.rval = 0 then loop_end e1 calls
    else loop_end { e1 with state_next := t_state.STATE_WRITE_SERIAL_PACKET } calls
  | t_state.STATE_WRITE_SERIAL_PACKET =>
    let e1 := { e with sbufferwrite := fillbuffer e.sbufferwrite a.baudrate2,
                       rval := r.rval }
    let calls :=
      [t_call.serial_send_raw (e1.sbufferwrite.take e.signaturewrite.len) e.signaturewrite.len]
    if r.rval < 0 then
      if r.errno ≠ EINTR ∧ r.errno ≠ EAGAIN then
        loop_end { e1 with state_next := t_state.STATE_RESET,
                           errornumbers := e1.errornumbers + 1 } calls
      else loop_end e1 calls
    else if r.rval = 0 then loop_end e1 calls
    else if r.rval = to_int e.signaturewrite.len then
      loop_end { e1 with state_next := t_state.STATE_WAIT_SERIAL_PACKET_ACK_SIGNATURE } calls
    else
      loop_end { e1 with state_next := t_state.STATE_RESET,
                         errornumbers := e1.errornumbers + 1 } calls
  | t_state.STATE_WAIT_SERIAL_PACKET_ACK_SIGNATURE =>
    let e1 := { e with signatureread := signature_store e.signatureread r.data,
                       rval := r.rval }
    let calls := [t_call.serial_read_raw t_dest.signatureread SIZEOF_SIGNATURE]
    if r.rval < 0 then
      if r.errno ≠ EINTR ∨ r.errno ≠ EAGAIN then
        loop_end { e1 with state_next := t_state.STATE_RESET,
                           errornumbers := e1.errornumbers + 1 } calls
      else loop_end e1 calls
    else if r.rval = 0 then
      loop_end { e1 with state_next := t_state.STATE_RESET,
                         errornumbers := e1.errornumbers + 1 }
        (calls ++ [t_call.serial_device_status])
    else if r.rval ≠ (SIZEOF_SIGNATURE : Int) then
      loop_end { e1 with state_next := t_state.STATE_RESET,
                         errornumbers := e1.errornumbers + 1 }
        (calls ++ [t_call.serial_device_status])
    else loop_end { e1 with state_next := t_state.STATE_WAIT_SERIAL_PACKET_ACK } calls
  | t_state.STATE_WAIT_SERIAL_PACKET_ACK =>
    if memcmp (signature_bytes e.signatureread) (signature_bytes e.signaturewrite)
        SIZEOF_SIGNATURE = 0 then
      let e1 := { e with sbufferread := store e.sbufferread r.data, rval := r.rval }
      let calls := [t_call.serial_read_raw t_dest.sbufferread e.signatureread.len]
      if r.rval < 0 then
        if r.errno ≠ EAGAIN ∧ r.errno ≠ EINTR then
          loop_end { e1 with state_next := t_state.STATE_RESET,
                             errornumbers := e1.errornumbers + 1 } calls
        else loop_end e1 calls
      else if r.rval = 0 then
        loop_end { e1 with state_next := t_state.STATE_RESET,
                           errornumbers := e1.errornumbers + 1 } calls
      else if r.rval = to_int e.signatureread.len then
        if memcmp e1.sbufferread e1.sbufferwrite e.signatureread.len = 0 then
          loop_end { e1 with goodpackettx := e1.goodpackettx + 1,
                             state_next := t_state.STATE_WRITE_SERIAL_PACKET_SIGNATURE_MASTER }
            calls
        else
          loop_end { e1 with state_next := t_state.STATE_RESET,
                             errornumbers := e1.errornumbers + 1 }
            (calls ++ [t_call.serial_device_status])
      else
        loop_end { e1 with state_next := t_state.STATE_RESET,
                           errornumbers := e1.errornumbers + 1 }
          (calls ++ [t_call.serial_device_status])
    else
      loop_end { e with state_next := t_state.STATE_RESET,
                        errornumbers := e.errornumbers + 1 }
        [t_call.serial_device_status]
  | t_state.STATE_RESET_SERIAL =>
    let e1 := { e with rval := r.rval }
    let calls := [t_call.serial_device_reset a.baudrate1 a.pre a.post]
    if r.rval < 0 then
      if r.errno ≠ EAGAIN ∧ r.errno ≠ EINTR then
        { eng := e1, calls := calls, exited := true }
      else loop_end { e1 with state_next := t_state.STATE_RESET } calls
    else loop_end { e1 with state_next := t_state.STATE_RESET } calls
  | t_state.STATE_RESET =>
    loop_end { e with timeout :=
                        if e.timeout > 1000 then e.timeout - 1000 else TIMEOUT_MAIN_MS,
                      sbufferread := List.replicate BUFFER_SIZE 0,
                      sbufferwrite := List.replicate BUFFER_SIZE 0,
                      signatureread := signature_of_bytes (List.replicate SIZEOF_SIGNATURE 0),
                      signaturewrite := signature_of_bytes (List.replicate SIZEOF_SIGNATURE 0),
                      state_next := t_state.STATE_START,
                      goodpacketrx := 0,
                      goodpackettx := 0 } []
  | t_state.STATE_LAST => loop_end e []

/-! ## Runs of the two loops -/

/-- The locals of `serial_2_pthread` after the iterations answered by the
given replies, one reply per iteration, from the locals `e`; the run stops
when an iteration leaves the loop. -/
def serial_2_pthread_run (a : t_thread) : t_engine → List t_reply → t_engine
  | e, [] => e
  | e, r :: rs =>
    if (serial_2_pthread_step a e r).exited then (serial_2_pthread_step a e r).eng
    else serial_2_pthread_run a (serial_2_pthread_step a e r).eng rs

/-- The locals of `main` after the iterations answered by the given replies. -/
def main_run (a : t_main) : t_engine → List t_reply → t_engine
  | e, [] => e
  | e, r :: rs =>
    if (main_step a e r).exited then (main_step a e r).eng
    else main_run a (main_step a e r).eng rs

/-- The states in which the iterations of a run of `serial_2_pthread` start. -/
def serial_2_pthread_trace (a : t_thread) : t_engine → List t_reply → List t_state
  | _, [] => []
  | e, r :: rs =>
    e.state :: (if (serial_2_pthread_step a e r).exited then []
      else serial_2_pthread_trace a (serial_2_pthread_step a e r).eng rs)

/-- The states in which the iterations of a run of `main` start. -/
def main_trace (a : t_main) : t_engine → List t_reply → List t_state
  | _, [] => []
  | e, r :: rs =>
    e.state :: (if (main_step a e r).exited then []
      else main_trace a (main_step a e r).eng rs)

/-! ## Sample inputs -/

/-- The second port with the default arguments of `main`: 9600 baud, no delays. -/
def sample_thread : t_thread :=
  { port := { fd := 4, baudrate := 9600, pre := 0, post := 0 }, thread_print := true }

/-- The first port with the default arguments of `main`: 115200 baud for the
port, 9600 baud for the second port, no delays. -/
def sample_main : t_main :=
  { serfd := 3, baudrate1 := 115200, baudrate2 := 9600, pre := 0, post := 0, dbg_n := false }

/-- A reply that reports `n` bytes and stores nothing. -/
def reply_count (n : Int) : t_reply := { rval := n, errno := 0, data := [] }

/-- A reply that reports the failure `-1` with the given `errno`. -/
def reply_error (errno : Int) : t_reply := { rval := -1, errno := errno, data := [] }

/-- A reply of a read that stores `data` and reports its length. -/
def reply_data (data : List Nat) : t_reply :=
  { rval := (data.length : Int), errno := 0, data := data }

/-! ## Invariant of the loops -/

/-- The signature the master sends for the given baud rate. -/
def master_signature (baud : Int) : t_signature :=
  { header := SERIAL_SIGNATURE_HEADER, len := to_u32 (bufferlen baud),
    footer := SERIAL_SIGNATURE_FOOTER }

/-- The invariant of a loop whose master path uses the baud rate `baud`. -/
def engine_inv (baud : Int) (e : t_engine) : Prop :=
  e.sbufferread.length = BUFFER_SIZE ∧ e.sbufferwrite.length = BUFFER_SIZE ∧
  e.signatureread.wf ∧ e.signaturewrite.wf ∧
  (e.state_next = e.state ∨ e.state = t_state.STATE_RESET) ∧
  ((e.state = t_state.STATE_WRITE_SERIAL_PACKET ∨
    e.state = t_state.STATE_WAIT_SERIAL_PACKET_ACK_SIGNATURE ∨
    e.state = t_state.STATE_WAIT_SERIAL_PACKET_ACK) →
      e.signaturewrite = master_signature baud)

/-- The echo of a packet is verified, in the words of the specification: the
read-back signature equals the sent signature in all three fields, the payload
read returns exactly the declared length, and the first `length` bytes of the
read buffer (after the read stored `r.data`) equal the first `length` bytes of
the write buffer. -/
def echo_verified (e : t_engine) (r : t_reply) : Prop :=
  e.signatureread.header = e.signaturewrite.header ∧
  e.signatureread.len = e.signaturewrite.len ∧
  e.signatureread.footer = e.signaturewrite.footer ∧
  r.rval = (e.signatureread.len : Int) ∧
  (store e.sbufferread r.data).take e.signatureread.len =
    e.sbufferwrite.take e.signatureread.len

instance (e : t_engine) (r : t_reply) : Decidable (echo_verified e r) := by
  unfold echo_verified
  infer_instance

/-! ## Sample runs -/

/-- A reply of a string read that stores `s` with its terminator and reports
the number of characters. -/
def reply_string (s : List Nat) : t_reply :=
  { rval := (s.length : Int), errno := 0, data := s ++ [0] }

/-- Replies that lead a freshly started loop along the slave path into
`STATE_WAIT_SERIAL_PACKET_SIGNATURE`: reset, start, the command `DOSLAVE`
read, the command recognised, the acknowledgment written. -/
def slave_replies : List t_reply :=
  [reply_count 0, reply_count 0, reply_string DOSLAVE, reply_count 0, reply_count 15]

/-- Replies that lead a freshly started loop at 9600 baud along the master
path into `STATE_WAIT_SERIAL_PACKET_ACK_SIGNATURE`: reset, start, silence, the
command written, the acknowledgment read, the signature written, the 35 byte
payload written. -/
def master_replies : List t_reply :=
  [reply_count 0, reply_count 0, reply_count 0, reply_count 9, reply_string DOSLAVECMDACK,
   reply_count 12, reply_count 35]

/-- A signature with the right constants that declares 5000 bytes. -/
def oversize_signature : t_signature :=
  { header := SERIAL_SIGNATURE_HEADER, len := 5000, footer := SERIAL_SIGNATURE_FOOTER }

/-- The reply of a payload read that delivers 5000 bytes. -/
def oversize_reply : t_reply :=
  { rval := 5000, errno := 0, data := List.replicate 5000 65 }

/-- The locals of `serial_2_pthread` after a peer sent `DOSLAVE` and then the
signature that declares 5000 bytes. -/
def oversize_thread : t_engine :=
  serial_2_pthread_run sample_thread serial_2_pthread_init
    (slave_replies ++ [reply_data (signature_bytes oversize_signature)])

/-- The locals of `main` after a peer sent `DOSLAVE` and then the signature
that declares 5000 bytes. -/
def oversize_main : t_engine :=
  main_run sample_main main_init
    (slave_replies ++ [reply_data (signature_bytes oversize_signature)])

/-- The locals of `serial_2_pthread` as master, waiting for the echoed
signature. -/
def waiting_thread : t_engine :=
  serial_2_pthread_run sample_thread serial_2_pthread_init master_replies

/-- The locals of `main` as master, waiting for the echoed signature. -/
def waiting_main : t_engine :=
  main_run sample_main main_init master_replies

/-- Locals in `STATE_READ_SERIAL_PACKET` that hold a signature with header 0,
the right footer and the length 77. -/
def bad_header_engine : t_engine :=
  { serial_2_pthread_init with
    state := t_state.STATE_READ_SERIAL_PACKET,
    state_next := t_state.STATE_READ_SERIAL_PACKET,
    signatureread := { header := 0, len := 77, footer := SERIAL_SIGNATURE_FOOTER } }

/-- Locals of a loop that waits for a command. -/
def wait_command_engine : t_engine :=
  { serial_2_pthread_init with
    state := t_state.STATE_WAIT_COMMAND,
    state_next := t_state.STATE_WAIT_COMMAND }

/-- Locals of a loop in `STATE_RESET` after some traffic: counters, buffers and
signatures are not clear and the timeout is 3000 ms. -/
def dirty_reset_engine : t_engine :=
  { state := t_state.STATE_RESET,
    state_next := t_state.STATE_RESET,
    sbufferread := store (List.replicate BUFFER_SIZE 0) [1, 2, 3],
    sbufferwrite := store (List.replicate BUFFER_SIZE 0) [4, 5, 6],
    timeout := 3000,
    rval := -1,
    signatureread := master_signature 9600,
    signaturewrite := master_signature 9600,
    goodpackettx := 7,
    goodpacketrx := 2,
    errornumbers := 5 }

/-- Locals of a slave that holds the received signature of a three byte
packet and is about to echo the signature. -/
def echo_signature_engine : t_engine :=
  { serial_2_pthread_init with
    state := t_state.STATE_WRITE_SERIAL_PACKET_SIGNATURE_SLAVE,
    state_next := t_state.STATE_WRITE_SERIAL_PACKET_SIGNATURE_SLAVE,
    sbufferread := store (List.replicate BUFFER_SIZE 0) [65, 66, 67],
    signatureread :=
      { header := SERIAL_SIGNATURE_HEADER, len := 3, footer := SERIAL_SIGNATURE_FOOTER } }

/-- Locals of a slave that echoed the signature of a three byte packet and is
about to echo the payload. -/
def echo_payload_engine : t_engine :=
  { echo_signature_engine with
    state := t_state.STATE_WRITE_SERIAL_PACKET_ACK,
    state_next := t_state.STATE_WRITE_SERIAL_PACKET_ACK,
    signaturewrite := echo_signature_engine.signatureread }

/-- Locals of a master that sent the three bytes `ABC` and holds the echoed
signature. -/
def verify_engine : t_engine :=
  { serial_2_pthread_init with
    state := t_state.STATE_WAIT_SERIAL_PACKET_ACK,
    state_next := t_state.STATE_WAIT_SERIAL_PACKET_ACK,
    sbufferwrite := store (List.replicate BUFFER_SIZE 0) [65, 66, 67],
    signatureread :=
      { header := SERIAL_SIGNATURE_HEADER, len := 3, footer := SERIAL_SIGNATURE_FOOTER },
    signaturewrite :=
      { header := SERIAL_SIGNATURE_HEADER, len := 3, footer := SERIAL_SIGNATURE_FOOTER } }

/-- Replies of one failed cycle: reset, start, and a command read that fails
with `EIO`. -/
def failed_cycle : List t_reply := [reply_count 0, reply_count 0, reply_error 5]

/-- Replies of five failed cycles in a row. -/
def five_failed_cycles : List t_reply :=
  failed_cycle ++ failed_cycle ++ failed_cycle ++ failed_cycle ++ failed_cycle

/-- The bytes of the payload a master at 9600 baud sends: the first 35 bytes
of the write buffer after `fillbuffer`. -/
def sent_payload : List Nat :=
  (fillbuffer (List.replicate BUFFER_SIZE 0) 9600).take 35

/-- Replies that lead a freshly started master at 9600 baud into
`STATE_WAIT_SERIAL_PACKET_ACK` with the sent signature echoed. -/
def verify_replies : List t_reply :=
  master_replies ++ [reply_data (signature_bytes (master_signature 9600))]

/-! ## Sample inputs for the error and codec claims -/

/-- Locals in `STATE_COMMAND_RECEIVED` whose read buffer holds the string
`JUNK`. -/
def junk_engine : t_engine :=
  { serial_2_pthread_init with
    state := t_state.STATE_COMMAND_RECEIVED,
    state_next := t_state.STATE_COMMAND_RECEIVED,
    sbufferread := store (List.replicate BUFFER_SIZE 0) [74, 85, 78, 75] }

/-- The locals of `serial_2_pthread` as slave, waiting for a signature. -/
def slave_waiting_thread : t_engine :=
  serial_2_pthread_run sample_thread serial_2_pthread_init slave_replies

/-- The locals of `main` as slave, waiting for a signature. -/
def slave_waiting_main : t_engine :=
  main_run sample_main main_init slave_replies

/-- The locals of `serial_2_pthread` as slave, holding the valid signature of
a 35 byte packet. -/
def slave_reading_thread : t_engine :=
  serial_2_pthread_run sample_thread serial_2_pthread_init
    (slave_replies ++ [reply_data (signature_bytes (master_signature 9600))])

/-- The locals of `main` as slave, holding the valid signature of a 35 byte
packet. -/
def slave_reading_main : t_engine :=
  main_run sample_main main_init
    (slave_replies ++ [reply_data (signature_bytes (master_signature 9600))])

/-- The locals of `serial_2_pthread` after a peer sent the line `JUNK`. -/
def junk_thread : t_engine :=
  serial_2_pthread_run sample_thread serial_2_pthread_init
    [reply_count 0, reply_count 0, reply_string [74, 85, 78, 75]]

/-- The locals of `main` after a peer sent the line `JUNK`. -/
def junk_main : t_engine :=
  main_run sample_main main_init
    [reply_count 0, reply_count 0, reply_string [74, 85, 78, 75]]

/-- Twelve bytes with the header 0, the length 5 and the right footer. -/
def garbled_signature : t_signature :=
  { header := 0, len := 5, footer := SERIAL_SIGNATURE_FOOTER }

/-- Replies that lead a freshly started loop along the master path into
`STATE_WRITE_SERIAL_PACKET_SIGNATURE_MASTER`: reset, start, silence, the
command written, the acknowledgment read. -/
def handshake_replies : List t_reply :=
  [reply_count 0, reply_count 0, reply_count 0, reply_count 9, reply_string DOSLAVECMDACK]

/-- The locals of `serial_2_pthread` as master, about to send a signature. -/
def master_ready_thread : t_engine :=
  serial_2_pthread_run sample_thread serial_2_pthread_init handshake_replies

/-- The locals of `main` as master, about to send a signature. -/
def master_ready_main : t_engine :=
  main_run sample_main main_init handshake_replies

/-! ## Sample inputs for the round and loop claims -/

/-- Replies that lead a freshly started loop into `STATE_RESET_SERIAL`: reset,
start, silence, and a command write that fails with `EIO`. -/
def reset_serial_replies : List t_reply :=
  [reply_count 0, reply_count 0, reply_count 0, reply_error 5]

/-- The locals of `serial_2_pthread` about to reinitialise the device. -/
def reset_serial_thread : t_engine :=
  serial_2_pthread_run sample_thread serial_2_pthread_init reset_serial_replies

/-- The locals of `main` about to reinitialise the device. -/
def reset_serial_main : t_engine :=
  main_run sample_main main_init reset_serial_replies

/-- Replies that lead a freshly started loop along the slave path into
`STATE_WRITE_SERIAL_PACKET_ACK` with a received packet of 35 bytes: the
handshake, the signature read, the payload read, the signature echoed. -/
def echo_replies : List t_reply :=
  slave_replies ++ [reply_data (signature_bytes (master_signature 9600)),
    reply_data sent_payload, reply_count 12]

/-- The locals of `serial_2_pthread` as slave, about to echo a 35 byte
payload. -/
def slave_echoing_thread : t_engine :=
  serial_2_pthread_run sample_thread serial_2_pthread_init echo_replies

/-- The locals of `main` as slave, about to echo a 35 byte payload. -/
def slave_echoing_main : t_engine :=
  main_run sample_main main_init echo_replies

/-- The locals of `serial_2_pthread` as slave, about to echo the signature of
a received 35 byte packet. -/
def slave_signing_thread : t_engine :=
  serial_2_pthread_run sample_thread serial_2_pthread_init
    (slave_replies ++ [reply_data (signature_bytes (master_signature 9600)),
      reply_data sent_payload])

/-- The arguments of `sample_main` with a `DBG_N` that evaluates its
arguments. -/
def sample_main_noisy : t_main :=
  { sample_main with dbg_n := true }

/-- Locals in `STATE_READ_SERIAL_PACKET` that hold a valid signature of a
packet of length 0. -/
def zero_length_engine : t_engine :=
  { serial_2_pthread_init with
    state := t_state.STATE_READ_SERIAL_PACKET,
    state_next := t_state.STATE_READ_SERIAL_PACKET,
    signatureread :=
      { header := SERIAL_SIGNATURE_HEADER, len := 0, footer := SERIAL_SIGNATURE_FOOTER } }

/-! ## The hex dump `print_payload` -/

/-- One call `print_hex_ascii_line(payload, len, offset)`: the bytes the call
prints (the first `len` bytes behind the pointer) and its two integer
arguments. -/
structure t_line where
  bytes : List Nat
  len : Int
  offset : Int
  deriving DecidableEq, Repr

/-- The function `print_hex_ascii_line`, as the line it draws; `payload` is
the memory behind the pointer argument. -/
def print_hex_ascii_line (payload : List Nat) (len : Int) (offset : Int) : t_line :=
  { bytes := payload.take len.toNat, len := len, offset := offset }

/-- The `for (;;)` loop of `print_payload`, with `line_width = 16`: the lines
it draws, or `none` when the fuel does not suffice for the loop to reach its
`break`.  `ch` is the memory behind the pointer `ch`.  (A remaining length 0
would make the source divide by zero; `Int.tmod` then returns its first
argument.) -/
def print_payload_loop : Nat → List Nat → Int → Int → Option (List t_line)
  | 0, _, _, _ => none
  | fuel + 1, ch, len_rem, offset =>
    if len_rem - Int.tmod 16 len_rem ≤ 16 then
      some [print_hex_ascii_line ch (Int.tmod 16 len_rem) offset,
        print_hex_ascii_line (ch.drop (Int.tmod 16 len_rem).toNat)
          (len_rem - Int.tmod 16 len_rem) (offset + 16)]
    else
      (print_payload_loop fuel (ch.drop (Int.tmod 16 len_rem).toNat)
        (len_rem - Int.tmod 16 len_rem) (offset + 16)).map
        (fun rest => print_hex_ascii_line ch (Int.tmod 16 len_rem) offset :: rest)

/-- The function `print_payload`, as the list of lines it draws.  The levels
`DBG_VERBOSE` and `DBG_ERROR` are macros of `debug.h`, which is not part of
the translation unit, and are parameters here. -/
def print_payload (DBG_VERBOSE DBG_ERROR : Int) (fuel : Nat) (payload : List Nat)
    (len : Int) (dbglvl : Int) : Option (List t_line) :=
  if dbglvl ≥ DBG_VERBOSE ∨ dbglvl = DBG_ERROR then
    if len ≤ 0 then some []
    else if len ≤ 16 then some [print_hex_ascii_line payload len 0]
    else print_payload_loop fuel payload len 0
  else some []

/-- The values of `len_rem` at the evaluations of `line_width % len_rem` in
the `for (;;)` loop of `print_payload`, in order: the divisors of the modulo.
The control flow is that of `print_payload_loop`. -/
def print_payload_divisors : Nat → Int → Option (List Int)
  | 0, _ => none
  | fuel + 1, len_rem =>
    if len_rem - Int.tmod 16 len_rem ≤ 16 then some [len_rem]
    else
      (print_payload_divisors fuel (len_rem - Int.tmod 16 len_rem)).map
        (fun rest => len_rem :: rest)

/-! ## Two loops joined by a loopback transport -/

/-- The first transport call of the iteration that starts from the locals `e`
(it does not depend on the answer of the transport). -/
def serial_2_pthread_call (a : t_thread) (e : t_engine) : Option t_call :=
  (serial_2_pthread_step a e { rval := 0, errno := 0, data := [] }).calls.head?

/-- The line at the head of a byte queue, up to and with its line feed. -/
def read_line : List Nat → List Nat
  | [] => []
  | c :: cs => if c = 10 then [c] else c :: read_line cs

/-- Modelled from the spec: the answer of the lossless in-memory loopback
transport of the end-to-end scenario (the functions of `serial.h` are not
part of the translation unit) to a call, given the bytes `incoming` that the
peer wrote and that were not read yet.  A raw read delivers the bytes at the
head of the queue, at most the number asked for, and reports their count (0
is the timeout); a string read delivers the line at the head of the queue
with a terminator; a write accepts all bytes and reports their count. -/
def loopback_reply (call : Option t_call) (incoming : List Nat) : t_reply :=
  match call with
  | some (t_call.serial_read_raw _ n) =>
    { rval := ((incoming.take n).length : Int), errno := 0, data := incoming.take n }
  | some (t_call.serial_read_string _) =>
    { rval := ((read_line incoming).length : Int), errno := 0,
      data := if read_line incoming = [] then [] else read_line incoming ++ [0] }
  | some (t_call.serial_send_raw _ n) => { rval := (n : Int), errno := 0, data := [] }
  | some (t_call.serial_send_string s) => { rval := (s.length : Int), errno := 0, data := [] }
  | _ => { rval := 0, errno := 0, data := [] }

/-- Modelled from the spec: the bytes that stay in the incoming queue of the
loopback transport after a call: a read removes what it delivered, a flush of
the receive direction removes everything. -/
def loopback_rest (call : Option t_call) (incoming : List Nat) : List Nat :=
  match call with
  | some (t_call.serial_read_raw _ n) => incoming.drop n
  | some (t_call.serial_read_string _) => incoming.drop (read_line incoming).length
  | some t_call.serial_flush_rx => []
  | _ => incoming

/-- Modelled from the spec: the bytes that a call hands to the loopback
transport for the peer, unchanged and in order. -/
def loopback_sent (call : Option t_call) : List Nat :=
  match call with
  | some (t_call.serial_send_raw bytes _) => bytes
  | some (t_call.serial_send_string s) => s
  | _ => []

/-- Two loops of `serial_2_pthread`, `a` and `b`, and the bytes in flight in
both directions of the loopback transport. -/
structure t_link where
  a : t_engine
  b : t_engine
  a_to_b : List Nat
  b_to_a : List Nat
  deriving DecidableEq, Repr

/-- One iteration of one of the two loops (`who = true`: loop `a`) against the
loopback transport. -/
def link_step (ta tb : t_thread) (l : t_link) (who : Bool) : t_link :=
  if who then
    { a := (serial_2_pthread_step ta l.a
        (loopback_reply (serial_2_pthread_call ta l.a) l.b_to_a)).eng,
      b := l.b,
      a_to_b := l.a_to_b ++ loopback_sent (serial_2_pthread_call ta l.a),
      b_to_a := loopback_rest (serial_2_pthread_call ta l.a) l.b_to_a }
  else
    { a := l.a,
      b := (serial_2_pthread_step tb l.b
        (loopback_reply (serial_2_pthread_call tb l.b) l.a_to_b)).eng,
      a_to_b := loopback_rest (serial_2_pthread_call tb l.b) l.a_to_b,
      b_to_a := l.b_to_a ++ loopback_sent (serial_2_pthread_call tb l.b) }

/-- The two loops after the iterations of a schedule. -/
def link_run (ta tb : t_thread) : t_link → List Bool → t_link
  | l, [] => l
  | l, who :: rest => link_run ta tb (link_step ta tb l who) rest

/-- The configurations of the two loops before each iteration of a schedule
and after the last one. -/
def link_history (ta tb : t_thread) : t_link → List Bool → List t_link
  | l, [] => [l]
  | l, who :: rest => l :: link_history ta tb (link_step ta tb l who) rest

/-- The pairs of states of the two loops before each iteration of a schedule
and after the last one. -/
def link_visited (ta tb : t_thread) (l : t_link) (schedule : List Bool) :
    List (t_state × t_state) :=
  (link_history ta tb l schedule).map (fun x => (x.a.state, x.b.state))

/-- The schedule of one round in which every read finds its bytes: the master
`a` writes the signature and the payload, the slave `b` reads both and echoes
both, the master reads both back. -/
def round_schedule : List Bool := [true, true, false, false, false, false, true, true]

/-- The schedule of `n` rounds. -/
def schedule_rounds : Nat → List Bool
  | 0 => []
  | n + 1 => round_schedule ++ schedule_rounds n

/-- The start of a round: `a` is master and about to send a signature, `b` is
slave and waits for a signature, no byte is in flight, and the four buffers
have their 4096 bytes. -/
def round_start (l : t_link) : Prop :=
  l.a.state = t_state.STATE_WRITE_SERIAL_PACKET_SIGNATURE_MASTER ∧
  l.b.state = t_state.STATE_WAIT_SERIAL_PACKET_SIGNATURE ∧
  l.a_to_b = [] ∧ l.b_to_a = [] ∧
  l.a.sbufferread.length = BUFFER_SIZE ∧ l.a.sbufferwrite.length = BUFFER_SIZE ∧
  l.b.sbufferread.length = BUFFER_SIZE ∧ l.b.sbufferwrite.length = BUFFER_SIZE

/-- Two freshly started loops and an empty loopback transport. -/
def link_init : t_link :=
  { a := serial_2_pthread_init, b := serial_2_pthread_init, a_to_b := [], b_to_a := [] }

/-- The schedule of a handshake from `link_init`: both loops reset and start,
`a` hears nothing and sends the command, `b` reads it and acknowledges, `a`
reads the acknowledgment. -/
def handshake_schedule : List Bool :=
  [true, false, true, false, true, true, false, false, false, true]

/-- The two sample loops after the handshake: `a` is master, `b` is slave. -/
def link_ready : t_link :=
  link_run sample_thread sample_thread link_init handshake_schedule

/-! ## Helper lemmas -/

theorem store_length (buf data : List Nat) : (store buf data).length = buf.length := by
  induction buf generalizing data with
  | nil => simp [store]
  | cons b bs ih =>
    cases data with
    | nil => simp [store]
    | cons d ds => simp [store, ih]

theorem byte_at_zero (a : List Nat) : byte_at a 0 = a.headD 0 := by
  cases a <;> simp [byte_at]

theorem byte_at_succ (a : List Nat) (i : Nat) : byte_at a (i + 1) = byte_at a.tail i := by
  cases a <;> simp [byte_at]

theorem strcmp_eq_zero_iff (a b : List Nat) : strcmp a b = 0 ↔ cstring a = cstring b := by
  induction a generalizing b with
  | nil =>
    cases b with
    | nil => simp [strcmp, cstring]
    | cons y ys =>
      by_cases hy : y = 0
      · simp [strcmp, cstring, hy]
      · simp [strcmp, cstring, hy]
  | cons x xs ih =>
    cases b with
    | nil =>
      by_cases hx : x = 0
      · simp [strcmp, cstring, hx]
      · simp [strcmp, cstring, hx]
    | cons y ys =>
      by_cases hxy : x = y
      · subst hxy
        by_cases hx : x = 0
        · simp [strcmp, cstring, hx]
        · simp [strcmp, cstring, hx, ih]
      · have hne : (x : Int) - (y : Int) ≠ 0 := by omega
        by_cases hx : x = 0
        · have hy : y ≠ 0 := fun h => hxy (by rw [hx, h])
          simp [strcmp, cstring, hx, hy, hxy, hne]
          omega
        · by_cases hy : y = 0
          · simp [strcmp, cstring, hx, hy, hxy, hne]
          · simp [strcmp, cstring, hx, hy, hxy, hne]

theorem memcmp_eq_zero_iff (n : Nat) (a b : List Nat) :
    memcmp a b n = 0 ↔ ∀ i, i < n → byte_at a i = byte_at b i := by
  induction n generalizing a b with
  | zero => simp [memcmp]
  | succ k ih =>
    by_cases h : a.headD 0 = b.headD 0
    · simp only [memcmp, h, ne_eq, not_true_eq_false, if_false, ih]
      constructor
      · intro hall i hi
        cases i with
        | zero => simpa [byte_at_zero] using h
        | succ j =>
          rw [byte_at_succ, byte_at_succ]
          exact hall j (by omega)
      · intro hall i hi
        have := hall (i + 1) (by omega)
        rwa [byte_at_succ, byte_at_succ] at this
    · have hne : (a.headD 0 : Int) - (b.headD 0 : Int) ≠ 0 := by omega
      simp only [memcmp, ne_eq, h, not_false_eq_true, if_true, hne, false_iff]
      intro hall
      have := hall 0 (by omega)
      rw [byte_at_zero, byte_at_zero] at this
      exact h this

theorem memcmp_self (n : Nat) (a : List Nat) : memcmp a a n = 0 :=
  (memcmp_eq_zero_iff n a a).mpr (fun _ _ => rfl)

theorem u32_roundtrip (x : Nat) (h : x < 4294967296) : u32_of_bytes (u32_bytes x) = x := by
  simp only [u32_of_bytes, u32_bytes, byte_at, List.getD_cons_zero, List.getD_cons_succ]
  omega

theorem u32_of_bytes_lt (l : List Nat) : u32_of_bytes l < 4294967296 := by
  simp only [u32_of_bytes]
  omega

theorem signature_roundtrip (s : t_signature) (h : s.wf) :
    signature_of_bytes (signature_bytes s) = s := by
  obtain ⟨h1, h2, h3⟩ := h
  have e1 := u32_roundtrip s.header h1
  have e2 := u32_roundtrip s.len h2
  have e3 := u32_roundtrip s.footer h3
  cases s with
  | mk hd ln ft =>
    simp only [signature_of_bytes, signature_bytes, u32_bytes, List.cons_append,
      List.nil_append, List.drop_succ_cons, List.drop_zero, t_signature.mk.injEq]
    simp only [u32_of_bytes, u32_bytes, byte_at, List.getD_cons_zero, List.getD_cons_succ] at *
    exact ⟨e1, e2, e3⟩

theorem signature_of_bytes_wf (l : List Nat) : (signature_of_bytes l).wf :=
  ⟨u32_of_bytes_lt _, u32_of_bytes_lt _, u32_of_bytes_lt _⟩

theorem signature_bytes_length (s : t_signature) : (signature_bytes s).length = 12 := by
  simp [signature_bytes, u32_bytes]

theorem eq_of_byte_at {a b : List Nat} (n : Nat) (ha : a.length = n) (hb : b.length = n)
    (h : ∀ i, i < n → byte_at a i = byte_at b i) : a = b := by
  apply List.ext_getElem (by rw [ha, hb])
  intro i h1 h2
  have := h i (by omega)
  simp only [byte_at, List.getD_eq_getElem?_getD] at this
  rw [List.getElem?_eq_getElem h1, List.getElem?_eq_getElem h2] at this
  simpa using this

theorem memcmp_signature_iff (s t : t_signature) (hs : s.wf) (ht : t.wf) :
    memcmp (signature_bytes s) (signature_bytes t) SIZEOF_SIGNATURE = 0 ↔ s = t := by
  constructor
  · intro h
    have hb : signature_bytes s = signature_bytes t :=
      eq_of_byte_at 12 (signature_bytes_length s) (signature_bytes_length t)
        ((memcmp_eq_zero_iff _ _ _).mp h)
    rw [← signature_roundtrip s hs, ← signature_roundtrip t ht, hb]
  · intro h
    rw [h]
    exact memcmp_self _ _

theorem bufferlen_range (b : Int) : 10 ≤ bufferlen b ∧ bufferlen b ≤ 70 := by
  unfold bufferlen
  split_ifs <;> omega

theorem to_u32_bufferlen (b : Int) :
    10 ≤ to_u32 (bufferlen b) ∧ to_u32 (bufferlen b) ≤ 70 ∧
      ((to_u32 (bufferlen b) : Nat) : Int) = bufferlen b := by
  have h := bufferlen_range b
  unfold to_u32
  omega

theorem to_int_small (n : Nat) (h : n < 2147483648) : to_int n = (n : Int) := by
  unfold to_int
  have h1 : n % 4294967296 = n := Nat.mod_eq_of_lt (by omega)
  rw [h1, if_pos h]

theorem store_at_length (buf : List Nat) (off : Nat) (data : List Nat) :
    (store_at buf off data).length = buf.length := by
  simp only [store_at, List.length_append, List.length_take, store_length, List.length_drop]
  omega

theorem fill_length (s : List Nat) (len : Nat) (z : Nat) (buf : List Nat) (off : Nat) :
    (fill buf off s len z).length = buf.length := by
  induction z generalizing buf off with
  | zero => simp [fill]
  | succ k ih => simp [fill, ih, store_at_length]

theorem fillbuffer_length (buf : List Nat) (b : Int) :
    (fillbuffer buf b).length = buf.length := by
  simp [fillbuffer, fill_length]

theorem take_eq_iff_byte_at (n : Nat) (a b : List Nat) (ha : n ≤ a.length) (hb : n ≤ b.length) :
    a.take n = b.take n ↔ ∀ i, i < n → byte_at a i = byte_at b i := by
  constructor
  · intro h i hi
    have h1 : byte_at a i = byte_at (a.take n) i := by
      simp [byte_at, List.getD_eq_getElem?_getD, List.getElem?_take, hi]
    have h2 : byte_at b i = byte_at (b.take n) i := by
      simp [byte_at, List.getD_eq_getElem?_getD, List.getElem?_take, hi]
    rw [h1, h2, h]
  · intro h
    apply eq_of_byte_at n (by simp [ha]) (by simp [hb])
    intro i hi
    have h1 : byte_at a i = byte_at (a.take n) i := by
      simp [byte_at, List.getD_eq_getElem?_getD, List.getElem?_take, hi]
    have h2 : byte_at b i = byte_at (b.take n) i := by
      simp [byte_at, List.getD_eq_getElem?_getD, List.getElem?_take, hi]
    rw [← h1, ← h2]
    exact h i hi

theorem master_signature_wf (baud : Int) : (master_signature baud).wf := by
  have h := to_u32_bufferlen baud
  simp only [t_signature.wf, master_signature, SERIAL_SIGNATURE_HEADER, SERIAL_SIGNATURE_FOOTER]
  omega

theorem loop_end_state (e : t_engine) (c : List t_call) :
    (loop_end e c).eng.state = e.state_next := by
  unfold loop_end
  by_cases h : e.state = e.state_next
  · simp [h]
  · simp [h]

theorem loop_end_inv (baud : Int) (e : t_engine) (c : List t_call)
    (h1 : e.sbufferread.length = BUFFER_SIZE) (h2 : e.sbufferwrite.length = BUFFER_SIZE)
    (h3 : e.signatureread.wf) (h4 : e.signaturewrite.wf)
    (h6 : (e.state_next = t_state.STATE_WRITE_SERIAL_PACKET ∨
      e.state_next = t_state.STATE_WAIT_SERIAL_PACKET_ACK_SIGNATURE ∨
      e.state_next = t_state.STATE_WAIT_SERIAL_PACKET_ACK) →
        e.signaturewrite = master_signature baud) :
    engine_inv baud (loop_end e c).eng := by
  unfold loop_end engine_inv
  split_ifs with h
  · exact ⟨h1, h2, h3, h4, Or.inl rfl, h6⟩
  · have hst : e.state = e.state_next := not_not.mp h
    rw [hst]
    exact ⟨h1, h2, h3, h4, Or.inl rfl, h6⟩

set_option maxHeartbeats 1000000 in
theorem serial_2_pthread_step_inv (a : t_thread) (e : t_engine) (r : t_reply)
    (h : engine_inv a.port.baudrate e) :
    engine_inv a.port.baudrate (serial_2_pthread_step a e r).eng := by
  obtain ⟨h1, h2, h3, h4, h5, h6⟩ := h
  have hz := signature_of_bytes_wf (List.replicate SIZEOF_SIGNATURE 0)
  have hm : t_signature.wf ⟨SERIAL_SIGNATURE_HEADER, to_u32 (bufferlen a.port.baudrate),
      SERIAL_SIGNATURE_FOOTER⟩ := master_signature_wf a.port.baudrate
  have hw : t_signature.wf
      ⟨e.signatureread.header, e.signatureread.len, e.signatureread.footer⟩ := h3
  cases hs : e.state <;>
    simp only [hs, false_or, reduceCtorEq, or_false, or_true, true_or, true_implies] at h5 h6 <;>
    simp only [serial_2_pthread_step, hs]
  all_goals (try split_ifs)
  all_goals (try (apply loop_end_inv <;>
        simp only [store_length, fillbuffer_length, memcpy, h1, h2, h3, h4, h5,
          signature_store, signature_of_bytes_wf, List.length_replicate, reduceCtorEq,
          or_false, false_or, or_true, true_or, false_implies, implies_true, true_implies,
          hz, hm, hw] <;>
        first | exact h6 | rfl))
  exact ⟨h1, h2, h3, h4, Or.inl h5, by simp⟩

set_option maxHeartbeats 1000000 in
theorem main_step_inv (a : t_main) (e : t_engine) (r : t_reply)
    (h : engine_inv a.baudrate2 e) :
    engine_inv a.baudrate2 (main_step a e r).eng := by
  obtain ⟨h1, h2, h3, h4, h5, h6⟩ := h
  have hz := signature_of_bytes_wf (List.replicate SIZEOF_SIGNATURE 0)
  have hm : t_signature.wf ⟨SERIAL_SIGNATURE_HEADER, to_u32 (bufferlen a.baudrate2),
      SERIAL_SIGNATURE_FOOTER⟩ := master_signature_wf a.baudrate2
  have hw : t_signature.wf
      ⟨e.signatureread.header, e.signatureread.len, e.signatureread.footer⟩ := h3
  cases hs : e.state <;>
    simp only [hs, false_or, reduceCtorEq, or_false, or_true, true_or, true_implies] at h5 h6 <;>
    simp only [main_step, hs]
  all_goals (try split_ifs)
  all_goals (try (apply loop_end_inv <;>
        simp only [store_length, fillbuffer_length, memcpy, h1, h2, h3, h4, h5,
          signature_store, signature_of_bytes_wf, List.length_replicate, reduceCtorEq,
          or_false, false_or, or_true, true_or, false_implies, implies_true, true_implies,
          hz, hm, hw] <;>
        first | exact h6 | rfl))
  exact ⟨h1, h2, h3, h4, Or.inl h5, by simp⟩

theorem serial_2_pthread_init_inv (baud : Int) : engine_inv baud serial_2_pthread_init := by
  refine ⟨by simp [serial_2_pthread_init], by simp [serial_2_pthread_init], by decide,
    by decide, Or.inr rfl, ?_⟩
  simp [serial_2_pthread_init]

theorem main_init_inv (baud : Int) : engine_inv baud main_init := by
  refine ⟨by simp [main_init], by simp [main_init], by decide,
    by decide, Or.inr rfl, ?_⟩
  simp [main_init]

theorem serial_2_pthread_run_inv (a : t_thread) (rs : List t_reply) (e : t_engine)
    (h : engine_inv a.port.baudrate e) :
    engine_inv a.port.baudrate (serial_2_pthread_run a e rs) := by
  induction rs generalizing e with
  | nil => exact h
  | cons r rs ih =>
    simp only [serial_2_pthread_run]
    split_ifs
    · exact serial_2_pthread_step_inv a e r h
    · exact ih _ (serial_2_pthread_step_inv a e r h)

theorem main_run_inv (a : t_main) (rs : List t_reply) (e : t_engine)
    (h : engine_inv a.baudrate2 e) :
    engine_inv a.baudrate2 (main_run a e rs) := by
  induction rs generalizing e with
  | nil => exact h
  | cons r rs ih =>
    simp only [main_run]
    split_ifs
    · exact main_step_inv a e r h
    · exact ih _ (main_step_inv a e r h)

theorem store_take_of_le (buf data : List Nat) (n : Nat) (h : data.length = n)
    (hb : n ≤ buf.length) : (store buf data).take n = data := by
  induction buf generalizing data n with
  | nil =>
    have : n = 0 := by simpa using hb
    subst this
    have : data = [] := List.length_eq_zero.mp h
    simp [store, this]
  | cons b bs ih =>
    cases data with
    | nil =>
      have : n = 0 := by simpa using h.symm
      simp [this]
    | cons d ds =>
      cases n with
      | zero => simp at h
      | succ k =>
        simp only [store, List.take_succ_cons, List.cons.injEq, true_and]
        exact ih ds k (by simpa using h) (by simpa using hb)

theorem store_of_length_le (buf data : List Nat) (h : buf.length ≤ data.length) :
    store buf data = data.take buf.length := by
  induction buf generalizing data with
  | nil => simp [store]
  | cons b bs ih =>
    cases data with
    | nil => simp at h
    | cons d ds =>
      simp only [store, List.length_cons, List.take_succ_cons, List.cons.injEq, true_and]
      exact ih ds (by simpa using h)

theorem memcpy_take (dst src : List Nat) (n : Nat) (h : src.length = dst.length) :
    (memcpy dst src n).take n = src.take n := by
  unfold memcpy
  by_cases hn : n ≤ src.length
  · exact store_take_of_le dst (src.take n) n (by simp [hn]) (by omega)
  · have h1 : src.take n = src := List.take_of_length_le (by omega)
    rw [h1, store_of_length_le dst src (by omega), ← h, List.take_length]
    exact h1

theorem loop_end_eq (e : t_engine) (c : List t_call) :
    loop_end e c = { eng := { e with state := e.state_next }, calls := c, exited := false } := by
  unfold loop_end
  by_cases h : e.state = e.state_next
  · simp only [h, ne_eq, not_true_eq_false, if_false]
    cases e
    simp_all
  · simp only [h, ne_eq, not_false_eq_true, if_true]

theorem serial_2_pthread_step_timeout (a : t_thread) (e : t_engine) (r : t_reply) :
    (serial_2_pthread_step a e r).eng.timeout =
      if e.state = t_state.STATE_RESET then
        (if e.timeout > 1000 then e.timeout - 1000 else TIMEOUT_THREAD_MS)
      else e.timeout := by
  cases hs : e.state <;> simp only [serial_2_pthread_step, hs, loop_end_eq] <;>
    (try split_ifs) <;> simp_all

theorem main_step_timeout (a : t_main) (e : t_engine) (r : t_reply) :
    (main_step a e r).eng.timeout =
      if e.state = t_state.STATE_RESET then
        (if e.timeout > 1000 then e.timeout - 1000 else TIMEOUT_MAIN_MS)
      else e.timeout := by
  cases hs : e.state <;> simp only [main_step, hs, loop_end_eq] <;>
    (try split_ifs) <;> simp_all

theorem serial_2_pthread_run_timeout (a : t_thread) (rs : List t_reply) (e : t_engine)
    (h : e.timeout = 1000) : (serial_2_pthread_run a e rs).timeout = 1000 := by
  have hstep : ∀ (x : t_engine) (r : t_reply), x.timeout = 1000 →
      (serial_2_pthread_step a x r).eng.timeout = 1000 := by
    intro x r hx
    rw [serial_2_pthread_step_timeout, hx]
    simp [TIMEOUT_THREAD_MS]
  induction rs generalizing e with
  | nil => exact h
  | cons r rs ih =>
    simp only [serial_2_pthread_run]
    split_ifs
    · exact hstep e r h
    · exact ih _ (hstep e r h)

theorem main_run_timeout (a : t_main) (rs : List t_reply) (e : t_engine) (k : Nat)
    (hk : k < 5) (h : e.timeout = 5000 - 1000 * (k : Int)) :
    (main_run a e rs).timeout =
      5000 - 1000 * (((k + (main_trace a e rs).count t_state.STATE_RESET) % 5 : Nat) : Int) := by
  induction rs generalizing e k with
  | nil =>
    simp only [main_run, main_trace, List.count_nil, Nat.add_zero]
    rw [Nat.mod_eq_of_lt hk]
    exact h
  | cons r rs ih =>
    have hstep := main_step_timeout a e r
    by_cases hs : e.state = t_state.STATE_RESET
    · rw [if_pos hs] at hstep
      have hnext : (main_step a e r).eng.timeout = 5000 - 1000 * (((k + 1) % 5 : Nat) : Int) := by
        rw [hstep, h]
        simp only [TIMEOUT_MAIN_MS]
        split_ifs <;> omega
      simp only [main_run, main_trace, hs, List.count_cons_self]
      split_ifs
      · simp only [List.count_nil, Nat.zero_add]
        exact hnext
      · rw [ih _ ((k + 1) % 5) (Nat.mod_lt _ (by omega)) hnext]
        congr 3
        omega
    · rw [if_neg hs] at hstep
      have hcount : ∀ l : List t_state,
          (e.state :: l).count t_state.STATE_RESET = l.count t_state.STATE_RESET := by
        intro l
        simp [List.count_cons, hs]
      simp only [main_run, main_trace, hcount]
      split_ifs
      · simp only [List.count_nil, Nat.add_zero]
        rw [Nat.mod_eq_of_lt hk, hstep]
        exact h
      · exact ih _ k hk (by rw [hstep]; exact h)

theorem signature_eq_of_fields (s t : t_signature) (h1 : s.header = t.header)
    (h2 : s.len = t.len) (h3 : s.footer = t.footer) : s = t := by
  cases s
  cases t
  simp_all

theorem serial_2_pthread_wait_ack (a : t_thread) (e : t_engine) (r : t_reply)
    (hs : e.state = t_state.STATE_WAIT_SERIAL_PACKET_ACK) :
    ((memcmp (signature_bytes e.signatureread) (signature_bytes e.signaturewrite)
          SIZEOF_SIGNATURE = 0 ∧ 0 < r.rval ∧ r.rval = to_int e.signatureread.len ∧
        memcmp (store e.sbufferread r.data) e.sbufferwrite e.signatureread.len = 0) →
      (serial_2_pthread_step a e r).eng.goodpackettx = e.goodpackettx + 1 ∧
      (serial_2_pthread_step a e r).eng.state =
        t_state.STATE_WRITE_SERIAL_PACKET_SIGNATURE_MASTER) ∧
    (¬ (memcmp (signature_bytes e.signatureread) (signature_bytes e.signaturewrite)
          SIZEOF_SIGNATURE = 0 ∧ 0 < r.rval ∧ r.rval = to_int e.signatureread.len ∧
        memcmp (store e.sbufferread r.data) e.sbufferwrite e.signatureread.len = 0) →
      (serial_2_pthread_step a e r).eng.goodpackettx = e.goodpackettx) := by
  simp only [serial_2_pthread_step, hs, loop_end_eq]
  split_ifs <;> simp_all <;> omega

theorem main_wait_ack (a : t_main) (e : t_engine) (r : t_reply)
    (hs : e.state = t_state.STATE_WAIT_SERIAL_PACKET_ACK) :
    ((memcmp (signature_bytes e.signatureread) (signature_bytes e.signaturewrite)
          SIZEOF_SIGNATURE = 0 ∧ 0 < r.rval ∧ r.rval = to_int e.signatureread.len ∧
        memcmp (store e.sbufferread r.data) e.sbufferwrite e.signatureread.len = 0) →
      (main_step a e r).eng.goodpackettx = e.goodpackettx + 1 ∧
      (main_step a e r).eng.state =
        t_state.STATE_WRITE_SERIAL_PACKET_SIGNATURE_MASTER) ∧
    (¬ (memcmp (signature_bytes e.signatureread) (signature_bytes e.signaturewrite)
          SIZEOF_SIGNATURE = 0 ∧ 0 < r.rval ∧ r.rval = to_int e.signatureread.len ∧
        memcmp (store e.sbufferread r.data) e.sbufferwrite e.signatureread.len = 0) →
      (main_step a e r).eng.goodpackettx = e.goodpackettx) := by
  simp only [main_step, hs, loop_end_eq]
  split_ifs <;> simp_all <;> omega

theorem wait_ack_condition (e : t_engine) (r : t_reply) (baud : Int)
    (hinv : engine_inv baud e) (hs : e.state = t_state.STATE_WAIT_SERIAL_PACKET_ACK) :
    (memcmp (signature_bytes e.signatureread) (signature_bytes e.signaturewrite)
          SIZEOF_SIGNATURE = 0 ∧ 0 < r.rval ∧ r.rval = to_int e.signatureread.len ∧
        memcmp (store e.sbufferread r.data) e.sbufferwrite e.signatureread.len = 0) ↔
    (e.signatureread.header = e.signaturewrite.header ∧
        e.signatureread.len = e.signaturewrite.len ∧
        e.signatureread.footer = e.signaturewrite.footer ∧
        r.rval = (e.signatureread.len : Int) ∧
        (store e.sbufferread r.data).take e.signatureread.len =
          e.sbufferwrite.take e.signatureread.len) := by
  obtain ⟨h1, h2, h3, h4, _, h6⟩ := hinv
  have hw : e.signaturewrite = master_signature baud := h6 (Or.inr (Or.inr hs))
  have hb := to_u32_bufferlen baud
  have hlw : e.signaturewrite.len = to_u32 (bufferlen baud) := by rw [hw]; rfl
  have hsigiff := memcmp_signature_iff _ _ h3 h4
  have main : ∀ (_ : e.signatureread = e.signaturewrite),
      to_int e.signatureread.len = (e.signatureread.len : Int) ∧ 10 ≤ e.signatureread.len ∧
      (memcmp (store e.sbufferread r.data) e.sbufferwrite e.signatureread.len = 0 ↔
        (store e.sbufferread r.data).take e.signatureread.len =
          e.sbufferwrite.take e.signatureread.len) := by
    intro hsig
    have hlen : e.signatureread.len = to_u32 (bufferlen baud) := by rw [hsig, hlw]
    refine ⟨to_int_small _ (by omega), by omega, ?_⟩
    rw [memcmp_eq_zero_iff]
    exact (take_eq_iff_byte_at _ _ _ (by rw [store_length, h1, BUFFER_SIZE]; omega)
      (by rw [h2, BUFFER_SIZE]; omega)).symm
  constructor
  · rintro ⟨g1, g2, g3, g4⟩
    have hsig := hsigiff.mp g1
    obtain ⟨m1, _, m3⟩ := main hsig
    refine ⟨by rw [hsig], by rw [hsig], by rw [hsig], by rw [g3, m1], m3.mp g4⟩
  · rintro ⟨c1, c2, c3, c4, c5⟩
    have hsig := signature_eq_of_fields _ _ c1 c2 c3
    obtain ⟨m1, m2, m3⟩ := main hsig
    refine ⟨hsigiff.mpr hsig, by omega, by rw [m1, c4], m3.mpr c5⟩

theorem byte_at_store (buf data : List Nat) (i : Nat) :
    byte_at (store buf data) i =
      if i < data.length ∧ i < buf.length then byte_at data i else byte_at buf i := by
  induction buf generalizing data i with
  | nil => simp [store, byte_at]
  | cons b bs ih =>
    cases data with
    | nil => simp [store]
    | cons d ds =>
      cases i with
      | zero => simp [store, byte_at]
      | succ k =>
        simp only [store, byte_at_succ, List.tail_cons, ih, List.length_cons,
          Nat.add_lt_add_iff_right]

theorem byte_at_store_at (buf data : List Nat) (off i : Nat)
    (h : off + data.length ≤ buf.length) :
    byte_at (store_at buf off data) i =
      if off ≤ i ∧ i < off + data.length then byte_at data (i - off) else byte_at buf i := by
  unfold store_at
  by_cases hi : i < off
  · have h1 : ¬ (off ≤ i ∧ i < off + data.length) := by omega
    rw [if_neg h1]
    simp only [byte_at, List.getD_eq_getElem?_getD]
    rw [List.getElem?_append_left (by simp; omega), List.getElem?_take_of_lt hi]
  · have hlen : (buf.take off).length = off := by simp; omega
    simp only [byte_at, List.getD_eq_getElem?_getD]
    rw [List.getElem?_append_right (by omega), hlen]
    have hs := byte_at_store (buf.drop off) data (i - off)
    simp only [byte_at, List.getD_eq_getElem?_getD] at hs
    rw [hs]
    have hd : (buf.drop off)[i - off]? = buf[i]? := by
      rw [List.getElem?_drop]
      congr 1
      omega
    rw [hd]
    by_cases hin : i < off + data.length
    · rw [if_pos ⟨by omega, by simp; omega⟩, if_pos ⟨by omega, hin⟩]
    · rw [if_neg (by omega), if_neg (by omega)]

theorem strncpy_bytes_length (s : List Nat) (n : Nat) : (strncpy_bytes s n).length = n := by
  simp only [strncpy_bytes, List.length_append, List.length_take, List.length_replicate]
  omega

theorem byte_at_fill (s : List Nat) (len : Nat) (z : Nat) (buf : List Nat) (off i : Nat)
    (h : off + len * z ≤ buf.length) :
    byte_at (fill buf off s len z) i =
      if off ≤ i ∧ i < off + len * z then byte_at (strncpy_bytes s len) ((i - off) % len)
      else byte_at buf i := by
  induction z generalizing buf off with
  | zero =>
    have h1 : ¬ (off ≤ i ∧ i < off + len * 0) := by omega
    simp only [fill, if_neg h1]
  | succ k ih =>
    have hmul : len * (k + 1) = len * k + len := by ring
    have hdl := strncpy_bytes_length s len
    simp only [fill]
    rw [ih _ _ (by rw [store_at_length]; omega),
      byte_at_store_at _ _ _ _ (by rw [hdl]; omega), hdl]
    by_cases c1 : off + len ≤ i ∧ i < off + len + len * k
    · rw [if_pos c1, if_pos (by omega)]
      have : i - off = (i - (off + len)) + len := by omega
      rw [this, Nat.add_mod_right]
    · rw [if_neg c1]
      by_cases c2 : off ≤ i ∧ i < off + len
      · rw [if_pos c2, if_pos (by omega), Nat.mod_eq_of_lt (by omega)]
      · rw [if_neg c2, if_neg (by omega)]

theorem byte_at_fillbuffer (buf : List Nat) (b : Int) (i : Nat)
    (hlen : buf.length = BUFFER_SIZE) (hi : i < 48 * (bufferlen b).toNat) :
    byte_at (fillbuffer buf b) i = byte_at str (i % 48) := by
  have hb := bufferlen_range b
  have hs : strlen str = 48 := by decide
  have hc : strncpy_bytes str 48 = str := by decide
  unfold fillbuffer
  rw [hs, byte_at_fill _ _ _ _ _ _ (by rw [hlen, BUFFER_SIZE]; omega), hc,
    if_pos ⟨by omega, by omega⟩]
  rfl

theorem serial_2_pthread_step_state_ok (a : t_thread) (e : t_engine) (r : t_reply)
    (h : (e.state_next = e.state ∧ e.state ≠ t_state.STATE_LAST) ∨
      e.state = t_state.STATE_RESET) :
    (serial_2_pthread_step a e r).eng.state_next = (serial_2_pthread_step a e r).eng.state ∧
    (serial_2_pthread_step a e r).eng.state ≠ t_state.STATE_LAST := by
  cases hs : e.state <;> simp only [hs, reduceCtorEq, or_false, ne_eq, not_false_eq_true,
      and_true, not_true_eq_false, and_false, or_true] at h <;>
    simp only [serial_2_pthread_step, hs, loop_end_eq] <;>
    (try split_ifs) <;> simp_all

theorem main_step_state_ok (a : t_main) (e : t_engine) (r : t_reply)
    (h : (e.state_next = e.state ∧ e.state ≠ t_state.STATE_LAST) ∨
      e.state = t_state.STATE_RESET) :
    (main_step a e r).eng.state_next = (main_step a e r).eng.state ∧
    (main_step a e r).eng.state ≠ t_state.STATE_LAST := by
  cases hs : e.state <;> simp only [hs, reduceCtorEq, or_false, ne_eq, not_false_eq_true,
      and_true, not_true_eq_false, and_false, or_true] at h <;>
    simp only [main_step, hs, loop_end_eq] <;>
    (try split_ifs) <;> simp_all

theorem serial_2_pthread_run_state_ok (a : t_thread) (rs : List t_reply) (e : t_engine)
    (h : (e.state_next = e.state ∧ e.state ≠ t_state.STATE_LAST) ∨
      e.state = t_state.STATE_RESET) :
    (rs ≠ [] → (serial_2_pthread_run a e rs).state_next = (serial_2_pthread_run a e rs).state) ∧
    (serial_2_pthread_run a e rs).state ≠ t_state.STATE_LAST ∧
    t_state.STATE_LAST ∉ serial_2_pthread_trace a e rs := by
  have hne : e.state ≠ t_state.STATE_LAST := by
    rcases h with h | h
    · exact h.2
    · rw [h]; decide
  induction rs generalizing e with
  | nil => exact ⟨fun x => absurd rfl x, hne, by simp [serial_2_pthread_trace]⟩
  | cons r rs ih =>
    have hstep := serial_2_pthread_step_state_ok a e r h
    simp only [serial_2_pthread_run, serial_2_pthread_trace]
    split_ifs
    · refine ⟨fun _ => hstep.1, hstep.2, ?_⟩
      simp only [List.mem_cons, List.not_mem_nil, or_false]
      exact fun x => hne x.symm
    · have hi := ih _ (Or.inl hstep) hstep.2
      refine ⟨fun _ => ?_, hi.2.1, ?_⟩
      · cases rs with
        | nil => exact hstep.1
        | cons r2 rs2 => exact hi.1 (by simp)
      · simp only [List.mem_cons, not_or]
        exact ⟨fun x => hne x.symm, hi.2.2⟩

theorem main_run_state_ok (a : t_main) (rs : List t_reply) (e : t_engine)
    (h : (e.state_next = e.state ∧ e.state ≠ t_state.STATE_LAST) ∨
      e.state = t_state.STATE_RESET) :
    (rs ≠ [] → (main_run a e rs).state_next = (main_run a e rs).state) ∧
    (main_run a e rs).state ≠ t_state.STATE_LAST ∧
    t_state.STATE_LAST ∉ main_trace a e rs := by
  have hne : e.state ≠ t_state.STATE_LAST := by
    rcases h with h | h
    · exact h.2
    · rw [h]; decide
  induction rs generalizing e with
  | nil => exact ⟨fun x => absurd rfl x, hne, by simp [main_trace]⟩
  | cons r rs ih =>
    have hstep := main_step_state_ok a e r h
    simp only [main_run, main_trace]
    split_ifs
    · refine ⟨fun _ => hstep.1, hstep.2, ?_⟩
      simp only [List.mem_cons, List.not_mem_nil, or_false]
      exact fun x => hne x.symm
    · have hi := ih _ (Or.inl hstep) hstep.2
      refine ⟨fun _ => ?_, hi.2.1, ?_⟩
      · cases rs with
        | nil => exact hstep.1
        | cons r2 rs2 => exact hi.1 (by simp)
      · simp only [List.mem_cons, not_or]
        exact ⟨fun x => hne x.symm, hi.2.2⟩

theorem tmod_16_of_lt (n : Int) (h : 16 < n) : Int.tmod 16 n = 16 :=
  Int.tmod_eq_of_lt (by omega) h

theorem print_payload_loop_line_bounds (fuel : Nat) (ch : List Nat) (len_rem offset : Int)
    (lines : List t_line) (h : 16 < len_rem)
    (hl : print_payload_loop fuel ch len_rem offset = some lines) :
    ∀ l ∈ lines, 1 ≤ l.len ∧ l.len ≤ 16 := by
  induction fuel generalizing ch len_rem offset lines with
  | zero => simp [print_payload_loop] at hl
  | succ k ih =>
    have ht := tmod_16_of_lt len_rem h
    simp only [print_payload_loop, ht] at hl
    split_ifs at hl with hc
    · simp only [Option.some.injEq] at hl
      subst hl
      intro l hmem
      simp only [List.mem_cons, List.mem_singleton, List.not_mem_nil, or_false] at hmem
      rcases hmem with hm | hm <;> subst hm <;> simp only [print_hex_ascii_line] <;> omega
    · cases hrec : print_payload_loop k (ch.drop (16 : Int).toNat) (len_rem - 16)
          (offset + 16) with
      | none => rw [hrec] at hl; simp at hl
      | some rest =>
        rw [hrec] at hl
        simp only [Option.map_some', Option.some.injEq] at hl
        subst hl
        intro l hmem
        simp only [List.mem_cons] at hmem
        rcases hmem with hm | hm
        · subst hm
          simp only [print_hex_ascii_line]
          omega
        · exact ih _ _ _ _ (by omega) hrec l hm

theorem print_payload_loop_multiple (fuel : Nat) (ch : List Nat) (offset : Int) (k : Nat)
    (hk : 2 ≤ k) (hf : k ≤ fuel + 1) :
    ∃ lines, print_payload_loop fuel ch (16 * (k : Int)) offset = some lines ∧
      lines.map (fun l => l.len) = List.replicate k 16 := by
  induction fuel generalizing ch offset k with
  | zero => omega
  | succ f ih =>
    have ht := tmod_16_of_lt (16 * (k : Int)) (by omega)
    simp only [print_payload_loop, ht]
    by_cases hc : 16 * (k : Int) - 16 ≤ 16
    · have hk2 : k = 2 := by omega
      subst hk2
      rw [if_pos hc]
      exact ⟨_, rfl, by simp [print_hex_ascii_line, List.replicate]⟩
    · rw [if_neg hc]
      have heq : 16 * (k : Int) - 16 = 16 * ((k - 1 : Nat) : Int) := by omega
      obtain ⟨rest, hrest, hmap⟩ := ih (ch.drop (16 : Int).toNat) (offset + 16) (k - 1)
        (by omega) (by omega)
      rw [heq, hrest]
      refine ⟨_, rfl, ?_⟩
      simp only [List.map_cons, hmap, print_hex_ascii_line]
      have hk1 : k = (k - 1) + 1 := by omega
      conv_rhs => rw [hk1, List.replicate_succ]

theorem link_step_write_signature_master (ta tb : t_thread) (l : t_link)
    (hs : l.a.state = t_state.STATE_WRITE_SERIAL_PACKET_SIGNATURE_MASTER) :
    link_step ta tb l true =
      { a := { l.a with
            signaturewrite := master_signature ta.port.baudrate,
            rval := 12,
            state_next := t_state.STATE_WRITE_SERIAL_PACKET,
            state := t_state.STATE_WRITE_SERIAL_PACKET },
        b := l.b,
        a_to_b := l.a_to_b ++ signature_bytes (master_signature ta.port.baudrate),
        b_to_a := l.b_to_a } := by
  simp [link_step, serial_2_pthread_call, serial_2_pthread_step, hs, loop_end_eq,
    loopback_reply, loopback_rest, loopback_sent, master_signature, SIZEOF_SIGNATURE]

theorem link_step_write_packet (ta tb : t_thread) (l : t_link) (n : Nat)
    (hs : l.a.state = t_state.STATE_WRITE_SERIAL_PACKET)
    (hl : l.a.signaturewrite.len = n) (h0 : 0 < n) (h1 : n < 2147483648) :
    link_step ta tb l true =
      { a := { l.a with
            sbufferwrite := fillbuffer l.a.sbufferwrite ta.port.baudrate,
            rval := (n : Int),
            state_next := t_state.STATE_WAIT_SERIAL_PACKET_ACK_SIGNATURE,
            state := t_state.STATE_WAIT_SERIAL_PACKET_ACK_SIGNATURE },
        b := l.b,
        a_to_b := l.a_to_b ++ (fillbuffer l.a.sbufferwrite ta.port.baudrate).take n,
        b_to_a := l.b_to_a } := by
  have hti := to_int_small n h1
  have p1 : ¬ (n : Int) < 0 := by omega
  have p2 : ¬ (n : Int) = 0 := by omega
  simp [link_step, serial_2_pthread_call, serial_2_pthread_step, hs, loop_end_eq,
    loopback_reply, loopback_rest, loopback_sent, hl, hti, p1, p2]

theorem take_append_of_length (x rest : List Nat) (n : Nat) (h : x.length = n) :
    (x ++ rest).take n = x ∧ (x ++ rest).drop n = rest := by
  subst h
  simp

theorem signature_store_bytes (old s : t_signature) (hs : s.wf) :
    signature_store old (signature_bytes s) = s := by
  unfold signature_store
  rw [store_of_length_le _ _ (by rw [signature_bytes_length, signature_bytes_length]),
    signature_bytes_length, ← signature_bytes_length s, List.take_length]
  exact signature_roundtrip s hs

theorem link_step_wait_signature (ta tb : t_thread) (l : t_link) (s : t_signature)
    (rest : List Nat)
    (hs : l.b.state = t_state.STATE_WAIT_SERIAL_PACKET_SIGNATURE) (hw : s.wf)
    (hq : l.a_to_b = signature_bytes s ++ rest) :
    link_step ta tb l false =
      { a := l.a,
        b := { l.b with
            signatureread := s,
            rval := 12,
            state_next := t_state.STATE_READ_SERIAL_PACKET,
            state := t_state.STATE_READ_SERIAL_PACKET },
        a_to_b := rest,
        b_to_a := l.b_to_a } := by
  obtain ⟨t1, t2⟩ := take_append_of_length (signature_bytes s) rest 12
    (signature_bytes_length s)
  have hst := signature_store_bytes l.b.signatureread s hw
  have hlen := signature_bytes_length s
  simp [link_step, serial_2_pthread_call, serial_2_pthread_step, hs, loop_end_eq,
    loopback_reply, loopback_rest, loopback_sent, hq, SIZEOF_SIGNATURE, t1, t2, hst, hlen]

theorem link_step_read_packet (ta tb : t_thread) (l : t_link) (n : Nat)
    (p rest : List Nat)
    (hs : l.b.state = t_state.STATE_READ_SERIAL_PACKET)
    (hh : l.b.signatureread.header = SERIAL_SIGNATURE_HEADER)
    (hf : l.b.signatureread.footer = SERIAL_SIGNATURE_FOOTER)
    (hl : l.b.signatureread.len = n) (h0 : 0 < n) (h1 : n < 2147483648)
    (hp : p.length = n) (hq : l.a_to_b = p ++ rest) :
    link_step ta tb l false =
      { a := l.a,
        b := { l.b with
            sbufferread := store l.b.sbufferread p,
            rval := (n : Int),
            state_next := t_state.STATE_WRITE_SERIAL_PACKET_SIGNATURE_SLAVE,
            state := t_state.STATE_WRITE_SERIAL_PACKET_SIGNATURE_SLAVE },
        a_to_b := rest,
        b_to_a := l.b_to_a } := by
  obtain ⟨t1, t2⟩ := take_append_of_length p rest n hp
  have hti := to_int_small n h1
  have p1 : ¬ (n : Int) < 0 := by omega
  have p2 : ¬ (n : Int) = 0 := by omega
  simp [link_step, serial_2_pthread_call, serial_2_pthread_step, hs, loop_end_eq,
    loopback_reply, loopback_rest, loopback_sent, hq, hh, hf, hl, t1, t2, hp, hti, p1, p2]

theorem link_step_write_signature_slave (ta tb : t_thread) (l : t_link)
    (hs : l.b.state = t_state.STATE_WRITE_SERIAL_PACKET_SIGNATURE_SLAVE) :
    link_step ta tb l false =
      { a := l.a,
        b := { l.b with
            signaturewrite := l.b.signatureread,
            rval := 12,
            state_next := t_state.STATE_WRITE_SERIAL_PACKET_ACK,
            state := t_state.STATE_WRITE_SERIAL_PACKET_ACK },
        a_to_b := l.a_to_b,
        b_to_a := l.b_to_a ++ signature_bytes l.b.signatureread } := by
  simp [link_step, serial_2_pthread_call, serial_2_pthread_step, hs, loop_end_eq,
    loopback_reply, loopback_rest, loopback_sent, SIZEOF_SIGNATURE]

theorem link_step_write_ack (ta tb : t_thread) (l : t_link) (n : Nat)
    (hs : l.b.state = t_state.STATE_WRITE_SERIAL_PACKET_ACK)
    (hl : l.b.signatureread.len = n) (h0 : 0 < n)
    (hr : l.b.sbufferread.length = BUFFER_SIZE) (hw : l.b.sbufferwrite.length = BUFFER_SIZE) :
    link_step ta tb l false =
      { a := l.a,
        b := { l.b with
            sbufferwrite := memcpy l.b.sbufferwrite l.b.sbufferread n,
            rval := (n : Int),
            goodpacketrx :=
              if tb.thread_print then l.b.goodpacketrx + 1 else l.b.goodpacketrx,
            state_next := t_state.STATE_WAIT_SERIAL_PACKET_SIGNATURE,
            state := t_state.STATE_WAIT_SERIAL_PACKET_SIGNATURE },
        a_to_b := l.a_to_b,
        b_to_a := l.b_to_a ++ l.b.sbufferread.take n } := by
  have hcopy := memcpy_take l.b.sbufferwrite l.b.sbufferread n (by rw [hr, hw])
  have p1 : ¬ (n : Int) < 0 := by omega
  have p2 : ¬ (n : Int) = 0 := by omega
  simp [link_step, serial_2_pthread_call, serial_2_pthread_step, hs, loop_end_eq,
    loopback_reply, loopback_rest, loopback_sent, hl, hcopy, p1, p2]

theorem link_step_wait_ack_signature (ta tb : t_thread) (l : t_link) (s : t_signature)
    (rest : List Nat)
    (hs : l.a.state = t_state.STATE_WAIT_SERIAL_PACKET_ACK_SIGNATURE) (hw : s.wf)
    (hq : l.b_to_a = signature_bytes s ++ rest) :
    link_step ta tb l true =
      { a := { l.a with
            signatureread := s,
            rval := 12,
            state_next := t_state.STATE_WAIT_SERIAL_PACKET_ACK,
            state := t_state.STATE_WAIT_SERIAL_PACKET_ACK },
        b := l.b,
        a_to_b := l.a_to_b,
        b_to_a := rest } := by
  obtain ⟨t1, t2⟩ := take_append_of_length (signature_bytes s) rest 12
    (signature_bytes_length s)
  have hst := signature_store_bytes l.a.signatureread s hw
  have hlen := signature_bytes_length s
  simp [link_step, serial_2_pthread_call, serial_2_pthread_step, hs, loop_end_eq,
    loopback_reply, loopback_rest, loopback_sent, hq, SIZEOF_SIGNATURE, t1, t2, hst, hlen]

theorem link_step_wait_ack (ta tb : t_thread) (l : t_link) (n : Nat) (rest : List Nat)
    (hs : l.a.state = t_state.STATE_WAIT_SERIAL_PACKET_ACK)
    (hsig : l.a.signatureread = l.a.signaturewrite)
    (hl : l.a.signatureread.len = n) (h0 : 0 < n) (h1 : n < 2147483648)
    (hr : n ≤ l.a.sbufferread.length) (hw : n ≤ l.a.sbufferwrite.length)
    (hq : l.b_to_a = l.a.sbufferwrite.take n ++ rest) :
    link_step ta tb l true =
      { a := { l.a with
            sbufferread := store l.a.sbufferread (l.a.sbufferwrite.take n),
            rval := (n : Int),
            goodpackettx := l.a.goodpackettx + 1,
            state_next := t_state.STATE_WRITE_SERIAL_PACKET_SIGNATURE_MASTER,
            state := t_state.STATE_WRITE_SERIAL_PACKET_SIGNATURE_MASTER },
        b := l.b,
        a_to_b := l.a_to_b,
        b_to_a := rest } := by
  have hp : (l.a.sbufferwrite.take n).length = n := by simp [hw]
  obtain ⟨t1, t2⟩ := take_append_of_length (l.a.sbufferwrite.take n) rest n hp
  have hti := to_int_small n h1
  have p1 : ¬ (n : Int) < 0 := by omega
  have p2 : ¬ (n : Int) = 0 := by omega
  have hm1 : memcmp (signature_bytes l.a.signatureread) (signature_bytes l.a.signaturewrite)
      SIZEOF_SIGNATURE = 0 := by
    rw [hsig]
    exact memcmp_self _ _
  have hm2 : memcmp (store l.a.sbufferread (l.a.sbufferwrite.take n)) l.a.sbufferwrite n
      = 0 := by
    rw [memcmp_eq_zero_iff, ← take_eq_iff_byte_at _ _ _ (by rw [store_length]; exact hr) hw]
    exact store_take_of_le _ _ _ hp hr
  simp [link_step, serial_2_pthread_call, serial_2_pthread_step, hs, loop_end_eq,
    loopback_reply, loopback_rest, loopback_sent, hq, hl, t1, t2, hp, hti, p1, p2, hm1, hm2]

theorem link_round (ta tb : t_thread) (l : t_link) (h : round_start l) :
    round_start (link_run ta tb l round_schedule) ∧
    (link_run ta tb l round_schedule).a.goodpackettx = l.a.goodpackettx + 1 ∧
    (link_run ta tb l round_schedule).b.goodpacketrx =
      l.b.goodpacketrx + (if tb.thread_print then 1 else 0) ∧
    (link_run ta tb l round_schedule).a.errornumbers = l.a.errornumbers ∧
    (link_run ta tb l round_schedule).b.errornumbers = l.b.errornumbers ∧
    (∀ x ∈ link_history ta tb l round_schedule,
      x.a.state ∈ [t_state.STATE_WRITE_SERIAL_PACKET_SIGNATURE_MASTER,
        t_state.STATE_WRITE_SERIAL_PACKET, t_state.STATE_WAIT_SERIAL_PACKET_ACK_SIGNATURE,
        t_state.STATE_WAIT_SERIAL_PACKET_ACK] ∧
      x.b.state ∈ [t_state.STATE_WAIT_SERIAL_PACKET_SIGNATURE,
        t_state.STATE_READ_SERIAL_PACKET,
        t_state.STATE_WRITE_SERIAL_PACKET_SIGNATURE_SLAVE,
        t_state.STATE_WRITE_SERIAL_PACKET_ACK] ∧
      x.a.errornumbers = l.a.errornumbers ∧ x.b.errornumbers = l.b.errornumbers) := by
  obtain ⟨hA, hB, hq1, hq2, har, haw, hbr, hbw⟩ := h
  have hb := to_u32_bufferlen ta.port.baudrate
  have hmw := master_signature_wf ta.port.baudrate
  have hsz : BUFFER_SIZE = 4096 := rfl
  have hfl := fillbuffer_length l.a.sbufferwrite ta.port.baudrate
  -- the eight iterations
  have e1 := link_step_write_signature_master ta tb l hA
  dsimp only at e1
  have e2 := link_step_write_packet ta tb _ (to_u32 (bufferlen ta.port.baudrate))
    (show (link_step ta tb l true).a.state = _ by rw [e1])
    (by rw [e1] <;> rfl) (by omega) (by omega)
  rw [e1] at e2
  dsimp only at e2
  have e3 := link_step_wait_signature ta tb _ (master_signature ta.port.baudrate)
    ((fillbuffer l.a.sbufferwrite ta.port.baudrate).take (to_u32 (bufferlen ta.port.baudrate)))
    (show (link_step ta tb _ true).b.state = _ by rw [e2]; exact hB) hmw
    (by rw [e2]; show l.a_to_b ++ _ ++ _ = _; rw [hq1, List.nil_append])
  rw [e2] at e3
  dsimp only at e3
  have hplen : ((fillbuffer l.a.sbufferwrite ta.port.baudrate).take
      (to_u32 (bufferlen ta.port.baudrate))).length = to_u32 (bufferlen ta.port.baudrate) := by
    rw [List.length_take, hfl, haw, hsz]
    omega
  have e4 := link_step_read_packet ta tb _ (to_u32 (bufferlen ta.port.baudrate))
    ((fillbuffer l.a.sbufferwrite ta.port.baudrate).take (to_u32 (bufferlen ta.port.baudrate)))
    []
    (show (link_step ta tb _ false).b.state = _ by rw [e3])
    (by rw [e3] <;> rfl) (by rw [e3] <;> rfl) (by rw [e3] <;> rfl) (by omega) (by omega) hplen
    (by rw [e3]; exact (List.append_nil _).symm)
  rw [e3] at e4
  dsimp only at e4
  have e5 := link_step_write_signature_slave ta tb _
    (show (link_step ta tb _ false).b.state = _ by rw [e4])
  rw [e4] at e5
  dsimp only at e5
  have e6 := link_step_write_ack ta tb _ (to_u32 (bufferlen ta.port.baudrate))
    (show (link_step ta tb _ false).b.state = _ by rw [e5])
    (by rw [e5] <;> rfl) (by omega)
    (by rw [e5]; exact (store_length _ _).trans hbr)
    (by rw [e5]; exact hbw)
  rw [e5] at e6
  dsimp only at e6
  have hecho : (store l.b.sbufferread
      ((fillbuffer l.a.sbufferwrite ta.port.baudrate).take
        (to_u32 (bufferlen ta.port.baudrate)))).take (to_u32 (bufferlen ta.port.baudrate)) =
      (fillbuffer l.a.sbufferwrite ta.port.baudrate).take
        (to_u32 (bufferlen ta.port.baudrate)) :=
    store_take_of_le _ _ _ hplen (by rw [hbr, hsz]; omega)
  have e7 := link_step_wait_ack_signature ta tb _ (master_signature ta.port.baudrate)
    ((fillbuffer l.a.sbufferwrite ta.port.baudrate).take (to_u32 (bufferlen ta.port.baudrate)))
    (show (link_step ta tb _ false).a.state = _ by rw [e6]) hmw
    (by rw [e6]; show l.b_to_a ++ _ ++ _ = _; rw [hq2, List.nil_append, hecho])
  rw [e6] at e7
  dsimp only at e7
  have e8 := link_step_wait_ack ta tb _ (to_u32 (bufferlen ta.port.baudrate)) []
    (show (link_step ta tb _ true).a.state = _ by rw [e7])
    (by rw [e7] <;> rfl) (by rw [e7] <;> rfl) (by omega) (by omega)
    (by rw [e7]; show _ ≤ l.a.sbufferread.length; rw [har, hsz]; omega)
    (by rw [e7]; show _ ≤ (fillbuffer l.a.sbufferwrite ta.port.baudrate).length; rw [hfl, haw, hsz]; omega)
    (by rw [e7]; exact (List.append_nil _).symm)
  rw [e7] at e8
  dsimp only at e8
  simp only [link_run, link_history, round_schedule]
  rw [e1, e2, e3, e4, e5, e6, e7, e8]
  refine ⟨⟨rfl, rfl, rfl, rfl, ?_, ?_, ?_, ?_⟩, rfl, ?_, rfl, rfl, ?_⟩
  · simp only [store_length]; exact har
  · simp only [hfl]; exact haw
  · simp only [store_length]; exact hbr
  · simp only [memcpy, store_length]; exact hbw
  · by_cases hp : tb.thread_print = true <;> simp [hp]
  · intro x hx
    simp only [List.mem_cons, List.mem_singleton, List.not_mem_nil, or_false] at hx
    rcases hx with rfl | rfl | rfl | rfl | rfl | rfl | rfl | rfl | rfl <;>
      simp [hA, hB]

theorem link_run_append (ta tb : t_thread) (l : t_link) (s1 s2 : List Bool) :
    link_run ta tb l (s1 ++ s2) = link_run ta tb (link_run ta tb l s1) s2 := by
  induction s1 generalizing l with
  | nil => rfl
  | cons w s1 ih => exact ih (link_step ta tb l w)

theorem link_history_append (ta tb : t_thread) (l x : t_link) (s1 s2 : List Bool)
    (h : x ∈ link_history ta tb l (s1 ++ s2)) :
    x ∈ link_history ta tb l s1 ∨ x ∈ link_history ta tb (link_run ta tb l s1) s2 := by
  induction s1 generalizing l with
  | nil => exact Or.inr h
  | cons w s1 ih =>
    simp only [List.cons_append, link_history, List.mem_cons] at h ⊢
    rcases h with h | h
    · exact Or.inl (Or.inl h)
    · rcases ih (link_step ta tb l w) h with h | h
      · exact Or.inl (Or.inr h)
      · exact Or.inr h

theorem link_step_inv (ta tb : t_thread) (l : t_link) (who : Bool)
    (ha : engine_inv ta.port.baudrate l.a) (hb : engine_inv tb.port.baudrate l.b) :
    engine_inv ta.port.baudrate (link_step ta tb l who).a ∧
    engine_inv tb.port.baudrate (link_step ta tb l who).b := by
  cases who
  · exact ⟨ha, serial_2_pthread_step_inv tb l.b _ hb⟩
  · exact ⟨serial_2_pthread_step_inv ta l.a _ ha, hb⟩

theorem link_run_inv (ta tb : t_thread) (l : t_link) (schedule : List Bool)
    (ha : engine_inv ta.port.baudrate l.a) (hb : engine_inv tb.port.baudrate l.b) :
    engine_inv ta.port.baudrate (link_run ta tb l schedule).a ∧
    engine_inv tb.port.baudrate (link_run ta tb l schedule).b := by
  induction schedule generalizing l with
  | nil => exact ⟨ha, hb⟩
  | cons w s ih =>
    exact ih (link_step ta tb l w) (link_step_inv ta tb l w ha hb).1
      (link_step_inv ta tb l w ha hb).2

theorem link_ready_round_start : round_start link_ready := by
  have hi := link_run_inv sample_thread sample_thread link_init handshake_schedule
    (serial_2_pthread_init_inv _) (serial_2_pthread_init_inv _)
  exact ⟨by decide, by decide, by decide, by decide, hi.1.1, hi.1.2.1, hi.2.1, hi.2.2.1⟩

theorem link_rounds (ta tb : t_thread) (n : Nat) (l : t_link) (h : round_start l) :
    round_start (link_run ta tb l (schedule_rounds n)) ∧
    (link_run ta tb l (schedule_rounds n)).a.goodpackettx = l.a.goodpackettx + n ∧
    (link_run ta tb l (schedule_rounds n)).b.goodpacketrx =
      l.b.goodpacketrx + (if tb.thread_print then n else 0) ∧
    (∀ x ∈ link_history ta tb l (schedule_rounds n),
      x.a.state ∈ [t_state.STATE_WRITE_SERIAL_PACKET_SIGNATURE_MASTER,
        t_state.STATE_WRITE_SERIAL_PACKET, t_state.STATE_WAIT_SERIAL_PACKET_ACK_SIGNATURE,
        t_state.STATE_WAIT_SERIAL_PACKET_ACK] ∧
      x.b.state ∈ [t_state.STATE_WAIT_SERIAL_PACKET_SIGNATURE,
        t_state.STATE_READ_SERIAL_PACKET,
        t_state.STATE_WRITE_SERIAL_PACKET_SIGNATURE_SLAVE,
        t_state.STATE_WRITE_SERIAL_PACKET_ACK] ∧
      x.a.errornumbers = l.a.errornumbers ∧ x.b.errornumbers = l.b.errornumbers) := by
  induction n generalizing l with
  | zero =>
    refine ⟨h, by simp [schedule_rounds, link_run], by simp [schedule_rounds, link_run], ?_⟩
    intro x hx
    simp only [schedule_rounds, link_history, List.mem_singleton] at hx
    subst hx
    simp [h.1, h.2.1]
  | succ n ih =>
    obtain ⟨r1, r2, r3, r4, r5, r6⟩ := link_round ta tb l h
    obtain ⟨i1, i2, i3, i4⟩ := ih (link_run ta tb l round_schedule) r1
    simp only [schedule_rounds, link_run_append]
    refine ⟨i1, ?_, ?_, ?_⟩
    · rw [i2, r2]; push_cast; omega
    · rw [i3, r3]
      by_cases hp : tb.thread_print = true <;> simp [hp]
      omega
    · intro x hx
      rcases link_history_append ta tb l x _ _ hx with hx | hx
      · exact r6 x hx
      · obtain ⟨j1, j2, j3, j4⟩ := i4 x hx
        exact ⟨j1, j2, j3.trans r4, j4.trans r5⟩

theorem take_append_take_drop (p : List Nat) (a b : Nat) :
    p.take a ++ (p.drop a).take b = p.take (a + b) := by
  rw [List.take_add]

theorem print_payload_loop_chunks (fuel : Nat) (ch : List Nat) (len_rem offset : Int)
    (h1 : 16 < len_rem) (h2 : len_rem ≤ 16 * ((fuel : Int) + 1)) :
    ∃ body last divisors,
      print_payload_loop fuel ch len_rem offset = some (body ++ [last]) ∧
      print_payload_divisors fuel len_rem = some divisors ∧
      divisors.length = body.length ∧
      (∀ d ∈ divisors, 16 < d) ∧
      (∀ l ∈ body, l.len = 16) ∧
      1 ≤ last.len ∧ last.len ≤ 16 ∧
      ((body ++ [last]).map (fun l => l.len)).sum = len_rem ∧
      ((body ++ [last]).map (fun l => l.bytes)).flatten = ch.take len_rem.toNat ∧
      (len_rem.toNat ≤ ch.length → ∀ l ∈ body ++ [last], (l.bytes.length : Int) = l.len) := by
  induction fuel generalizing ch len_rem offset with
  | zero => omega
  | succ f ih =>
    have ht := tmod_16_of_lt len_rem h1
    simp only [print_payload_loop, print_payload_divisors, ht]
    by_cases hc : len_rem - 16 ≤ 16
    · rw [if_pos hc, if_pos hc]
      refine ⟨[print_hex_ascii_line ch 16 offset],
        print_hex_ascii_line (ch.drop (16 : Int).toNat) (len_rem - 16) (offset + 16),
        [len_rem], rfl, rfl, rfl, ?_, ?_, ?_, ?_, ?_, ?_, ?_⟩
      · intro d hd
        simp only [List.mem_singleton] at hd
        omega
      · intro l hl
        simp only [List.mem_singleton] at hl
        rw [hl]
        rfl
      · simp only [print_hex_ascii_line]; omega
      · simp only [print_hex_ascii_line]; omega
      · simp only [print_hex_ascii_line, List.singleton_append, List.map_cons, List.map_nil,
          List.sum_cons, List.sum_nil]
        omega
      · simp only [print_hex_ascii_line, List.singleton_append, List.map_cons, List.map_nil,
          List.flatten_cons, List.flatten_nil, List.append_nil]
        rw [take_append_take_drop]
        congr 1
        omega
      · intro hlen l hl
        simp only [List.singleton_append, List.mem_cons, List.mem_singleton,
          List.not_mem_nil, or_false] at hl
        rcases hl with hl | hl <;> rw [hl] <;>
          simp only [print_hex_ascii_line, List.length_take, List.length_drop] <;> omega
    · rw [if_neg hc, if_neg hc]
      obtain ⟨body, last, ds, e1, e2, e3, e4, e5, e6, e7, e8, e9, e10⟩ :=
        ih (ch.drop (16 : Int).toNat) (len_rem - 16) (offset + 16) (by omega)
          (by push_cast at h2 ⊢; omega)
      rw [e1, e2]
      refine ⟨print_hex_ascii_line ch 16 offset :: body, last, len_rem :: ds, rfl, rfl,
        by simp only [List.length_cons, e3], ?_, ?_, e6, e7, ?_, ?_, ?_⟩
      · intro d hd
        simp only [List.mem_cons] at hd
        rcases hd with hd | hd
        · omega
        · exact e4 d hd
      · intro l hl
        simp only [List.mem_cons] at hl
        rcases hl with hl | hl
        · rw [hl]; rfl
        · exact e5 l hl
      · simp only [List.cons_append, List.map_cons, List.sum_cons, e8, print_hex_ascii_line]
        omega
      · simp only [List.cons_append, List.map_cons, List.flatten_cons, e9, print_hex_ascii_line]
        rw [take_append_take_drop]
        congr 1
        omega
      · intro hlen l hl
        simp only [List.cons_append, List.mem_cons] at hl
        rcases hl with hl | hl
        · rw [hl]
          simp only [print_hex_ascii_line, List.length_take]
          omega
        · exact e10 (by simp only [List.length_drop]; omega) l hl

/-! ## Claims -/

/-- Claim C1, as stated, fails: `oversize_thread` and `oversize_main` hold a
received signature with the right header and footer that declares 5000 bytes,
more than the 4096 bytes of the read buffer; the `STATE_READ_SERIAL_PACKET`
iteration asks the transport for a raw read of 5000 bytes into the read buffer
and, when the transport delivers them, goes on to
`STATE_WRITE_SERIAL_PACKET_SIGNATURE_SLAVE`, not to `STATE_RESET`. -/
theorem C1_counterexample_oversize_length_is_read :
    (oversize_thread.state = t_state.STATE_READ_SERIAL_PACKET ∧
      oversize_thread.signatureread.header = SERIAL_SIGNATURE_HEADER ∧
      oversize_thread.signatureread.footer = SERIAL_SIGNATURE_FOOTER ∧
      BUFFER_SIZE < oversize_thread.signatureread.len ∧
      (serial_2_pthread_step sample_thread oversize_thread oversize_reply).calls =
        [t_call.serial_read_raw t_dest.sbufferread 5000] ∧
      (serial_2_pthread_step sample_thread oversize_thread oversize_reply).eng.state =
        t_state.STATE_WRITE_SERIAL_PACKET_SIGNATURE_SLAVE) ∧
    (oversize_main.state = t_state.STATE_READ_SERIAL_PACKET ∧
      oversize_main.signatureread.header = SERIAL_SIGNATURE_HEADER ∧
      oversize_main.signatureread.footer = SERIAL_SIGNATURE_FOOTER ∧
      BUFFER_SIZE < oversize_main.signatureread.len ∧
      (main_step sample_main oversize_main oversize_reply).calls =
        [t_call.serial_read_raw t_dest.sbufferread 5000] ∧
      (main_step sample_main oversize_main oversize_reply).eng.state =
        t_state.STATE_WRITE_SERIAL_PACKET_SIGNATURE_SLAVE) := by
  decide

/-- Claim C1, amended: for every received signature whose header and footer
match the constants, whatever its declared length (also above 4096), the
`STATE_READ_SERIAL_PACKET` iteration of either loop (taken between two
iterations, where `state_next` equals `state`) makes no capacity check:
it asks the transport for a raw read of exactly the declared length into the
read buffer; the next state is `STATE_RESET` exactly when that read fails with
an error other than `EAGAIN` and `EINTR`, returns 0, or returns a positive
count different from the declared length converted to `int`; and a read that
returns the declared length leads to
`STATE_WRITE_SERIAL_PACKET_SIGNATURE_SLAVE`. -/
theorem C1_read_serial_packet_reads_declared_length (a : t_thread) (m : t_main)
    (e : t_engine) (r : t_reply)
    (hs : e.state = t_state.STATE_READ_SERIAL_PACKET)
    (hn : e.state_next = e.state)
    (hh : e.signatureread.header = SERIAL_SIGNATURE_HEADER)
    (hf : e.signatureread.footer = SERIAL_SIGNATURE_FOOTER) :
    ((serial_2_pthread_step a e r).calls.head? =
        some (t_call.serial_read_raw t_dest.sbufferread e.signatureread.len) ∧
      ((serial_2_pthread_step a e r).eng.state = t_state.STATE_RESET ↔
        ((r.rval < 0 ∧ r.errno ≠ EAGAIN ∧ r.errno ≠ EINTR) ∨ r.rval = 0 ∨
          (0 < r.rval ∧ r.rval ≠ to_int e.signatureread.len))) ∧
      (0 < r.rval → r.rval = to_int e.signatureread.len →
        (serial_2_pthread_step a e r).eng.state =
          t_state.STATE_WRITE_SERIAL_PACKET_SIGNATURE_SLAVE)) ∧
    ((main_step m e r).calls.head? =
        some (t_call.serial_read_raw t_dest.sbufferread e.signatureread.len) ∧
      ((main_step m e r).eng.state = t_state.STATE_RESET ↔
        ((r.rval < 0 ∧ r.errno ≠ EAGAIN ∧ r.errno ≠ EINTR) ∨ r.rval = 0 ∨
          (0 < r.rval ∧ r.rval ≠ to_int e.signatureread.len))) ∧
      (0 < r.rval → r.rval = to_int e.signatureread.len →
        (main_step m e r).eng.state =
          t_state.STATE_WRITE_SERIAL_PACKET_SIGNATURE_SLAVE)) := by
  rw [hs] at hn
  simp only [serial_2_pthread_step, main_step, hs, hh, hf, and_self, if_true]
  split_ifs <;>
    simp [loop_end_state, loop_end, hn, *] <;> omega

/-- Witness of C1 (amended) at the signature that declares 5000 bytes, with
the transport delivering 5000 bytes. -/
theorem C1_read_serial_packet_reads_declared_length_witness :
    ((serial_2_pthread_step sample_thread oversize_thread oversize_reply).calls.head? =
        some (t_call.serial_read_raw t_dest.sbufferread oversize_thread.signatureread.len) ∧
      ((serial_2_pthread_step sample_thread oversize_thread oversize_reply).eng.state =
          t_state.STATE_RESET ↔
        ((oversize_reply.rval < 0 ∧ oversize_reply.errno ≠ EAGAIN ∧
            oversize_reply.errno ≠ EINTR) ∨ oversize_reply.rval = 0 ∨
          (0 < oversize_reply.rval ∧
            oversize_reply.rval ≠ to_int oversize_thread.signatureread.len))) ∧
      (0 < oversize_reply.rval →
        oversize_reply.rval = to_int oversize_thread.signatureread.len →
        (serial_2_pthread_step sample_thread oversize_thread oversize_reply).eng.state =
          t_state.STATE_WRITE_SERIAL_PACKET_SIGNATURE_SLAVE)) ∧
    ((main_step sample_main oversize_thread oversize_reply).calls.head? =
        some (t_call.serial_read_raw t_dest.sbufferread oversize_thread.signatureread.len) ∧
      ((main_step sample_main oversize_thread oversize_reply).eng.state =
          t_state.STATE_RESET ↔
        ((oversize_reply.rval < 0 ∧ oversize_reply.errno ≠ EAGAIN ∧
            oversize_reply.errno ≠ EINTR) ∨ oversize_reply.rval = 0 ∨
          (0 < oversize_reply.rval ∧
            oversize_reply.rval ≠ to_int oversize_thread.signatureread.len))) ∧
      (0 < oversize_reply.rval →
        oversize_reply.rval = to_int oversize_thread.signatureread.len →
        (main_step sample_main oversize_thread oversize_reply).eng.state =
          t_state.STATE_WRITE_SERIAL_PACKET_SIGNATURE_SLAVE)) :=
  C1_read_serial_packet_reads_declared_length sample_thread sample_main oversize_thread
    oversize_reply (by decide) (by decide) (by decide) (by decide)

/-- Claim C2: in `STATE_READ_SERIAL_PACKET`, a held signature whose header
differs from `0x12345678` or whose footer differs from `0xdeadbeef` is
classified invalid whatever its length field: the next state is
`STATE_RESET`, the only transport call of the iteration is the diagnostic
`serial_device_status` (no payload read is requested), and the error counter
of the loop grows by exactly 1.  This holds for both loops. -/
theorem C2_bad_constants_rejected (a : t_thread) (m : t_main) (e : t_engine) (r : t_reply)
    (hs : e.state = t_state.STATE_READ_SERIAL_PACKET)
    (hbad : e.signatureread.header ≠ 0x12345678 ∨ e.signatureread.footer ≠ 0xdeadbeef) :
    ((serial_2_pthread_step a e r).eng.state = t_state.STATE_RESET ∧
      (serial_2_pthread_step a e r).calls = [t_call.serial_device_status] ∧
      (serial_2_pthread_step a e r).eng.errornumbers = e.errornumbers + 1) ∧
    ((main_step m e r).eng.state = t_state.STATE_RESET ∧
      (main_step m e r).calls = [t_call.serial_device_status] ∧
      (main_step m e r).eng.errornumbers = e.errornumbers + 1) := by
  have hc : ¬ (e.signatureread.header = SERIAL_SIGNATURE_HEADER ∧
      e.signatureread.footer = SERIAL_SIGNATURE_FOOTER) := by
    rintro ⟨h1, h2⟩
    cases hbad with
    | inl h => exact h h1
    | inr h => exact h h2
  simp [serial_2_pthread_step, main_step, hs, hc, loop_end]

/-- Witness of C2: a signature with header 0, the right footer and length 77. -/
theorem C2_bad_constants_rejected_witness :
    ((serial_2_pthread_step sample_thread bad_header_engine (reply_count 77)).eng.state =
        t_state.STATE_RESET ∧
      (serial_2_pthread_step sample_thread bad_header_engine (reply_count 77)).calls =
        [t_call.serial_device_status] ∧
      (serial_2_pthread_step sample_thread bad_header_engine (reply_count 77)).eng.errornumbers
        = bad_header_engine.errornumbers + 1) ∧
    ((main_step sample_main bad_header_engine (reply_count 77)).eng.state =
        t_state.STATE_RESET ∧
      (main_step sample_main bad_header_engine (reply_count 77)).calls =
        [t_call.serial_device_status] ∧
      (main_step sample_main bad_header_engine (reply_count 77)).eng.errornumbers =
        bad_header_engine.errornumbers + 1) :=
  C2_bad_constants_rejected sample_thread sample_main bad_header_engine (reply_count 77)
    (by decide) (by decide)

/-- Claim C3: in every iteration that either loop takes from
`STATE_WAIT_SERIAL_PACKET_ACK` (any configuration `e` that a run from the
initial locals reaches in that state, any reply `r` of the transport), the
sent-good counter increases if and only if the echo is verified, that is the
read-back signature equals the sent signature in all three fields, the
payload read returns exactly the declared length, and the first `length`
bytes of the read buffer equal the first `length` bytes of the write buffer;
and when it is verified the counter increases by exactly 1 and the next state
is `STATE_WRITE_SERIAL_PACKET_SIGNATURE_MASTER`. -/
theorem C3_sent_good_iff_echo_verified :
    (∀ (a : t_thread) (rs : List t_reply) (e : t_engine) (r : t_reply),
      e = serial_2_pthread_run a serial_2_pthread_init rs →
      e.state = t_state.STATE_WAIT_SERIAL_PACKET_ACK →
      (e.goodpackettx < (serial_2_pthread_step a e r).eng.goodpackettx ↔
        echo_verified e r) ∧
      (echo_verified e r →
        (serial_2_pthread_step a e r).eng.goodpackettx = e.goodpackettx + 1 ∧
        (serial_2_pthread_step a e r).eng.state =
          t_state.STATE_WRITE_SERIAL_PACKET_SIGNATURE_MASTER)) ∧
    (∀ (m : t_main) (rs : List t_reply) (e : t_engine) (r : t_reply),
      e = main_run m main_init rs →
      e.state = t_state.STATE_WAIT_SERIAL_PACKET_ACK →
      (e.goodpackettx < (main_step m e r).eng.goodpackettx ↔ echo_verified e r) ∧
      (echo_verified e r →
        (main_step m e r).eng.goodpackettx = e.goodpackettx + 1 ∧
        (main_step m e r).eng.state =
          t_state.STATE_WRITE_SERIAL_PACKET_SIGNATURE_MASTER)) := by
  constructor
  · intro a rs e r hr hs
    have i1 : engine_inv a.port.baudrate e := by
      rw [hr]
      exact serial_2_pthread_run_inv a rs _ (serial_2_pthread_init_inv _)
    have c1 := wait_ack_condition e r _ i1 hs
    obtain ⟨p1, n1⟩ := serial_2_pthread_wait_ack a e r hs
    unfold echo_verified
    refine ⟨⟨?_, ?_⟩, ?_⟩
    · intro hlt
      by_contra hc
      have := n1 (fun g => hc (c1.mp g))
      omega
    · intro hc
      have := (p1 (c1.mpr hc)).1
      omega
    · intro hc
      exact p1 (c1.mpr hc)
  · intro m rs e r hr hs
    have i2 : engine_inv m.baudrate2 e := by
      rw [hr]
      exact main_run_inv m rs _ (main_init_inv _)
    have c2 := wait_ack_condition e r _ i2 hs
    obtain ⟨p2, n2⟩ := main_wait_ack m e r hs
    unfold echo_verified
    refine ⟨⟨?_, ?_⟩, ?_⟩
    · intro hlt
      by_contra hc
      have := n2 (fun g => hc (c2.mp g))
      omega
    · intro hc
      have := (p2 (c2.mpr hc)).1
      omega
    · intro hc
      exact p2 (c2.mpr hc)

/-- Witness of C3: a master at 9600 baud that sent its 35 byte payload and
reads the same 35 bytes back counts one good packet, in either loop. -/
theorem C3_sent_good_iff_echo_verified_witness :
    (serial_2_pthread_run sample_thread serial_2_pthread_init verify_replies).state =
      t_state.STATE_WAIT_SERIAL_PACKET_ACK ∧
    (serial_2_pthread_step sample_thread
      (serial_2_pthread_run sample_thread serial_2_pthread_init verify_replies)
      (reply_data sent_payload)).eng.goodpackettx = 1 ∧
    (main_run sample_main main_init verify_replies).state =
      t_state.STATE_WAIT_SERIAL_PACKET_ACK ∧
    (main_step sample_main (main_run sample_main main_init verify_replies)
      (reply_data sent_payload)).eng.goodpackettx = 1 :=
  ⟨by decide,
    (((C3_sent_good_iff_echo_verified.1 sample_thread verify_replies
      (serial_2_pthread_run sample_thread serial_2_pthread_init verify_replies)
      (reply_data sent_payload) rfl (by decide)).2 (by decide)).1).trans (by decide),
    by decide,
    (((C3_sent_good_iff_echo_verified.2 sample_main verify_replies
      (main_run sample_main main_init verify_replies)
      (reply_data sent_payload) rfl (by decide)).2 (by decide)).1).trans (by decide)⟩

/-- Claim C4: in `STATE_WAIT_SERIAL_PACKET_ACK`, with the signature echoed
correctly, a declared length `L >= 1`, a payload read that returns `L`, and an
echoed payload (the read buffer after the read) that differs from the sent
payload (the write buffer) in exactly one byte position `i < L`, the iteration
moves to `STATE_RESET`, leaves the sent-good counter unchanged and increases
the error counter by exactly 1.  This holds for both loops. -/
theorem C4_corrupted_echo_detected (a : t_thread) (m : t_main) (e : t_engine) (r : t_reply)
    (i : Nat)
    (hs : e.state = t_state.STATE_WAIT_SERIAL_PACKET_ACK)
    (hsig : e.signatureread = e.signaturewrite)
    (hL : 1 ≤ e.signaturewrite.len)
    (hr : r.rval = (e.signaturewrite.len : Int))
    (hi : i < e.signaturewrite.len)
    (hdiff : byte_at (store e.sbufferread r.data) i ≠ byte_at e.sbufferwrite i)
    (_hsame : ∀ j, j < e.signaturewrite.len → j ≠ i →
      byte_at (store e.sbufferread r.data) j = byte_at e.sbufferwrite j) :
    ((serial_2_pthread_step a e r).eng.state = t_state.STATE_RESET ∧
      (serial_2_pthread_step a e r).eng.goodpackettx = e.goodpackettx ∧
      (serial_2_pthread_step a e r).eng.errornumbers = e.errornumbers + 1) ∧
    ((main_step m e r).eng.state = t_state.STATE_RESET ∧
      (main_step m e r).eng.goodpackettx = e.goodpackettx ∧
      (main_step m e r).eng.errornumbers = e.errornumbers + 1) := by
  have h1 : memcmp (signature_bytes e.signatureread) (signature_bytes e.signaturewrite)
      SIZEOF_SIGNATURE = 0 := by
    rw [hsig]
    exact memcmp_self _ _
  have h2 : ¬ memcmp (store e.sbufferread r.data) e.sbufferwrite e.signaturewrite.len = 0 := by
    intro h
    exact hdiff ((memcmp_eq_zero_iff _ _ _).mp h i hi)
  have h3 : ¬ r.rval < 0 := by omega
  have h4 : ¬ r.rval = 0 := by omega
  rw [hsig] at h1
  simp only [serial_2_pthread_step, main_step, hs, hsig, h1, h3, h4, h2, if_true, if_false]
  split_ifs <;> simp [loop_end]

/-- Witness of C4: the master sent `ABC`, the echo is `ABD`. -/
theorem C4_corrupted_echo_detected_witness :
    ((serial_2_pthread_step sample_thread verify_engine (reply_data [65, 66, 68])).eng.state =
        t_state.STATE_RESET ∧
      (serial_2_pthread_step sample_thread verify_engine
        (reply_data [65, 66, 68])).eng.goodpackettx = verify_engine.goodpackettx ∧
      (serial_2_pthread_step sample_thread verify_engine
        (reply_data [65, 66, 68])).eng.errornumbers = verify_engine.errornumbers + 1) ∧
    ((main_step sample_main verify_engine (reply_data [65, 66, 68])).eng.state =
        t_state.STATE_RESET ∧
      (main_step sample_main verify_engine (reply_data [65, 66, 68])).eng.goodpackettx =
        verify_engine.goodpackettx ∧
      (main_step sample_main verify_engine (reply_data [65, 66, 68])).eng.errornumbers =
        verify_engine.errornumbers + 1) :=
  C4_corrupted_echo_detected sample_thread sample_main verify_engine (reply_data [65, 66, 68]) 2
    (by decide) (by decide) (by decide) (by decide) (by decide) (by decide)
    (by
      intro j hj hne
      have hj3 : j < 3 := hj
      have hne2 : j ≠ 2 := hne
      have h01 : j = 0 ∨ j = 1 := by omega
      cases h01 with
      | inl h => subst h; decide
      | inr h => subst h; decide)

/-- Claim C5 (slave echo fidelity), for both loops: for every received
signature `S` (the locals hold `uint32_t` fields) the bytes handed to the
transport in `STATE_WRITE_SERIAL_PACKET_SIGNATURE_SLAVE` are 12 bytes that
encode a signature equal to `S` field by field, written with length 12; and
for every received signature whose length `S.len` fits the buffers
(`S.len <= BUFFER_SIZE`, the payload then lies inside the read buffer) and
every content of the 4096 byte buffers, the bytes handed to the transport in
`STATE_WRITE_SERIAL_PACKET_ACK` are exactly the first `S.len` bytes of the
read buffer, `S.len` bytes in number, with write length `S.len`, and they
are the first `S.len` bytes of the write buffer after the iteration.  (A
length above `BUFFER_SIZE` makes the source copy and send bytes behind the
end of the two arrays; no statement is made for it.) -/
theorem C5_slave_echo_fidelity (a : t_thread) (m : t_main) :
    (∀ (e : t_engine) (r : t_reply),
      e.state = t_state.STATE_WRITE_SERIAL_PACKET_SIGNATURE_SLAVE → e.signatureread.wf →
      (∃ bytes, (serial_2_pthread_step a e r).calls = [t_call.serial_send_raw bytes 12] ∧
        bytes.length = 12 ∧
        (signature_of_bytes bytes).header = e.signatureread.header ∧
        (signature_of_bytes bytes).len = e.signatureread.len ∧
        (signature_of_bytes bytes).footer = e.signatureread.footer) ∧
      (∃ bytes, (main_step m e r).calls = [t_call.serial_send_raw bytes 12] ∧
        bytes.length = 12 ∧
        (signature_of_bytes bytes).header = e.signatureread.header ∧
        (signature_of_bytes bytes).len = e.signatureread.len ∧
        (signature_of_bytes bytes).footer = e.signatureread.footer)) ∧
    (∀ (e : t_engine) (r : t_reply),
      e.state = t_state.STATE_WRITE_SERIAL_PACKET_ACK →
      e.sbufferread.length = BUFFER_SIZE → e.sbufferwrite.length = BUFFER_SIZE →
      e.signatureread.len ≤ BUFFER_SIZE →
      (e.sbufferread.take e.signatureread.len).length = e.signatureread.len ∧
      (serial_2_pthread_step a e r).calls =
        [t_call.serial_send_raw (e.sbufferread.take e.signatureread.len)
          e.signatureread.len] ∧
      (serial_2_pthread_step a e r).eng.sbufferwrite.take e.signatureread.len =
        e.sbufferread.take e.signatureread.len ∧
      (serial_2_pthread_step a e r).eng.sbufferwrite.length = BUFFER_SIZE ∧
      (main_step m e r).calls =
        [t_call.serial_send_raw (e.sbufferread.take e.signatureread.len)
          e.signatureread.len] ∧
      (main_step m e r).eng.sbufferwrite.take e.signatureread.len =
        e.sbufferread.take e.signatureread.len ∧
      (main_step m e r).eng.sbufferwrite.length = BUFFER_SIZE) := by
  constructor
  · intro e r hs hwf
    have hrt := signature_roundtrip e.signatureread hwf
    have hlen := signature_bytes_length e.signatureread
    have hsig : (⟨e.signatureread.header, e.signatureread.len, e.signatureread.footer⟩ :
        t_signature) = e.signatureread := rfl
    refine ⟨⟨signature_bytes e.signatureread, ?_, hlen, by rw [hrt], by rw [hrt],
      by rw [hrt]⟩, ⟨signature_bytes e.signatureread, ?_, hlen, by rw [hrt], by rw [hrt],
      by rw [hrt]⟩⟩
    · simp only [serial_2_pthread_step, hs, hsig]
      split_ifs <;> simp [loop_end, SIZEOF_SIGNATURE]
    · simp only [main_step, hs, hsig]
      split_ifs <;> simp [loop_end, SIZEOF_SIGNATURE]
  · intro e r hs hr hw hb
    have hcopy : (memcpy e.sbufferwrite e.sbufferread e.signatureread.len).take
        e.signatureread.len = e.sbufferread.take e.signatureread.len :=
      memcpy_take _ _ _ (by rw [hr, hw])
    have hml : (memcpy e.sbufferwrite e.sbufferread e.signatureread.len).length =
        BUFFER_SIZE := by
      unfold memcpy
      rw [store_length, hw]
    have hn : (e.sbufferread.take e.signatureread.len).length = e.signatureread.len := by
      rw [List.length_take, hr]
      omega
    refine ⟨hn, ?_, ?_, ?_, ?_, ?_, ?_⟩
    · simp only [serial_2_pthread_step, hs, hcopy]
      split_ifs <;> simp [loop_end]
    · simp only [serial_2_pthread_step, hs, loop_end_eq]
      split_ifs <;> exact hcopy
    · simp only [serial_2_pthread_step, hs, loop_end_eq]
      split_ifs <;> exact hml
    · simp only [main_step, hs, hcopy]
      split_ifs <;> simp [loop_end]
    · simp only [main_step, hs, loop_end_eq]
      split_ifs <;> exact hcopy
    · simp only [main_step, hs, loop_end_eq]
      split_ifs <;> exact hml

/-- Witness of C5: a slave that received the three byte packet `ABC` echoes
the signature it holds and then the three bytes. -/
theorem C5_slave_echo_fidelity_witness :
    (∃ bytes, (serial_2_pthread_step sample_thread echo_signature_engine
          (reply_count 12)).calls = [t_call.serial_send_raw bytes 12] ∧
        bytes.length = 12 ∧
        (signature_of_bytes bytes).header = echo_signature_engine.signatureread.header ∧
        (signature_of_bytes bytes).len = echo_signature_engine.signatureread.len ∧
        (signature_of_bytes bytes).footer = echo_signature_engine.signatureread.footer) ∧
    echo_payload_engine.signatureread.len = 3 ∧
    (serial_2_pthread_step sample_thread echo_payload_engine (reply_count 3)).calls =
      [t_call.serial_send_raw
        (echo_payload_engine.sbufferread.take echo_payload_engine.signatureread.len)
        echo_payload_engine.signatureread.len] :=
  ⟨((C5_slave_echo_fidelity sample_thread sample_main).1 echo_signature_engine
      (reply_count 12) (by decide) (by decide)).1,
    by decide,
    ((C5_slave_echo_fidelity sample_thread sample_main).2 echo_payload_engine (reply_count 3)
      (by decide)
      (by simp [echo_payload_engine, echo_signature_engine, store_length])
      (by simp [echo_payload_engine, echo_signature_engine, serial_2_pthread_init])
      (by decide)).2.1⟩

/-- Claim C6: for every configuration in `STATE_WAIT_COMMAND` (any buffer
contents, counters and timeout), if the string read returns 0 (timeout), one
iteration yields the state `STATE_SEND_COMMAND` and leaves the error counter
unchanged.  This holds for both loops. -/
theorem C6_silence_makes_master (a : t_thread) (m : t_main) (e : t_engine) (r : t_reply)
    (hs : e.state = t_state.STATE_WAIT_COMMAND) (hr : r.rval = 0) :
    ((serial_2_pthread_step a e r).eng.state = t_state.STATE_SEND_COMMAND ∧
      (serial_2_pthread_step a e r).eng.errornumbers = e.errornumbers) ∧
    ((main_step m e r).eng.state = t_state.STATE_SEND_COMMAND ∧
      (main_step m e r).eng.errornumbers = e.errornumbers) := by
  simp [serial_2_pthread_step, main_step, hs, hr, loop_end]

/-- Witness of C6: a waiting loop and a read that returns 0. -/
theorem C6_silence_makes_master_witness :
    ((serial_2_pthread_step sample_thread wait_command_engine (reply_count 0)).eng.state =
        t_state.STATE_SEND_COMMAND ∧
      (serial_2_pthread_step sample_thread wait_command_engine (reply_count 0)).eng.errornumbers
        = wait_command_engine.errornumbers) ∧
    ((main_step sample_main wait_command_engine (reply_count 0)).eng.state =
        t_state.STATE_SEND_COMMAND ∧
      (main_step sample_main wait_command_engine (reply_count 0)).eng.errornumbers =
        wait_command_engine.errornumbers) :=
  C6_silence_makes_master sample_thread sample_main wait_command_engine (reply_count 0)
    (by decide) (by decide)

/-- Claim C7: starting in `STATE_WAIT_COMMAND`, if the string read returns a
positive count and leaves exactly the command `"DOSLAVE\r\n"` as the C string
in the read buffer, and the later write of the acknowledgment returns a
positive count, then three consecutive iterations reach
`STATE_COMMAND_RECEIVED`, then `STATE_SEND_COMMAND_ACK`, then
`STATE_WAIT_SERIAL_PACKET_SIGNATURE`; the second iteration writes nothing and
the only call of the third is the write of the string `"DOSLAVECMDACK\r\n"`.
This holds for both loops. -/
theorem C7_slave_handshake (a : t_thread) (m : t_main) (e : t_engine) (r1 r2 r3 : t_reply)
    (hs : e.state = t_state.STATE_WAIT_COMMAND)
    (h1 : 0 < r1.rval)
    (hcmd : cstring (store e.sbufferread r1.data) =
      ("DOSLAVE\r\n" : String).toList.map Char.toNat)
    (h3 : 0 < r3.rval) :
    ((serial_2_pthread_step a e r1).eng.state = t_state.STATE_COMMAND_RECEIVED ∧
      (serial_2_pthread_step a (serial_2_pthread_step a e r1).eng r2).eng.state =
        t_state.STATE_SEND_COMMAND_ACK ∧
      (serial_2_pthread_step a (serial_2_pthread_step a e r1).eng r2).calls = [] ∧
      (serial_2_pthread_step a
        (serial_2_pthread_step a (serial_2_pthread_step a e r1).eng r2).eng r3).eng.state =
        t_state.STATE_WAIT_SERIAL_PACKET_SIGNATURE ∧
      (serial_2_pthread_step a
        (serial_2_pthread_step a (serial_2_pthread_step a e r1).eng r2).eng r3).calls =
        [t_call.serial_send_string (("DOSLAVECMDACK\r\n" : String).toList.map Char.toNat)]) ∧
    ((main_step m e r1).eng.state = t_state.STATE_COMMAND_RECEIVED ∧
      (main_step m (main_step m e r1).eng r2).eng.state = t_state.STATE_SEND_COMMAND_ACK ∧
      (main_step m (main_step m e r1).eng r2).calls = [] ∧
      (main_step m (main_step m (main_step m e r1).eng r2).eng r3).eng.state =
        t_state.STATE_WAIT_SERIAL_PACKET_SIGNATURE ∧
      (main_step m (main_step m (main_step m e r1).eng r2).eng r3).calls =
        [t_call.serial_send_string (("DOSLAVECMDACK\r\n" : String).toList.map Char.toNat)]) := by
  have hd : ("DOSLAVE\r\n" : String).toList.map Char.toNat = DOSLAVE := by decide
  have ha : ("DOSLAVECMDACK\r\n" : String).toList.map Char.toNat = DOSLAVECMDACK := by decide
  rw [hd] at hcmd
  rw [ha]
  have hcmp : strcmp DOSLAVE (store e.sbufferread r1.data) = 0 := by
    rw [strcmp_eq_zero_iff, hcmd]
    decide
  have h1a : ¬ r1.rval < 0 := by omega
  have h1b : ¬ r1.rval = 0 := by omega
  have h3a : ¬ r3.rval < 0 := by omega
  have h3b : ¬ r3.rval = 0 := by omega
  refine ⟨?_, ?_⟩
  · have k1 : (serial_2_pthread_step a e r1).eng.state = t_state.STATE_COMMAND_RECEIVED ∧
        (serial_2_pthread_step a e r1).eng.sbufferread = store e.sbufferread r1.data := by
      simp [serial_2_pthread_step, hs, h1a, h1b, loop_end]
    generalize (serial_2_pthread_step a e r1).eng = e1 at k1 ⊢
    obtain ⟨k1s, k1b⟩ := k1
    rw [← k1b] at hcmp
    have k2 : (serial_2_pthread_step a e1 r2).eng.state = t_state.STATE_SEND_COMMAND_ACK ∧
        (serial_2_pthread_step a e1 r2).calls = [] := by
      simp [serial_2_pthread_step, k1s, hcmp, loop_end]
    generalize serial_2_pthread_step a e1 r2 = s2 at k2 ⊢
    obtain ⟨k2s, k2c⟩ := k2
    have k3 : (serial_2_pthread_step a s2.eng r3).eng.state =
          t_state.STATE_WAIT_SERIAL_PACKET_SIGNATURE ∧
        (serial_2_pthread_step a s2.eng r3).calls =
          [t_call.serial_send_string DOSLAVECMDACK] := by
      simp [serial_2_pthread_step, k2s, h3a, h3b, loop_end]
    exact ⟨k1s, k2s, k2c, k3.1, k3.2⟩
  · have k1 : (main_step m e r1).eng.state = t_state.STATE_COMMAND_RECEIVED ∧
        (main_step m e r1).eng.sbufferread = store e.sbufferread r1.data := by
      simp [main_step, hs, h1a, h1b, loop_end]
    generalize (main_step m e r1).eng = e1 at k1 ⊢
    obtain ⟨k1s, k1b⟩ := k1
    rw [← k1b] at hcmp
    have k2 : (main_step m e1 r2).eng.state = t_state.STATE_SEND_COMMAND_ACK ∧
        (main_step m e1 r2).calls = [] := by
      simp [main_step, k1s, hcmp, loop_end]
    generalize main_step m e1 r2 = s2 at k2 ⊢
    obtain ⟨k2s, k2c⟩ := k2
    have k3 : (main_step m s2.eng r3).eng.state =
          t_state.STATE_WAIT_SERIAL_PACKET_SIGNATURE ∧
        (main_step m s2.eng r3).calls =
          [t_call.serial_send_string DOSLAVECMDACK] := by
      simp [main_step, k2s, h3a, h3b, loop_end]
    exact ⟨k1s, k2s, k2c, k3.1, k3.2⟩

/-- Witness of C7: the read stores `DOSLAVE\r\n` with its terminator. -/
theorem C7_slave_handshake_witness :
    (serial_2_pthread_step sample_thread
      (serial_2_pthread_step sample_thread
        (serial_2_pthread_step sample_thread wait_command_engine
          (reply_string DOSLAVE)).eng (reply_count 0)).eng (reply_count 15)).eng.state =
      t_state.STATE_WAIT_SERIAL_PACKET_SIGNATURE :=
  (C7_slave_handshake sample_thread sample_main wait_command_engine (reply_string DOSLAVE)
    (reply_count 0) (reply_count 15) (by decide) (by decide) (by decide) (by decide)).1.2.2.2.1

/-- Claim C8: along every run of either loop from its initial locals the
adaptive timeout stays within `[1000, ceiling]` (ceiling 5000 ms in `main`,
1000 ms in `serial_2_pthread`), hence strictly positive; and in `main`, from
any configuration whose timeout is the ceiling 5000, the timeout after a run
is `5000 - 1000 * (n mod 5)` where `n` is the number of `STATE_RESET`
iterations of the run, so that it is back at 5000 after every 5 of them. -/
theorem C8_adaptive_timeout_bounds :
    (∀ (m : t_main) (rs : List t_reply),
      1000 ≤ (main_run m main_init rs).timeout ∧
      (main_run m main_init rs).timeout ≤ TIMEOUT_MAIN_MS ∧ TIMEOUT_MAIN_MS = 5000) ∧
    (∀ (a : t_thread) (rs : List t_reply),
      1000 ≤ (serial_2_pthread_run a serial_2_pthread_init rs).timeout ∧
      (serial_2_pthread_run a serial_2_pthread_init rs).timeout ≤ TIMEOUT_THREAD_MS ∧
      TIMEOUT_THREAD_MS = 1000) ∧
    (∀ (m : t_main) (e : t_engine) (rs : List t_reply), e.timeout = TIMEOUT_MAIN_MS →
      (main_run m e rs).timeout =
        5000 - 1000 * ((((main_trace m e rs).count t_state.STATE_RESET) % 5 : Nat) : Int)) ∧
    (∀ (m : t_main) (e : t_engine) (rs : List t_reply), e.timeout = TIMEOUT_MAIN_MS →
      ((main_trace m e rs).count t_state.STATE_RESET) % 5 = 0 →
      (main_run m e rs).timeout = TIMEOUT_MAIN_MS) := by
  have key : ∀ (m : t_main) (e : t_engine) (rs : List t_reply), e.timeout = TIMEOUT_MAIN_MS →
      (main_run m e rs).timeout =
        5000 - 1000 * ((((main_trace m e rs).count t_state.STATE_RESET) % 5 : Nat) : Int) := by
    intro m e rs h
    have := main_run_timeout m rs e 0 (by omega) (by rw [h]; rfl)
    simpa using this
  refine ⟨?_, ?_, key, ?_⟩
  · intro m rs
    have h := key m main_init rs rfl
    have hlt : ((main_trace m main_init rs).count t_state.STATE_RESET) % 5 < 5 :=
      Nat.mod_lt _ (by omega)
    refine ⟨?_, ?_, rfl⟩
    · omega
    · have hc : TIMEOUT_MAIN_MS = 5000 := rfl
      omega
  · intro a rs
    have h := serial_2_pthread_run_timeout a rs serial_2_pthread_init rfl
    have hc : TIMEOUT_THREAD_MS = 1000 := rfl
    refine ⟨?_, ?_, rfl⟩
    · omega
    · omega
  · intro m e rs h h5
    rw [key m e rs h, h5]
    rfl

/-- Witness of C8: five failed cycles of `main` from its initial locals run
`STATE_RESET` five times and end with the timeout 5000. -/
theorem C8_adaptive_timeout_bounds_witness :
    (main_trace sample_main main_init five_failed_cycles).count t_state.STATE_RESET = 5 ∧
    (main_run sample_main main_init five_failed_cycles).timeout = TIMEOUT_MAIN_MS :=
  ⟨by decide,
    C8_adaptive_timeout_bounds.2.2.2 sample_main main_init five_failed_cycles
      (by decide) (by decide)⟩

/-- Claim C9: postcondition of a `STATE_RESET` iteration, for every prior
configuration and both loops: the next state is `STATE_START`; both buffers
are `BUFFER_SIZE = 4096` zero bytes; both signatures have header, length and
footer 0; both good-packet counters are 0; the new timeout is the old one
minus 1000 if that is positive and the ceiling otherwise (1000 in
`serial_2_pthread`, 5000 in `main`); the error counter is unchanged. -/
theorem C9_reset_postcondition (a : t_thread) (m : t_main) (e : t_engine) (r : t_reply)
    (hs : e.state = t_state.STATE_RESET) :
    BUFFER_SIZE = 4096 ∧
    ((serial_2_pthread_step a e r).eng.state = t_state.STATE_START ∧
      (serial_2_pthread_step a e r).eng.sbufferread = List.replicate BUFFER_SIZE 0 ∧
      (serial_2_pthread_step a e r).eng.sbufferwrite = List.replicate BUFFER_SIZE 0 ∧
      (serial_2_pthread_step a e r).eng.signatureread = { header := 0, len := 0, footer := 0 } ∧
      (serial_2_pthread_step a e r).eng.signaturewrite = { header := 0, len := 0, footer := 0 } ∧
      (serial_2_pthread_step a e r).eng.goodpackettx = 0 ∧
      (serial_2_pthread_step a e r).eng.goodpacketrx = 0 ∧
      (serial_2_pthread_step a e r).eng.timeout =
        (if 0 < e.timeout - 1000 then e.timeout - 1000 else 1000) ∧
      (serial_2_pthread_step a e r).eng.errornumbers = e.errornumbers) ∧
    ((main_step m e r).eng.state = t_state.STATE_START ∧
      (main_step m e r).eng.sbufferread = List.replicate BUFFER_SIZE 0 ∧
      (main_step m e r).eng.sbufferwrite = List.replicate BUFFER_SIZE 0 ∧
      (main_step m e r).eng.signatureread = { header := 0, len := 0, footer := 0 } ∧
      (main_step m e r).eng.signaturewrite = { header := 0, len := 0, footer := 0 } ∧
      (main_step m e r).eng.goodpackettx = 0 ∧
      (main_step m e r).eng.goodpacketrx = 0 ∧
      (main_step m e r).eng.timeout =
        (if 0 < e.timeout - 1000 then e.timeout - 1000 else 5000) ∧
      (main_step m e r).eng.errornumbers = e.errornumbers) := by
  have hsig : signature_of_bytes (List.replicate SIZEOF_SIGNATURE 0) =
      { header := 0, len := 0, footer := 0 } := by decide
  have ht : ∀ c : Int, (if e.timeout > 1000 then e.timeout - 1000 else c) =
      (if 0 < e.timeout - 1000 then e.timeout - 1000 else c) := by
    intro c
    by_cases h : e.timeout > 1000
    · rw [if_pos h, if_pos (by omega)]
    · rw [if_neg h, if_neg (by omega)]
  refine ⟨rfl, ?_⟩
  simp [serial_2_pthread_step, main_step, hs, loop_end, hsig, ht,
    TIMEOUT_THREAD_MS, TIMEOUT_MAIN_MS]

/-- Witness of C9: a reset after traffic, with timeout 3000 ms. -/
theorem C9_reset_postcondition_witness :
    (main_step sample_main dirty_reset_engine (reply_count 0)).eng.timeout = 2000 ∧
    (main_step sample_main dirty_reset_engine (reply_count 0)).eng.goodpackettx = 0 ∧
    (main_step sample_main dirty_reset_engine (reply_count 0)).eng.errornumbers = 5 :=
  match C9_reset_postcondition sample_thread sample_main dirty_reset_engine (reply_count 0)
    (by decide) with
  | ⟨_, _, ⟨_, _, _, _, _, htx, _, hto, herr⟩⟩ =>
    ⟨hto.trans (by decide), htx, herr.trans (by decide)⟩

/-- Claim C10 fails in `STATE_WAIT_SERIAL_PACKET_ACK_SIGNATURE`: a master that
waits for the echoed signature and whose read fails with `EINTR` or with
`EAGAIN` does not stay in its state; the iteration moves to `STATE_RESET` and
adds 1 to the error counter, in both loops (the test of the source,
`errno != EINTR || errno != EAGAIN`, holds for every `errno`). -/
theorem C10_transient_error_resets_wait_ack_signature :
    (waiting_thread.state = t_state.STATE_WAIT_SERIAL_PACKET_ACK_SIGNATURE ∧
      (serial_2_pthread_step sample_thread waiting_thread (reply_error EINTR)).eng.state =
        t_state.STATE_RESET ∧
      (serial_2_pthread_step sample_thread waiting_thread (reply_error EINTR)).eng.errornumbers =
        waiting_thread.errornumbers + 1 ∧
      (serial_2_pthread_step sample_thread waiting_thread (reply_error EAGAIN)).eng.state =
        t_state.STATE_RESET ∧
      (serial_2_pthread_step sample_thread waiting_thread (reply_error EAGAIN)).eng.errornumbers =
        waiting_thread.errornumbers + 1) ∧
    (waiting_main.state = t_state.STATE_WAIT_SERIAL_PACKET_ACK_SIGNATURE ∧
      (main_step sample_main waiting_main (reply_error EINTR)).eng.state =
        t_state.STATE_RESET ∧
      (main_step sample_main waiting_main (reply_error EINTR)).eng.errornumbers =
        waiting_main.errornumbers + 1 ∧
      (main_step sample_main waiting_main (reply_error EAGAIN)).eng.state =
        t_state.STATE_RESET ∧
      (main_step sample_main waiting_main (reply_error EAGAIN)).eng.errornumbers =
        waiting_main.errornumbers + 1) := by
  decide

/-- Claim C11: in every state that performs a transport read or write, when
the operation fails (negative return) with an `errno` that is neither `EINTR`
nor `EAGAIN`, the next state is `STATE_RESET`, except in `STATE_SEND_COMMAND`
where the next state is `STATE_RESET_SERIAL`.  This holds for both loops and
every configuration. -/
theorem C11_fatal_error_routes_to_reset (a : t_thread) (m : t_main) (e : t_engine)
    (r : t_reply) (hneg : r.rval < 0) (h1 : r.errno ≠ EINTR) (h2 : r.errno ≠ EAGAIN) :
    (e.state ∈ [t_state.STATE_WAIT_COMMAND, t_state.STATE_SEND_COMMAND_ACK,
        t_state.STATE_WAIT_SERIAL_PACKET_SIGNATURE, t_state.STATE_READ_SERIAL_PACKET,
        t_state.STATE_WRITE_SERIAL_PACKET_SIGNATURE_SLAVE,
        t_state.STATE_WRITE_SERIAL_PACKET_ACK, t_state.STATE_WAIT_COMMAND_ACK,
        t_state.STATE_WRITE_SERIAL_PACKET_SIGNATURE_MASTER,
        t_state.STATE_WRITE_SERIAL_PACKET,
        t_state.STATE_WAIT_SERIAL_PACKET_ACK_SIGNATURE,
        t_state.STATE_WAIT_SERIAL_PACKET_ACK] →
      (serial_2_pthread_step a e r).eng.state = t_state.STATE_RESET ∧
      (main_step m e r).eng.state = t_state.STATE_RESET) ∧
    (e.state = t_state.STATE_SEND_COMMAND →
      (serial_2_pthread_step a e r).eng.state = t_state.STATE_RESET_SERIAL ∧
      (main_step m e r).eng.state = t_state.STATE_RESET_SERIAL) := by
  constructor
  · intro hmem
    cases hs : e.state <;> rw [hs] at hmem <;>
      first
        | exact absurd hmem (by decide)
        | (simp only [serial_2_pthread_step, main_step, hs, loop_end_eq, hneg, h1, h2,
            ne_eq, not_false_eq_true, and_self, or_self, if_true]
           split_ifs <;> simp)
        | simp [serial_2_pthread_step, main_step, hs, loop_end_eq, hneg, h1, h2]
  · intro hs
    simp [serial_2_pthread_step, main_step, hs, loop_end_eq, hneg, h1, h2]

/-- Witness of C11: a command read that fails with `EIO`. -/
theorem C11_fatal_error_routes_to_reset_witness :
    (serial_2_pthread_step sample_thread wait_command_engine (reply_error 5)).eng.state =
      t_state.STATE_RESET ∧
    (main_step sample_main wait_command_engine (reply_error 5)).eng.state =
      t_state.STATE_RESET :=
  (C11_fatal_error_routes_to_reset sample_thread sample_main wait_command_engine
    (reply_error 5) (by decide) (by decide) (by decide)).1 (by decide)

/-- Claim C12, as stated, fails: a slave that waits for a signature, and a
slave that holds a valid signature and waits for the payload, move to
`STATE_RESET` on a 0 byte (timeout) read without any change of the error
counter, in both loops. -/
theorem C12_counterexample_timeout_not_counted :
    (slave_waiting_thread.state = t_state.STATE_WAIT_SERIAL_PACKET_SIGNATURE ∧
      (serial_2_pthread_step sample_thread slave_waiting_thread (reply_count 0)).eng.state =
        t_state.STATE_RESET ∧
      (serial_2_pthread_step sample_thread slave_waiting_thread
        (reply_count 0)).eng.errornumbers = slave_waiting_thread.errornumbers) ∧
    (slave_reading_thread.state = t_state.STATE_READ_SERIAL_PACKET ∧
      (serial_2_pthread_step sample_thread slave_reading_thread (reply_count 0)).eng.state =
        t_state.STATE_RESET ∧
      (serial_2_pthread_step sample_thread slave_reading_thread
        (reply_count 0)).eng.errornumbers = slave_reading_thread.errornumbers) ∧
    (slave_waiting_main.state = t_state.STATE_WAIT_SERIAL_PACKET_SIGNATURE ∧
      (main_step sample_main slave_waiting_main (reply_count 0)).eng.state =
        t_state.STATE_RESET ∧
      (main_step sample_main slave_waiting_main (reply_count 0)).eng.errornumbers =
        slave_waiting_main.errornumbers) ∧
    (slave_reading_main.state = t_state.STATE_READ_SERIAL_PACKET ∧
      (main_step sample_main slave_reading_main (reply_count 0)).eng.state =
        t_state.STATE_RESET ∧
      (main_step sample_main slave_reading_main (reply_count 0)).eng.errornumbers =
        slave_reading_main.errornumbers) := by
  decide

/-- Claim C12, amended: for every iteration of either loop taken from a state
other than `STATE_RESET`, `STATE_RESET_SERIAL` and `STATE_WAIT_COMMAND`
(between two iterations, where `state_next` equals `state`) whose next state
is `STATE_RESET` or `STATE_RESET_SERIAL`, the error counter of the loop
increases by exactly 1, unless the iteration is a 0 byte (timeout) read in
`STATE_WAIT_SERIAL_PACKET_SIGNATURE` or, with a valid signature, in
`STATE_READ_SERIAL_PACKET`: such a timeout leads to `STATE_RESET` and leaves
the error counter unchanged. -/
theorem C12_fatal_conditions_counted (a : t_thread) (m : t_main) (e : t_engine)
    (r : t_reply) (hn : e.state_next = e.state)
    (h1 : e.state ≠ t_state.STATE_RESET) (h2 : e.state ≠ t_state.STATE_RESET_SERIAL)
    (h3 : e.state ≠ t_state.STATE_WAIT_COMMAND) :
    (((serial_2_pthread_step a e r).eng.state = t_state.STATE_RESET ∨
        (serial_2_pthread_step a e r).eng.state = t_state.STATE_RESET_SERIAL) →
      (serial_2_pthread_step a e r).eng.errornumbers =
        if (e.state = t_state.STATE_WAIT_SERIAL_PACKET_SIGNATURE ∧ r.rval = 0) ∨
            (e.state = t_state.STATE_READ_SERIAL_PACKET ∧
              e.signatureread.header = SERIAL_SIGNATURE_HEADER ∧
              e.signatureread.footer = SERIAL_SIGNATURE_FOOTER ∧ r.rval = 0)
        then e.errornumbers else e.errornumbers + 1) ∧
    (((main_step m e r).eng.state = t_state.STATE_RESET ∨
        (main_step m e r).eng.state = t_state.STATE_RESET_SERIAL) →
      (main_step m e r).eng.errornumbers =
        if (e.state = t_state.STATE_WAIT_SERIAL_PACKET_SIGNATURE ∧ r.rval = 0) ∨
            (e.state = t_state.STATE_READ_SERIAL_PACKET ∧
              e.signatureread.header = SERIAL_SIGNATURE_HEADER ∧
              e.signatureread.footer = SERIAL_SIGNATURE_FOOTER ∧ r.rval = 0)
        then e.errornumbers else e.errornumbers + 1) ∧
    ((e.state = t_state.STATE_WAIT_SERIAL_PACKET_SIGNATURE ∨
        (e.state = t_state.STATE_READ_SERIAL_PACKET ∧
          e.signatureread.header = SERIAL_SIGNATURE_HEADER ∧
          e.signatureread.footer = SERIAL_SIGNATURE_FOOTER)) → r.rval = 0 →
      (serial_2_pthread_step a e r).eng.state = t_state.STATE_RESET ∧
      (main_step m e r).eng.state = t_state.STATE_RESET) := by
  refine ⟨?_, ?_, ?_⟩
  · cases hs : e.state <;> rw [hs] at hn h1 h2 h3 <;>
      first
        | exact absurd rfl h1
        | exact absurd rfl h2
        | exact absurd rfl h3
        | (simp only [serial_2_pthread_step, hs, loop_end_eq, hn]
           split_ifs <;> simp_all)
  · cases hs : e.state <;> rw [hs] at hn h1 h2 h3 <;>
      first
        | exact absurd rfl h1
        | exact absurd rfl h2
        | exact absurd rfl h3
        | (simp only [main_step, hs, loop_end_eq, hn]
           split_ifs <;> simp_all)
  · rintro (hs | ⟨hs, hh, hf⟩) hr
    · simp [serial_2_pthread_step, main_step, hs, loop_end_eq, hr]
    · simp [serial_2_pthread_step, main_step, hs, loop_end_eq, hr, hh, hf]

/-- Witness of C12 (amended): a master whose wait for the echoed signature
times out moves to `STATE_RESET` and counts one error. -/
theorem C12_fatal_conditions_counted_witness :
    (serial_2_pthread_step sample_thread waiting_thread (reply_count 0)).eng.state =
      t_state.STATE_RESET ∧
    (serial_2_pthread_step sample_thread waiting_thread (reply_count 0)).eng.errornumbers =
      waiting_thread.errornumbers + 1 :=
  ⟨by decide,
    ((C12_fatal_conditions_counted sample_thread sample_main waiting_thread (reply_count 0)
      (by decide) (by decide) (by decide) (by decide)).1 (Or.inl (by decide))).trans
      (by decide)⟩

/-- Claim C13, as stated, fails: after a peer sent the line `JUNK`, the
iteration from `STATE_COMMAND_RECEIVED` finds a buffer other than
`"DOSLAVE\r\n"` and moves to `STATE_SEND_COMMAND`, not to `STATE_RESET`, in
both loops. -/
theorem C13_counterexample_junk_command_not_reset :
    (junk_thread.state = t_state.STATE_COMMAND_RECEIVED ∧
      cstring junk_thread.sbufferread ≠ ("DOSLAVE\r\n" : String).toList.map Char.toNat ∧
      (serial_2_pthread_step sample_thread junk_thread (reply_count 0)).eng.state =
        t_state.STATE_SEND_COMMAND ∧
      (serial_2_pthread_step sample_thread junk_thread (reply_count 0)).eng.state ≠
        t_state.STATE_RESET) ∧
    (junk_main.state = t_state.STATE_COMMAND_RECEIVED ∧
      cstring junk_main.sbufferread ≠ ("DOSLAVE\r\n" : String).toList.map Char.toNat ∧
      (main_step sample_main junk_main (reply_count 0)).eng.state =
        t_state.STATE_SEND_COMMAND ∧
      (main_step sample_main junk_main (reply_count 0)).eng.state ≠
        t_state.STATE_RESET) := by
  decide

/-- Claim C13, amended: received text other than `"DOSLAVE\r\n"` in
`STATE_COMMAND_RECEIVED` is treated as noise and leads to
`STATE_SEND_COMMAND`; every other protocol violation that the loops detect
leads to `STATE_RESET`: text other than `"DOSLAVECMDACK\r\n"` read in
`STATE_WAIT_COMMAND_ACK`, a held signature with a wrong header or footer in
`STATE_READ_SERIAL_PACKET`, a read-back signature different from the sent one
in `STATE_WAIT_SERIAL_PACKET_ACK`, a positive count different from the
expected length (12 for a signature read in
`STATE_WAIT_SERIAL_PACKET_SIGNATURE` and
`STATE_WAIT_SERIAL_PACKET_ACK_SIGNATURE` and for the signature write in
`STATE_WRITE_SERIAL_PACKET_SIGNATURE_SLAVE`, the declared length for the
payload in `STATE_READ_SERIAL_PACKET`, `STATE_WAIT_SERIAL_PACKET_ACK` and
`STATE_WRITE_SERIAL_PACKET`), and an echoed payload of the declared length
that differs from the sent one in `STATE_WAIT_SERIAL_PACKET_ACK`.  This holds
for both loops. -/
theorem C13_protocol_violation_routes (a : t_thread) (m : t_main) (e : t_engine)
    (r : t_reply) :
    (e.state = t_state.STATE_COMMAND_RECEIVED →
      cstring e.sbufferread ≠ ("DOSLAVE\r\n" : String).toList.map Char.toNat →
      (serial_2_pthread_step a e r).eng.state = t_state.STATE_SEND_COMMAND ∧
      (main_step m e r).eng.state = t_state.STATE_SEND_COMMAND) ∧
    (e.state = t_state.STATE_WAIT_COMMAND_ACK → 0 < r.rval →
      cstring (store e.sbufferread r.data) ≠
        ("DOSLAVECMDACK\r\n" : String).toList.map Char.toNat →
      (serial_2_pthread_step a e r).eng.state = t_state.STATE_RESET ∧
      (main_step m e r).eng.state = t_state.STATE_RESET) ∧
    (e.state = t_state.STATE_READ_SERIAL_PACKET →
      (e.signatureread.header ≠ SERIAL_SIGNATURE_HEADER ∨
        e.signatureread.footer ≠ SERIAL_SIGNATURE_FOOTER) →
      (serial_2_pthread_step a e r).eng.state = t_state.STATE_RESET ∧
      (main_step m e r).eng.state = t_state.STATE_RESET) ∧
    (e.state = t_state.STATE_WAIT_SERIAL_PACKET_ACK →
      e.signatureread.wf → e.signaturewrite.wf → e.signatureread ≠ e.signaturewrite →
      (serial_2_pthread_step a e r).eng.state = t_state.STATE_RESET ∧
      (main_step m e r).eng.state = t_state.STATE_RESET) ∧
    ((e.state = t_state.STATE_WAIT_SERIAL_PACKET_SIGNATURE ∨
        e.state = t_state.STATE_WAIT_SERIAL_PACKET_ACK_SIGNATURE ∨
        e.state = t_state.STATE_WRITE_SERIAL_PACKET_SIGNATURE_SLAVE) →
      0 < r.rval → r.rval ≠ 12 →
      (serial_2_pthread_step a e r).eng.state = t_state.STATE_RESET ∧
      (main_step m e r).eng.state = t_state.STATE_RESET) ∧
    ((e.state = t_state.STATE_READ_SERIAL_PACKET ∨
        e.state = t_state.STATE_WAIT_SERIAL_PACKET_ACK) →
      0 < r.rval → r.rval ≠ to_int e.signatureread.len →
      (serial_2_pthread_step a e r).eng.state = t_state.STATE_RESET ∧
      (main_step m e r).eng.state = t_state.STATE_RESET) ∧
    (e.state = t_state.STATE_WRITE_SERIAL_PACKET →
      0 < r.rval → r.rval ≠ to_int e.signaturewrite.len →
      (serial_2_pthread_step a e r).eng.state = t_state.STATE_RESET ∧
      (main_step m e r).eng.state = t_state.STATE_RESET) ∧
    (e.state = t_state.STATE_WAIT_SERIAL_PACKET_ACK → 0 < r.rval →
      (∃ i, i < e.signatureread.len ∧
        byte_at (store e.sbufferread r.data) i ≠ byte_at e.sbufferwrite i) →
      (serial_2_pthread_step a e r).eng.state = t_state.STATE_RESET ∧
      (main_step m e r).eng.state = t_state.STATE_RESET) := by
  have hd : ("DOSLAVE\r\n" : String).toList.map Char.toNat = DOSLAVE := by decide
  have ha : ("DOSLAVECMDACK\r\n" : String).toList.map Char.toNat = DOSLAVECMDACK := by decide
  rw [hd, ha]
  refine ⟨?_, ?_, ?_, ?_, ?_, ?_, ?_, ?_⟩
  · intro hs hne
    have h0 : ¬ strcmp DOSLAVE e.sbufferread = 0 := by
      intro h
      rw [strcmp_eq_zero_iff] at h
      exact hne (h.symm.trans (by decide))
    simp [serial_2_pthread_step, main_step, hs, loop_end_eq, h0]
  · intro hs hpos hne
    have h0 : ¬ strcmp DOSLAVECMDACK (store e.sbufferread r.data) = 0 := by
      intro h
      rw [strcmp_eq_zero_iff] at h
      exact hne (h.symm.trans (by decide))
    have p1 : ¬ r.rval < 0 := by omega
    have p2 : ¬ r.rval = 0 := by omega
    simp [serial_2_pthread_step, main_step, hs, loop_end_eq, h0, p1, p2]
  · intro hs hbad
    have hc : ¬ (e.signatureread.header = SERIAL_SIGNATURE_HEADER ∧
        e.signatureread.footer = SERIAL_SIGNATURE_FOOTER) := by
      rintro ⟨x, y⟩
      cases hbad with
      | inl h => exact h x
      | inr h => exact h y
    simp [serial_2_pthread_step, main_step, hs, loop_end_eq, hc]
  · intro hs w1 w2 hne
    have h0 : ¬ memcmp (signature_bytes e.signatureread) (signature_bytes e.signaturewrite)
        SIZEOF_SIGNATURE = 0 := fun h => hne ((memcmp_signature_iff _ _ w1 w2).mp h)
    simp [serial_2_pthread_step, main_step, hs, loop_end_eq, h0]
  · intro hs hpos hne
    have p1 : ¬ r.rval < 0 := by omega
    have p2 : ¬ r.rval = 0 := by omega
    rcases hs with hs | hs | hs <;>
      simp [serial_2_pthread_step, main_step, hs, loop_end_eq, p1, p2, hne, SIZEOF_SIGNATURE]
  · intro hs hpos hne
    have p1 : ¬ r.rval < 0 := by omega
    have p2 : ¬ r.rval = 0 := by omega
    rcases hs with hs | hs <;>
      simp only [serial_2_pthread_step, main_step, hs, loop_end_eq, p1, p2, hne, if_false,
        ne_eq, not_false_eq_true, if_true] <;>
      split_ifs <;> exact ⟨rfl, rfl⟩
  · intro hs hpos hne
    have p1 : ¬ r.rval < 0 := by omega
    have p2 : ¬ r.rval = 0 := by omega
    simp [serial_2_pthread_step, main_step, hs, loop_end_eq, p1, p2, hne]
  · rintro hs hpos ⟨i, hi, hdiff⟩
    have p1 : ¬ r.rval < 0 := by omega
    have p2 : ¬ r.rval = 0 := by omega
    have h0 : ¬ memcmp (store e.sbufferread r.data) e.sbufferwrite e.signatureread.len = 0 :=
      fun h => hdiff ((memcmp_eq_zero_iff _ _ _).mp h i hi)
    simp only [serial_2_pthread_step, main_step, hs, loop_end_eq, p1, p2, h0, if_false]
    split_ifs <;> exact ⟨rfl, rfl⟩

/-- Witness of C13 (amended): junk in `STATE_COMMAND_RECEIVED`, and a garbled
signature held in `STATE_READ_SERIAL_PACKET`. -/
theorem C13_protocol_violation_routes_witness :
    (serial_2_pthread_step sample_thread junk_engine (reply_count 0)).eng.state =
      t_state.STATE_SEND_COMMAND ∧
    (serial_2_pthread_step sample_thread bad_header_engine (reply_count 77)).eng.state =
      t_state.STATE_RESET :=
  ⟨((C13_protocol_violation_routes sample_thread sample_main junk_engine
      (reply_count 0)).1 (by decide) (by decide)).1,
    ((C13_protocol_violation_routes sample_thread sample_main bad_header_engine
      (reply_count 77)).2.2.1 (by decide) (by decide)).1⟩

/-- Claim C14: in `STATE_COMMAND_RECEIVED`, for every content of the read
buffer, the next state is `STATE_SEND_COMMAND_ACK` if and only if the buffer
read as a NUL terminated string equals exactly `"DOSLAVE\r\n"`; for any other
content the next state is `STATE_SEND_COMMAND`; in both cases the error
counter and both good-packet counters are unchanged.  This holds for both
loops. -/
theorem C14_command_received (a : t_thread) (m : t_main) (e : t_engine) (r : t_reply)
    (hs : e.state = t_state.STATE_COMMAND_RECEIVED) :
    (((serial_2_pthread_step a e r).eng.state = t_state.STATE_SEND_COMMAND_ACK ↔
        cstring e.sbufferread = ("DOSLAVE\r\n" : String).toList.map Char.toNat) ∧
      (cstring e.sbufferread ≠ ("DOSLAVE\r\n" : String).toList.map Char.toNat →
        (serial_2_pthread_step a e r).eng.state = t_state.STATE_SEND_COMMAND) ∧
      (serial_2_pthread_step a e r).eng.errornumbers = e.errornumbers ∧
      (serial_2_pthread_step a e r).eng.goodpackettx = e.goodpackettx ∧
      (serial_2_pthread_step a e r).eng.goodpacketrx = e.goodpacketrx) ∧
    (((main_step m e r).eng.state = t_state.STATE_SEND_COMMAND_ACK ↔
        cstring e.sbufferread = ("DOSLAVE\r\n" : String).toList.map Char.toNat) ∧
      (cstring e.sbufferread ≠ ("DOSLAVE\r\n" : String).toList.map Char.toNat →
        (main_step m e r).eng.state = t_state.STATE_SEND_COMMAND) ∧
      (main_step m e r).eng.errornumbers = e.errornumbers ∧
      (main_step m e r).eng.goodpackettx = e.goodpackettx ∧
      (main_step m e r).eng.goodpacketrx = e.goodpacketrx) := by
  have hd : ("DOSLAVE\r\n" : String).toList.map Char.toNat = DOSLAVE := by decide
  have hc : cstring DOSLAVE = DOSLAVE := by decide
  have hiff : strcmp DOSLAVE e.sbufferread = 0 ↔ cstring e.sbufferread = DOSLAVE := by
    rw [strcmp_eq_zero_iff, hc]
    exact eq_comm
  rw [hd]
  by_cases h : cstring e.sbufferread = DOSLAVE
  · have h0 := hiff.mpr h
    simp [serial_2_pthread_step, main_step, hs, loop_end_eq, h0, h]
  · have h0 : ¬ strcmp DOSLAVE e.sbufferread = 0 := fun x => h (hiff.mp x)
    simp [serial_2_pthread_step, main_step, hs, loop_end_eq, h0, h]

/-- Witness of C14: the buffer holds `JUNK`. -/
theorem C14_command_received_witness :
    (serial_2_pthread_step sample_thread junk_engine (reply_count 0)).eng.state =
      t_state.STATE_SEND_COMMAND :=
  (C14_command_received sample_thread sample_main junk_engine (reply_count 0)
    (by decide)).1.2.1 (by decide)

/-- Claim C15, as stated, fails: a slave that waits for a signature and reads
12 bytes whose header is 0 (garbled) does not move to `STATE_RESET` in that
iteration; the next state is `STATE_READ_SERIAL_PACKET`, in both loops. -/
theorem C15_counterexample_garbled_signature_accepted :
    (slave_waiting_thread.state = t_state.STATE_WAIT_SERIAL_PACKET_SIGNATURE ∧
      (reply_data (signature_bytes garbled_signature)).rval = 12 ∧
      (serial_2_pthread_step sample_thread slave_waiting_thread
        (reply_data (signature_bytes garbled_signature))).eng.signatureread.header ≠
        SERIAL_SIGNATURE_HEADER ∧
      (serial_2_pthread_step sample_thread slave_waiting_thread
        (reply_data (signature_bytes garbled_signature))).eng.state =
        t_state.STATE_READ_SERIAL_PACKET) ∧
    (slave_waiting_main.state = t_state.STATE_WAIT_SERIAL_PACKET_SIGNATURE ∧
      (main_step sample_main slave_waiting_main
        (reply_data (signature_bytes garbled_signature))).eng.signatureread.header ≠
        SERIAL_SIGNATURE_HEADER ∧
      (main_step sample_main slave_waiting_main
        (reply_data (signature_bytes garbled_signature))).eng.state =
        t_state.STATE_READ_SERIAL_PACKET) := by
  decide

/-- Claim C15, amended: in `STATE_WAIT_SERIAL_PACKET_SIGNATURE` (between two
iterations, where `state_next` equals `state`) either loop moves to
`STATE_READ_SERIAL_PACKET` exactly when the read returns 12, whatever header
and footer were read; a 0 byte read or a read of fewer than 12 bytes makes the
next state `STATE_RESET`; a 12 byte read whose header or footer does not match
the constants is rejected one iteration later: the iteration from
`STATE_READ_SERIAL_PACKET` that follows has the next state `STATE_RESET`. -/
theorem C15_wait_signature_transitions (a : t_thread) (m : t_main) (e : t_engine)
    (r r2 : t_reply)
    (hs : e.state = t_state.STATE_WAIT_SERIAL_PACKET_SIGNATURE)
    (hn : e.state_next = e.state) :
    (((serial_2_pthread_step a e r).eng.state = t_state.STATE_READ_SERIAL_PACKET ↔
        r.rval = 12) ∧
      (r.rval = 0 → (serial_2_pthread_step a e r).eng.state = t_state.STATE_RESET) ∧
      (0 < r.rval → r.rval < 12 →
        (serial_2_pthread_step a e r).eng.state = t_state.STATE_RESET) ∧
      (r.rval = 12 →
        ((signature_store e.signatureread r.data).header ≠ SERIAL_SIGNATURE_HEADER ∨
          (signature_store e.signatureread r.data).footer ≠ SERIAL_SIGNATURE_FOOTER) →
        (serial_2_pthread_step a (serial_2_pthread_step a e r).eng r2).eng.state =
          t_state.STATE_RESET)) ∧
    (((main_step m e r).eng.state = t_state.STATE_READ_SERIAL_PACKET ↔ r.rval = 12) ∧
      (r.rval = 0 → (main_step m e r).eng.state = t_state.STATE_RESET) ∧
      (0 < r.rval → r.rval < 12 → (main_step m e r).eng.state = t_state.STATE_RESET) ∧
      (r.rval = 12 →
        ((signature_store e.signatureread r.data).header ≠ SERIAL_SIGNATURE_HEADER ∨
          (signature_store e.signatureread r.data).footer ≠ SERIAL_SIGNATURE_FOOTER) →
        (main_step m (main_step m e r).eng r2).eng.state = t_state.STATE_RESET)) := by
  rw [hs] at hn
  have t12 : r.rval = 12 →
      (serial_2_pthread_step a e r).eng.state = t_state.STATE_READ_SERIAL_PACKET ∧
      (serial_2_pthread_step a e r).eng.signatureread =
        signature_store e.signatureread r.data := by
    intro h
    simp [serial_2_pthread_step, hs, loop_end_eq, h, SIZEOF_SIGNATURE]
  have m12 : r.rval = 12 →
      (main_step m e r).eng.state = t_state.STATE_READ_SERIAL_PACKET ∧
      (main_step m e r).eng.signatureread = signature_store e.signatureread r.data := by
    intro h
    simp [main_step, hs, loop_end_eq, h, SIZEOF_SIGNATURE]
  have bad : ∀ x : t_signature,
      (x.header ≠ SERIAL_SIGNATURE_HEADER ∨ x.footer ≠ SERIAL_SIGNATURE_FOOTER) →
      ¬ (x.header = SERIAL_SIGNATURE_HEADER ∧ x.footer = SERIAL_SIGNATURE_FOOTER) := by
    rintro x (h | h) ⟨p, q⟩
    · exact h p
    · exact h q
  refine ⟨⟨?_, ?_, ?_, ?_⟩, ⟨?_, ?_, ?_, ?_⟩⟩
  · constructor
    · intro h
      by_contra hne
      simp only [serial_2_pthread_step, hs, loop_end_eq, hn, SIZEOF_SIGNATURE] at h
      split_ifs at h
      simp_all
    · intro h
      exact (t12 h).1
  · intro h
    simp [serial_2_pthread_step, hs, loop_end_eq, h]
  · intro h1 h2
    have p1 : ¬ r.rval < 0 := by omega
    have p2 : ¬ r.rval = 0 := by omega
    have p3 : ¬ r.rval = 12 := by omega
    simp [serial_2_pthread_step, hs, loop_end_eq, p1, p2, p3, SIZEOF_SIGNATURE]
  · intro h hb
    obtain ⟨k1, k2⟩ := t12 h
    rw [← k2] at hb
    have hc := bad _ hb
    generalize (serial_2_pthread_step a e r).eng = e1 at k1 hc ⊢
    simp [serial_2_pthread_step, k1, hc, loop_end_eq]
  · constructor
    · intro h
      by_contra hne
      simp only [main_step, hs, loop_end_eq, hn, SIZEOF_SIGNATURE] at h
      split_ifs at h
      simp_all
    · intro h
      exact (m12 h).1
  · intro h
    simp [main_step, hs, loop_end_eq, h]
  · intro h1 h2
    have p1 : ¬ r.rval < 0 := by omega
    have p2 : ¬ r.rval = 0 := by omega
    have p3 : ¬ r.rval = 12 := by omega
    simp [main_step, hs, loop_end_eq, p1, p2, p3, SIZEOF_SIGNATURE]
  · intro h hb
    obtain ⟨k1, k2⟩ := m12 h
    rw [← k2] at hb
    have hc := bad _ hb
    generalize (main_step m e r).eng = e1 at k1 hc ⊢
    simp [main_step, k1, hc, loop_end_eq]

/-- Witness of C15 (amended): the garbled 12 bytes are accepted by the wait
and rejected by the iteration that follows. -/
theorem C15_wait_signature_transitions_witness :
    (serial_2_pthread_step sample_thread
      (serial_2_pthread_step sample_thread slave_waiting_thread
        (reply_data (signature_bytes garbled_signature))).eng (reply_count 5)).eng.state =
      t_state.STATE_RESET :=
  (C15_wait_signature_transitions sample_thread sample_main slave_waiting_thread
    (reply_data (signature_bytes garbled_signature)) (reply_count 5)
    (by decide) (by decide)).1.2.2.2 (by decide) (by decide)

/-- Claim C16 fails for the loop of `main`: with the default arguments
(115200 baud on the port that `main` drives, 9600 baud on the second port) the
signature that `main` builds in `STATE_WRITE_SERIAL_PACKET_SIGNATURE_MASTER`
has the right header and footer but the length 35, which is `bufferlen` of the
second port's rate, not 45, `bufferlen` of the rate of its own port; the
payload of `STATE_WRITE_SERIAL_PACKET` is generated for the second port's rate
as well.  The loop of `serial_2_pthread` uses the rate of its own port. -/
theorem C16_main_uses_second_port_rate :
    (master_ready_main.state = t_state.STATE_WRITE_SERIAL_PACKET_SIGNATURE_MASTER ∧
      sample_main.baudrate1 = 115200 ∧ sample_main.baudrate2 = 9600 ∧
      bufferlen sample_main.baudrate1 = 45 ∧
      (main_step sample_main master_ready_main (reply_count 12)).eng.signaturewrite =
        { header := 0x12345678, len := 35, footer := 0xdeadbeef } ∧
      (main_step sample_main master_ready_main (reply_count 12)).calls =
        [t_call.serial_send_raw
          (signature_bytes { header := 0x12345678, len := 35, footer := 0xdeadbeef }) 12] ∧
      (main_step sample_main
        (main_step sample_main master_ready_main (reply_count 12)).eng
        (reply_count 35)).eng.sbufferwrite =
        fillbuffer (List.replicate BUFFER_SIZE 0) sample_main.baudrate2) ∧
    (master_ready_thread.state = t_state.STATE_WRITE_SERIAL_PACKET_SIGNATURE_MASTER ∧
      sample_thread.port.baudrate = 9600 ∧
      (serial_2_pthread_step sample_thread master_ready_thread
        (reply_count 12)).eng.signaturewrite =
        { header := 0x12345678, len := 35, footer := 0xdeadbeef }) := by
  refine ⟨⟨by decide, by decide, by decide, by decide, by decide, by decide, ?_⟩,
    by decide, by decide, by decide⟩
  rfl

/-- Claim C17: `bufferlen` is exactly the lookup table 230400 -> 70,
115200 -> 45, 57600 -> 42, 38400 -> 40, 19200 -> 38, 9600 -> 35, 4800 -> 30,
2400 -> 20, 1200 -> 10, and for every other integer baud rate (negative values
and 0 included) the result is the default 10. -/
theorem C17_bufferlen_table :
    bufferlen 230400 = 70 ∧ bufferlen 115200 = 45 ∧ bufferlen 57600 = 42 ∧
    bufferlen 38400 = 40 ∧ bufferlen 19200 = 38 ∧ bufferlen 9600 = 35 ∧
    bufferlen 4800 = 30 ∧ bufferlen 2400 = 20 ∧ bufferlen 1200 = 10 ∧
    (∀ b : Int, b ∉ [230400, 115200, 57600, 38400, 19200, 9600, 4800, 2400, 1200] →
      bufferlen b = 10) := by
  refine ⟨by decide, by decide, by decide, by decide, by decide, by decide, by decide,
    by decide, by decide, ?_⟩
  intro b hb
  simp only [List.mem_cons, List.mem_singleton, not_or, List.not_mem_nil, or_false] at hb
  obtain ⟨b1, b2, b3, b4, b5, b6, b7, b8, _⟩ := hb
  simp [bufferlen, b1, b2, b3, b4, b5, b6, b7, b8]

/-- Witness of C17: the rates 0, -9600 and 300 are not in the table. -/
theorem C17_bufferlen_table_witness :
    bufferlen 0 = 10 ∧ bufferlen (-9600) = 10 ∧ bufferlen 300 = 10 :=
  ⟨C17_bufferlen_table.2.2.2.2.2.2.2.2.2 0 (by decide),
    C17_bufferlen_table.2.2.2.2.2.2.2.2.2 (-9600) (by decide),
    C17_bufferlen_table.2.2.2.2.2.2.2.2.2 300 (by decide)⟩

/-- Claim C18: for every integer baud rate `B`, `bufferlen B` is greater than
0 and at most 4096, and two calls with the same `B` return the same value;
over the nine supported rates the result is strictly increasing in `B`. -/
theorem C18_bufferlen_bounds :
    (∀ b : Int, 0 < bufferlen b ∧ bufferlen b ≤ 4096) ∧
    (∀ b1 b2 : Int, b1 = b2 → bufferlen b1 = bufferlen b2) ∧
    (∀ b1 b2 : Int,
      b1 ∈ [1200, 2400, 4800, 9600, 19200, 38400, 57600, 115200, 230400] →
      b2 ∈ [1200, 2400, 4800, 9600, 19200, 38400, 57600, 115200, 230400] →
      b1 < b2 → bufferlen b1 < bufferlen b2) := by
  refine ⟨?_, ?_, ?_⟩
  · intro b
    have h := bufferlen_range b
    omega
  · intro b1 b2 h
    rw [h]
  · intro b1 b2 h1 h2 hlt
    simp only [List.mem_cons, List.mem_singleton, List.not_mem_nil, or_false] at h1 h2
    rcases h1 with h | h | h | h | h | h | h | h | h <;>
      rcases h2 with k | k | k | k | k | k | k | k | k <;>
      subst h <;> subst k <;> first | (exact absurd hlt (by decide)) | decide

/-- Witness of C18: 9600 baud against 115200 baud. -/
theorem C18_bufferlen_bounds_witness : bufferlen 9600 < bufferlen 115200 :=
  C18_bufferlen_bounds.2.2 9600 115200 (by decide) (by decide) (by decide)

/-- Claim C19, as stated, fails: the alphabet `str` of the payload generator
does not have 50 characters. -/
theorem C19_counterexample_alphabet_not_50 : strlen str ≠ 50 := by
  decide

/-- Claim C19, amended: the alphabet `str` of the payload generator, the
string `"0123456789ABCDEFABCDEFGHIJKLMNOPQRSTUVWXYZ[]=-,."`, has exactly 48
characters. -/
theorem C19_alphabet_has_48_characters :
    str = ("0123456789ABCDEFABCDEFGHIJKLMNOPQRSTUVWXYZ[]=-,." : String).toList.map Char.toNat ∧
    strlen str = 48 ∧ str.length = 48 := by
  decide

/-- Claim C20: for every baud rate `B` and every initial content of the 4096
byte write buffer, after `fillbuffer` the payload that is sent, the first
`L = bufferlen B` bytes of the buffer, satisfies: byte `i` equals
`str[i mod n]` for every `i < L`, where `n = strlen str` is the length of the
alphabet; every such byte is printable ASCII (`0x20..0x7e`); and the payload
depends only on `B`, not on the prior content of the buffer. -/
theorem C20_payload_pattern (b : Int) (buf : List Nat) (hlen : buf.length = BUFFER_SIZE) :
    (∀ i, i < (bufferlen b).toNat →
      byte_at (fillbuffer buf b) i = byte_at str (i % strlen str) ∧
      0x20 ≤ byte_at (fillbuffer buf b) i ∧ byte_at (fillbuffer buf b) i ≤ 0x7e) ∧
    (∀ buf2 : List Nat, buf2.length = BUFFER_SIZE →
      (fillbuffer buf b).take (bufferlen b).toNat =
        (fillbuffer buf2 b).take (bufferlen b).toNat) := by
  have hb := bufferlen_range b
  have hs : strlen str = 48 := by decide
  have hprint : ∀ j, j < 48 → 0x20 ≤ byte_at str j ∧ byte_at str j ≤ 0x7e := by decide
  constructor
  · intro i hi
    have h := byte_at_fillbuffer buf b i hlen (by omega)
    rw [hs, h]
    exact ⟨rfl, hprint (i % 48) (Nat.mod_lt _ (by omega))⟩
  · intro buf2 hlen2
    rw [take_eq_iff_byte_at _ _ _ (by rw [fillbuffer_length, hlen, BUFFER_SIZE]; omega)
      (by rw [fillbuffer_length, hlen2, BUFFER_SIZE]; omega)]
    intro i hi
    rw [byte_at_fillbuffer buf b i hlen (by omega),
      byte_at_fillbuffer buf2 b i hlen2 (by omega)]

/-- Witness of C20: a buffer full of the byte 7 and 9600 baud; byte 34 of the
payload is `str[34]`, the letter `S`. -/
theorem C20_payload_pattern_witness :
    byte_at (fillbuffer (List.replicate BUFFER_SIZE 7) 9600) 34 = 83 :=
  (((C20_payload_pattern 9600 (List.replicate BUFFER_SIZE 7)
    (List.length_replicate BUFFER_SIZE 7)).1 34 (by decide)).1).trans (by decide)

/-- Claim C21 (end to end over a loopback): two loops of `serial_2_pthread` joined by the lossless loopback
transport, `a` as master and `b` as slave, started at the beginning of a round
with nothing in flight and run for `n` rounds in which every read finds its
bytes and every write is taken in full: the sent-good counter of `a` grows by
`n`; the received-good counter of `b` grows by `n` when the logging macro
`THREAD_PRINT` evaluates its arguments (the increment is written inside its
argument list) and stays as it was otherwise; before every iteration and at
the end neither loop is in `STATE_RESET` or `STATE_RESET_SERIAL`, and both
error counters have the value they started with. -/
theorem C21_loopback_rounds (ta tb : t_thread) (l : t_link) (n : Nat)
    (h : round_start l) :
    (link_run ta tb l (schedule_rounds n)).a.goodpackettx = l.a.goodpackettx + n ∧
    (link_run ta tb l (schedule_rounds n)).b.goodpacketrx =
      l.b.goodpacketrx + (if tb.thread_print then n else 0) ∧
    (∀ x ∈ link_history ta tb l (schedule_rounds n),
      x.a.state ≠ t_state.STATE_RESET ∧ x.a.state ≠ t_state.STATE_RESET_SERIAL ∧
      x.b.state ≠ t_state.STATE_RESET ∧ x.b.state ≠ t_state.STATE_RESET_SERIAL ∧
      x.a.errornumbers = l.a.errornumbers ∧ x.b.errornumbers = l.b.errornumbers) := by
  obtain ⟨_, h2, h3, h4⟩ := link_rounds ta tb n l h
  refine ⟨h2, h3, ?_⟩
  intro x hx
  obtain ⟨j1, j2, j3, j4⟩ := h4 x hx
  simp only [List.mem_cons, List.mem_singleton, List.not_mem_nil, or_false] at j1 j2
  refine ⟨?_, ?_, ?_, ?_, j3, j4⟩
  · rcases j1 with j | j | j | j <;> rw [j] <;> decide
  · rcases j1 with j | j | j | j <;> rw [j] <;> decide
  · rcases j2 with j | j | j | j <;> rw [j] <;> decide
  · rcases j2 with j | j | j | j <;> rw [j] <;> decide

/-- Witness of C21: the two sample loops (9600 baud, payload of 35 bytes) after their
handshake, run for 100 rounds: both counters are 100, no reset state is
visited and no error is counted. -/
theorem C21_loopback_rounds_witness :
    round_start link_ready ∧
    to_u32 (bufferlen sample_thread.port.baudrate) = 35 ∧
    (link_run sample_thread sample_thread link_ready (schedule_rounds 100)).a.goodpackettx
      = 100 ∧
    (link_run sample_thread sample_thread link_ready (schedule_rounds 100)).b.goodpacketrx
      = 100 ∧
    (∀ x ∈ link_history sample_thread sample_thread link_ready (schedule_rounds 100),
      x.a.state ≠ t_state.STATE_RESET ∧ x.a.state ≠ t_state.STATE_RESET_SERIAL ∧
      x.b.state ≠ t_state.STATE_RESET ∧ x.b.state ≠ t_state.STATE_RESET_SERIAL ∧
      x.a.errornumbers = 0 ∧ x.b.errornumbers = 0) :=
  ⟨link_ready_round_start, by decide,
    (C21_loopback_rounds sample_thread sample_thread link_ready 100
      link_ready_round_start).1.trans (by decide),
    (C21_loopback_rounds sample_thread sample_thread link_ready 100
      link_ready_round_start).2.1.trans (by decide),
    fun x hx =>
      have j := (C21_loopback_rounds sample_thread sample_thread link_ready 100
        link_ready_round_start).2.2 x hx
      ⟨j.1, j.2.1, j.2.2.1, j.2.2.2.1, j.2.2.2.2.1.trans (by decide),
        j.2.2.2.2.2.trans (by decide)⟩⟩

/-- Claim C22 (signature wire round trip): for every signature `S` with three
32 bit fields, the bytes of `S` (header, length, footer, each least
significant byte first) are exactly 12, and reading those 12 bytes back, into
any signature object, yields `S`; conversely every string `X` of 12 bytes
decodes to a signature whose bytes are `X`. -/
theorem C22_signature_round_trip :
    SIZEOF_SIGNATURE = 12 ∧
    (∀ s : t_signature, s.wf →
      (signature_bytes s).length = 12 ∧
      signature_of_bytes (signature_bytes s) = s ∧
      ∀ old : t_signature, signature_store old (signature_bytes s) = s) ∧
    (∀ x : List Nat, x.length = 12 → (∀ b ∈ x, b < 256) →
      signature_bytes (signature_of_bytes x) = x) := by
  refine ⟨rfl, ?_, ?_⟩
  · intro s hs
    refine ⟨signature_bytes_length s, signature_roundtrip s hs, ?_⟩
    intro old
    unfold signature_store
    rw [store_of_length_le _ _ (by rw [signature_bytes_length, signature_bytes_length]),
      signature_bytes_length, ← signature_bytes_length s, List.take_length]
    exact signature_roundtrip s hs
  · intro x hlen hb
    rcases x with _|⟨b0,_|⟨b1,_|⟨b2,_|⟨b3,_|⟨b4,_|⟨b5,_|⟨b6,_|⟨b7,_|⟨b8,_|⟨b9,_|⟨b10,_|⟨b11,_|⟨b12,t⟩⟩⟩⟩⟩⟩⟩⟩⟩⟩⟩⟩⟩ <;>
      simp only [List.length_cons, List.length_nil] at hlen <;> try omega
    have h0 := hb b0 (by simp)
    have h1 := hb b1 (by simp)
    have h2 := hb b2 (by simp)
    have h3 := hb b3 (by simp)
    have h4 := hb b4 (by simp)
    have h5 := hb b5 (by simp)
    have h6 := hb b6 (by simp)
    have h7 := hb b7 (by simp)
    have h8 := hb b8 (by simp)
    have h9 := hb b9 (by simp)
    have h10 := hb b10 (by simp)
    have h11 := hb b11 (by simp)
    simp only [signature_bytes, signature_of_bytes, u32_bytes, u32_of_bytes, byte_at,
      List.getD_cons_zero, List.getD_cons_succ, List.drop_succ_cons, List.drop_zero,
      List.cons_append, List.nil_append, List.cons.injEq, and_true]
    refine ⟨?_, ?_, ?_, ?_, ?_, ?_, ?_, ?_, ?_, ?_, ?_, ?_⟩ <;> omega

/-- Witness of C22: the signature of a 35 byte packet, and its 12 bytes. -/
theorem C22_signature_round_trip_witness :
    signature_of_bytes (signature_bytes (master_signature 9600)) = master_signature 9600 ∧
    signature_bytes (signature_of_bytes (signature_bytes (master_signature 9600))) =
      signature_bytes (master_signature 9600) :=
  ⟨(C22_signature_round_trip.2.1 (master_signature 9600) (by decide)).2.1,
    C22_signature_round_trip.2.2 (signature_bytes (master_signature 9600)) (by decide)
      (by decide)⟩

/-- Claim C23 fails in `STATE_RESET_SERIAL`: after a failed command write both
loops are in `STATE_RESET_SERIAL` with one error counted; when
`serial_device_reset` then fails with `EIO` both leave their loop, but
`serial_2_pthread` adds 1 to its error counter and `main` adds nothing to its
own. -/
theorem C23_reset_serial_failure_counted_differently :
    reset_serial_thread.state = t_state.STATE_RESET_SERIAL ∧
    reset_serial_main.state = t_state.STATE_RESET_SERIAL ∧
    reset_serial_thread.errornumbers = 1 ∧ reset_serial_main.errornumbers = 1 ∧
    (serial_2_pthread_step sample_thread reset_serial_thread (reply_error 5)).exited = true ∧
    (main_step sample_main reset_serial_main (reply_error 5)).exited = true ∧
    (serial_2_pthread_step sample_thread reset_serial_thread (reply_error 5)).eng.errornumbers =
      reset_serial_thread.errornumbers + 1 ∧
    (main_step sample_main reset_serial_main (reply_error 5)).eng.errornumbers =
      reset_serial_main.errornumbers := by
  decide

/-- Claim C24: a loop ends only through a failed device reinitialisation: for
every state and every answer of the transport, the iteration leaves the loop
if and only if the state is `STATE_RESET_SERIAL` and `serial_device_reset`
fails (negative return) with an `errno` other than `EAGAIN` and `EINTR`; a
reset that succeeds in `STATE_RESET_SERIAL` yields the next state
`STATE_RESET`.  This holds for both loops. -/
theorem C24_exit_only_on_reset_failure (a : t_thread) (m : t_main) (e : t_engine)
    (r : t_reply) :
    ((serial_2_pthread_step a e r).exited = true ↔
      (e.state = t_state.STATE_RESET_SERIAL ∧ r.rval < 0 ∧ r.errno ≠ EAGAIN ∧
        r.errno ≠ EINTR)) ∧
    ((main_step m e r).exited = true ↔
      (e.state = t_state.STATE_RESET_SERIAL ∧ r.rval < 0 ∧ r.errno ≠ EAGAIN ∧
        r.errno ≠ EINTR)) ∧
    (e.state = t_state.STATE_RESET_SERIAL → 0 ≤ r.rval →
      (serial_2_pthread_step a e r).eng.state = t_state.STATE_RESET ∧
      (serial_2_pthread_step a e r).exited = false ∧
      (main_step m e r).eng.state = t_state.STATE_RESET ∧
      (main_step m e r).exited = false) := by
  refine ⟨?_, ?_, ?_⟩
  · cases hs : e.state <;> simp only [serial_2_pthread_step, hs, loop_end_eq] <;>
      (try split_ifs) <;> simp_all <;> tauto
  · cases hs : e.state <;> simp only [main_step, hs, loop_end_eq] <;>
      (try split_ifs) <;> simp_all <;> tauto
  · intro hs hr
    have p : ¬ r.rval < 0 := by omega
    simp [serial_2_pthread_step, main_step, hs, loop_end_eq, p]

/-- Witness of C24: a device reset that returns 0. -/
theorem C24_exit_only_on_reset_failure_witness :
    (serial_2_pthread_step sample_thread reset_serial_thread (reply_count 0)).eng.state =
      t_state.STATE_RESET ∧
    (serial_2_pthread_step sample_thread reset_serial_thread (reply_count 0)).exited = false ∧
    (main_step sample_main reset_serial_thread (reply_count 0)).eng.state =
      t_state.STATE_RESET ∧
    (main_step sample_main reset_serial_thread (reply_count 0)).exited = false :=
  (C24_exit_only_on_reset_failure sample_thread sample_main reset_serial_thread
    (reply_count 0)).2.2 (by decide) (by decide)

/-- Claim C25, as stated, fails: there is no payload length that is an exact
multiple of 16 for which the multi-line loop of `print_payload` draws a line
of length 0; for the length 32 of the example the loop draws two lines of 16
bytes, the bytes 0..15 and the bytes 16..31 of the payload. -/
theorem C25_counterexample_no_zero_length_line :
    (¬ ∃ (fuel : Nat) (payload : List Nat) (k : Nat) (lines : List t_line),
      16 < 16 * (k : Int) ∧
      print_payload_loop fuel payload (16 * (k : Int)) 0 = some lines ∧
      ∃ l ∈ lines, l.len = 0) ∧
    print_payload 3 1 1 (List.range 32) 32 3 =
      some [{ bytes := List.range 16, len := 16, offset := 0 },
        { bytes := (List.range 32).drop 16, len := 16, offset := 16 }] := by
  constructor
  · rintro ⟨fuel, payload, k, lines, hk, hl, l, hmem, hz⟩
    have := print_payload_loop_line_bounds fuel payload _ 0 lines hk hl l hmem
    omega
  · decide

/-- Claim C25, amended: in the multi-line branch of `print_payload`, for every
payload length `16 * k` that is an exact multiple of 16 and greater than 16
(for example 32), the wrapping logic (line length = 16 modulo the remaining
length, which is 16 because the remaining length is greater than 16 inside
the loop) draws exactly `k` lines and each has 16 bytes; no line of length 0
is drawn.  (`fuel` bounds the iterations of the model of the loop; `k - 1`
iterations are enough.) -/
theorem C25_multiple_of_16_draws_full_lines (DBG_VERBOSE DBG_ERROR dbglvl : Int)
    (payload : List Nat) (k fuel : Nat)
    (hon : dbglvl ≥ DBG_VERBOSE ∨ dbglvl = DBG_ERROR) (hk : 2 ≤ k) (hf : k ≤ fuel + 1) :
    ∃ lines, print_payload DBG_VERBOSE DBG_ERROR fuel payload (16 * (k : Int)) dbglvl =
        some lines ∧
      lines.map (fun l => l.len) = List.replicate k 16 ∧
      ∀ l ∈ lines, l.len ≠ 0 := by
  obtain ⟨lines, hl, hmap⟩ := print_payload_loop_multiple fuel payload 0 k hk hf
  have h1 : ¬ (16 * (k : Int) ≤ 0) := by omega
  have h2 : ¬ (16 * (k : Int) ≤ 16) := by omega
  refine ⟨lines, ?_, hmap, ?_⟩
  · simp only [print_payload, hon, if_true, h1, h2, if_false, hl]
  · intro l hmem
    have := print_payload_loop_line_bounds fuel payload _ 0 lines (by omega) hl l hmem
    omega

/-- Witness of C25 (amended): a payload of 48 bytes is drawn as three lines of
16 bytes. -/
theorem C25_multiple_of_16_draws_full_lines_witness :
    ∃ lines, print_payload 3 1 2 (List.range 48) (16 * ((3 : Nat) : Int)) 3 = some lines ∧
      lines.map (fun l => l.len) = List.replicate 3 16 ∧
      ∀ l ∈ lines, l.len ≠ 0 :=
  C25_multiple_of_16_draws_full_lines 3 1 3 (List.range 48) 3 2 (by decide) (by decide)
    (by decide)

/-- Claim C26 fails on a short write: a slave that holds a received packet of
35 bytes and whose echo write returns 10 moves to
`STATE_WAIT_SERIAL_PACKET_SIGNATURE`, and the received-good counter is
incremented (whenever the logging macro that holds the increment evaluates
its arguments), in both loops: the packet counts as good although the payload
was not echoed in full. -/
theorem C26_short_echo_counted_good :
    (slave_echoing_thread.state = t_state.STATE_WRITE_SERIAL_PACKET_ACK ∧
      slave_echoing_thread.signatureread.len = 35 ∧
      (serial_2_pthread_step sample_thread slave_echoing_thread (reply_count 10)).calls =
        [t_call.serial_send_raw sent_payload 35] ∧
      (serial_2_pthread_step sample_thread slave_echoing_thread (reply_count 10)).eng.state =
        t_state.STATE_WAIT_SERIAL_PACKET_SIGNATURE ∧
      (serial_2_pthread_step sample_thread slave_echoing_thread
        (reply_count 10)).eng.goodpacketrx = slave_echoing_thread.goodpacketrx + 1) ∧
    (slave_echoing_main.state = t_state.STATE_WRITE_SERIAL_PACKET_ACK ∧
      slave_echoing_main.signatureread.len = 35 ∧
      (main_step sample_main_noisy slave_echoing_main (reply_count 10)).eng.state =
        t_state.STATE_WAIT_SERIAL_PACKET_SIGNATURE ∧
      (main_step sample_main_noisy slave_echoing_main (reply_count 10)).eng.goodpacketrx =
        slave_echoing_main.goodpacketrx + 1) := by
  decide

/-- Claim C27: a write that returns 0 is a pure retry: in each of the six
writing states, when the write returns 0 the iteration (taken between two
iterations, where `state_next` equals `state`) leaves the state, both
good-packet counters, the error counter and the adaptive timeout unchanged.
This holds for both loops. -/
theorem C27_zero_write_is_retry (a : t_thread) (m : t_main) (e : t_engine) (r : t_reply)
    (hs : e.state ∈ [t_state.STATE_SEND_COMMAND_ACK,
      t_state.STATE_WRITE_SERIAL_PACKET_SIGNATURE_SLAVE,
      t_state.STATE_WRITE_SERIAL_PACKET_ACK, t_state.STATE_SEND_COMMAND,
      t_state.STATE_WRITE_SERIAL_PACKET_SIGNATURE_MASTER,
      t_state.STATE_WRITE_SERIAL_PACKET])
    (hn : e.state_next = e.state) (hr : r.rval = 0) :
    ((serial_2_pthread_step a e r).eng.state = e.state ∧
      (serial_2_pthread_step a e r).eng.goodpackettx = e.goodpackettx ∧
      (serial_2_pthread_step a e r).eng.goodpacketrx = e.goodpacketrx ∧
      (serial_2_pthread_step a e r).eng.errornumbers = e.errornumbers ∧
      (serial_2_pthread_step a e r).eng.timeout = e.timeout) ∧
    ((main_step m e r).eng.state = e.state ∧
      (main_step m e r).eng.goodpackettx = e.goodpackettx ∧
      (main_step m e r).eng.goodpacketrx = e.goodpacketrx ∧
      (main_step m e r).eng.errornumbers = e.errornumbers ∧
      (main_step m e r).eng.timeout = e.timeout) := by
  cases hst : e.state <;> rw [hst] at hs hn <;>
    first
      | exact absurd hs (by decide)
      | simp [serial_2_pthread_step, main_step, hst, loop_end_eq, hr, hn]

/-- Witness of C27: a master about to send a signature whose write returns 0. -/
theorem C27_zero_write_is_retry_witness :
    (serial_2_pthread_step sample_thread master_ready_thread (reply_count 0)).eng.state =
      master_ready_thread.state :=
  (C27_zero_write_is_retry sample_thread sample_main master_ready_thread (reply_count 0)
    (by decide) (by decide) (by decide)).1.1

/-- Claim C28 (buffer bound of the payload generator): for every integer baud
rate `B` and every content of the 4096 byte write buffer, `fillbuffer` writes
exactly `strlen str * bufferlen B` bytes from the start of the buffer: these
bytes are the alphabet copied `bufferlen B` times (byte `i` is
`str[i mod strlen str]`), every byte behind them keeps its value and the size
of the buffer is unchanged; each of the `bufferlen B` copies lies inside the
buffer, and the count is at most 4096 for every `B`, with the maximum 3360
reached at 230400 baud. -/
theorem C28_fillbuffer_bound (b : Int) (buf : List Nat) (hlen : buf.length = BUFFER_SIZE) :
    strlen str * (bufferlen b).toNat ≤ BUFFER_SIZE ∧
    strlen str * (bufferlen b).toNat ≤ strlen str * (bufferlen 230400).toNat ∧
    strlen str * (bufferlen 230400).toNat = 3360 ∧
    bufferlen b < strlen str * (bufferlen b).toNat ∧
    (∀ k, k < (bufferlen b).toNat → strlen str * k + strlen str ≤ BUFFER_SIZE) ∧
    (∀ i, i < strlen str * (bufferlen b).toNat →
      byte_at (fillbuffer buf b) i = byte_at str (i % strlen str)) ∧
    (∀ i, strlen str * (bufferlen b).toNat ≤ i →
      byte_at (fillbuffer buf b) i = byte_at buf i) ∧
    (fillbuffer buf b).length = BUFFER_SIZE := by
  have hb := bufferlen_range b
  have hs : strlen str = 48 := by decide
  have hc : strncpy_bytes str 48 = str := by decide
  have h70 : bufferlen 230400 = 70 := by decide
  have hsz : BUFFER_SIZE = 4096 := rfl
  rw [hs, h70, hsz]
  refine ⟨by omega, by omega, by decide, by omega, fun k hk => by omega, ?_, ?_, ?_⟩
  · intro i hi
    exact byte_at_fillbuffer buf b i hlen hi
  · intro i hi
    unfold fillbuffer
    rw [hs, byte_at_fill _ _ _ _ _ _ (by rw [hlen, hsz]; omega), if_neg (by omega)]
  · rw [fillbuffer_length, hlen]
    exact hsz

/-- Witness of C28: a buffer full of the byte 7 and 9600 baud: byte 1679, the
last one written, is a byte of the alphabet, and byte 1680 keeps its value. -/
theorem C28_fillbuffer_bound_witness :
    byte_at (fillbuffer (List.replicate BUFFER_SIZE 7) 9600) 1679 =
      byte_at str (1679 % strlen str) ∧
    byte_at (fillbuffer (List.replicate BUFFER_SIZE 7) 9600) 1680 =
      byte_at (List.replicate BUFFER_SIZE 7) 1680 :=
  ⟨(C28_fillbuffer_bound 9600 (List.replicate BUFFER_SIZE 7)
      (List.length_replicate BUFFER_SIZE 7)).2.2.2.2.2.1 1679 (by decide),
    (C28_fillbuffer_bound 9600 (List.replicate BUFFER_SIZE 7)
      (List.length_replicate BUFFER_SIZE 7)).2.2.2.2.2.2.1 1680 (by decide)⟩

/-- Claim C29 (reachable-state invariant of each loop): starting from the
initial locals (state `STATE_RESET`, pending next state `STATE_LAST`), after
every iteration the current state equals the pending next state, the current
state is never `STATE_LAST`, and no iteration starts in `STATE_LAST`; hence
the table `state_name` is only indexed with one of the 16 real states. -/
theorem C29_state_never_last :
    (serial_2_pthread_init.state = t_state.STATE_RESET ∧
      serial_2_pthread_init.state_next = t_state.STATE_LAST ∧
      main_init.state = t_state.STATE_RESET ∧
      main_init.state_next = t_state.STATE_LAST) ∧
    (∀ (a : t_thread) (rs : List t_reply),
      (rs ≠ [] →
        (serial_2_pthread_run a serial_2_pthread_init rs).state =
          (serial_2_pthread_run a serial_2_pthread_init rs).state_next) ∧
      (serial_2_pthread_run a serial_2_pthread_init rs).state ≠ t_state.STATE_LAST ∧
      t_state.STATE_LAST ∉ serial_2_pthread_trace a serial_2_pthread_init rs) ∧
    (∀ (m : t_main) (rs : List t_reply),
      (rs ≠ [] →
        (main_run m main_init rs).state = (main_run m main_init rs).state_next) ∧
      (main_run m main_init rs).state ≠ t_state.STATE_LAST ∧
      t_state.STATE_LAST ∉ main_trace m main_init rs) := by
  refine ⟨⟨rfl, rfl, rfl, rfl⟩, ?_, ?_⟩
  · intro a rs
    have h := serial_2_pthread_run_state_ok a rs serial_2_pthread_init (Or.inr rfl)
    exact ⟨fun x => (h.1 x).symm, h.2.1, h.2.2⟩
  · intro m rs
    have h := main_run_state_ok m rs main_init (Or.inr rfl)
    exact ⟨fun x => (h.1 x).symm, h.2.1, h.2.2⟩

/-- Witness of C29: after the seven iterations of a master handshake the state
equals the pending next state. -/
theorem C29_state_never_last_witness :
    (serial_2_pthread_run sample_thread serial_2_pthread_init master_replies).state =
      (serial_2_pthread_run sample_thread serial_2_pthread_init master_replies).state_next :=
  (C29_state_never_last.2.1 sample_thread master_replies).1 (by decide)

/-- Claim C30: a packet of length 0 is never echoed: for every held signature
with the right header and footer and the length 0, and for every result of
the payload read (negative, zero or positive), the iteration from
`STATE_READ_SERIAL_PACKET` (between two iterations, where `state_next` equals
`state`) never moves to `STATE_WRITE_SERIAL_PACKET_SIGNATURE_SLAVE`: it stays
in its state (error `EAGAIN` or `EINTR`) or goes to `STATE_RESET`.  This holds
for both loops. -/
theorem C30_zero_length_never_echoed (a : t_thread) (m : t_main) (e : t_engine)
    (r : t_reply)
    (hs : e.state = t_state.STATE_READ_SERIAL_PACKET) (hn : e.state_next = e.state)
    (hh : e.signatureread.header = SERIAL_SIGNATURE_HEADER)
    (hf : e.signatureread.footer = SERIAL_SIGNATURE_FOOTER)
    (hl : e.signatureread.len = 0) :
    ((serial_2_pthread_step a e r).eng.state ≠
        t_state.STATE_WRITE_SERIAL_PACKET_SIGNATURE_SLAVE ∧
      ((serial_2_pthread_step a e r).eng.state = t_state.STATE_READ_SERIAL_PACKET ∨
        (serial_2_pthread_step a e r).eng.state = t_state.STATE_RESET) ∧
      ((serial_2_pthread_step a e r).eng.state = t_state.STATE_READ_SERIAL_PACKET ↔
        (r.rval < 0 ∧ (r.errno = EAGAIN ∨ r.errno = EINTR)))) ∧
    ((main_step m e r).eng.state ≠ t_state.STATE_WRITE_SERIAL_PACKET_SIGNATURE_SLAVE ∧
      ((main_step m e r).eng.state = t_state.STATE_READ_SERIAL_PACKET ∨
        (main_step m e r).eng.state = t_state.STATE_RESET) ∧
      ((main_step m e r).eng.state = t_state.STATE_READ_SERIAL_PACKET ↔
        (r.rval < 0 ∧ (r.errno = EAGAIN ∨ r.errno = EINTR)))) := by
  rw [hs] at hn
  have hz : to_int 0 = 0 := by decide
  simp only [serial_2_pthread_step, main_step, hs, hh, hf, hl, hz, and_self, if_true,
    loop_end_eq, hn]
  split_ifs <;> simp_all <;> tauto

/-- Witness of C30: the read of the empty payload returns 0. -/
theorem C30_zero_length_never_echoed_witness :
    (serial_2_pthread_step sample_thread zero_length_engine (reply_count 0)).eng.state ≠
      t_state.STATE_WRITE_SERIAL_PACKET_SIGNATURE_SLAVE :=
  (C30_zero_length_never_echoed sample_thread sample_main zero_length_engine (reply_count 0)
    (by decide) (by decide) (by decide) (by decide) (by decide)).1.1

/-- Claim C31: both loops start in `STATE_RESET`, so the first iterations of a
freshly started loop are `STATE_RESET`, `STATE_START`, `STATE_WAIT_COMMAND`,
whatever the transport answers, and the timeout handed to the first
`serial_read_string` of `STATE_WAIT_COMMAND` is 4000 ms in `main` (the initial
ceiling 5000 minus one step of 1000) and 1000 ms in `serial_2_pthread`, whose
ceiling is 1000.  In `serial_2_pthread` the timeout is 1000 after every run
from the initial locals, in particular after every `STATE_RESET` iteration,
so it never decreases. -/
theorem C31_first_wait_command_timeout :
    (∀ (m : t_main) (r1 r2 r3 : t_reply),
      main_init.timeout = TIMEOUT_MAIN_MS ∧ TIMEOUT_MAIN_MS = 5000 ∧
      main_trace m main_init [r1, r2, r3] =
        [t_state.STATE_RESET, t_state.STATE_START, t_state.STATE_WAIT_COMMAND] ∧
      (main_run m main_init [r1, r2]).timeout = 4000 ∧
      (main_step m (main_run m main_init [r1, r2]) r3).calls =
        [t_call.serial_read_string 4000]) ∧
    (∀ (a : t_thread) (r1 r2 r3 : t_reply),
      serial_2_pthread_init.timeout = TIMEOUT_THREAD_MS ∧ TIMEOUT_THREAD_MS = 1000 ∧
      serial_2_pthread_trace a serial_2_pthread_init [r1, r2, r3] =
        [t_state.STATE_RESET, t_state.STATE_START, t_state.STATE_WAIT_COMMAND] ∧
      (serial_2_pthread_run a serial_2_pthread_init [r1, r2]).timeout = 1000 ∧
      (serial_2_pthread_step a (serial_2_pthread_run a serial_2_pthread_init [r1, r2]) r3).calls =
        [t_call.serial_read_string 1000]) ∧
    (∀ (a : t_thread) (rs : List t_reply),
      (serial_2_pthread_run a serial_2_pthread_init rs).timeout = 1000 ∧
      ∀ r : t_reply,
        (serial_2_pthread_step a (serial_2_pthread_run a serial_2_pthread_init rs) r).eng.timeout
          = 1000) := by
  refine ⟨?_, ?_, ?_⟩
  · intro m r1 r2 r3
    refine ⟨rfl, rfl, ?_, ?_, ?_⟩ <;>
      simp [main_trace, main_run, main_step, main_init, loop_end_eq, TIMEOUT_MAIN_MS] <;>
      split_ifs <;> rfl
  · intro a r1 r2 r3
    refine ⟨rfl, rfl, ?_, ?_, ?_⟩ <;>
      simp [serial_2_pthread_trace, serial_2_pthread_run, serial_2_pthread_step,
        serial_2_pthread_init, loop_end_eq, TIMEOUT_THREAD_MS] <;>
      split_ifs <;> rfl
  · intro a rs
    have h := serial_2_pthread_run_timeout a rs serial_2_pthread_init rfl
    refine ⟨h, ?_⟩
    intro r
    rw [serial_2_pthread_step_timeout, h]
    simp [TIMEOUT_THREAD_MS]

/-- Witness of C31: the two sample loops whose first two iterations are
answered with 0: the third iteration reads the command with a timeout of 4000
ms in `main` and of 1000 ms in `serial_2_pthread`. -/
theorem C31_first_wait_command_timeout_witness :
    (main_step sample_main (main_run sample_main main_init [reply_count 0, reply_count 0])
      (reply_count 0)).calls = [t_call.serial_read_string 4000] ∧
    (serial_2_pthread_step sample_thread
      (serial_2_pthread_run sample_thread serial_2_pthread_init [reply_count 0, reply_count 0])
      (reply_count 0)).calls = [t_call.serial_read_string 1000] :=
  ⟨(C31_first_wait_command_timeout.1 sample_main (reply_count 0) (reply_count 0)
      (reply_count 0)).2.2.2.2,
    (C31_first_wait_command_timeout.2.1 sample_thread (reply_count 0) (reply_count 0)
      (reply_count 0)).2.2.2.2⟩

/-- Claim C32: in `STATE_WRITE_SERIAL_PACKET_SIGNATURE_MASTER` every positive
write count, also one below the 12 bytes of the signature, moves the loop to
`STATE_WRITE_SERIAL_PACKET` and leaves the error counter unchanged; in
`STATE_WRITE_SERIAL_PACKET_SIGNATURE_SLAVE` the count 12 moves the loop to
`STATE_WRITE_SERIAL_PACKET_ACK` with the error counter unchanged, and every
other positive count moves it to `STATE_RESET` and adds 1 to the error
counter.  This holds for both loops. -/
theorem C32_master_signature_short_write (a : t_thread) (m : t_main) (e : t_engine)
    (r : t_reply) (hr : 0 < r.rval) :
    SIZEOF_SIGNATURE = 12 ∧
    (e.state = t_state.STATE_WRITE_SERIAL_PACKET_SIGNATURE_MASTER →
      (serial_2_pthread_step a e r).eng.state = t_state.STATE_WRITE_SERIAL_PACKET ∧
      (serial_2_pthread_step a e r).eng.errornumbers = e.errornumbers ∧
      (main_step m e r).eng.state = t_state.STATE_WRITE_SERIAL_PACKET ∧
      (main_step m e r).eng.errornumbers = e.errornumbers) ∧
    (e.state = t_state.STATE_WRITE_SERIAL_PACKET_SIGNATURE_SLAVE → r.rval ≠ 12 →
      (serial_2_pthread_step a e r).eng.state = t_state.STATE_RESET ∧
      (serial_2_pthread_step a e r).eng.errornumbers = e.errornumbers + 1 ∧
      (main_step m e r).eng.state = t_state.STATE_RESET ∧
      (main_step m e r).eng.errornumbers = e.errornumbers + 1) ∧
    (e.state = t_state.STATE_WRITE_SERIAL_PACKET_SIGNATURE_SLAVE → r.rval = 12 →
      (serial_2_pthread_step a e r).eng.state = t_state.STATE_WRITE_SERIAL_PACKET_ACK ∧
      (serial_2_pthread_step a e r).eng.errornumbers = e.errornumbers ∧
      (main_step m e r).eng.state = t_state.STATE_WRITE_SERIAL_PACKET_ACK ∧
      (main_step m e r).eng.errornumbers = e.errornumbers) := by
  have p1 : ¬ r.rval < 0 := by omega
  have p2 : ¬ r.rval = 0 := by omega
  refine ⟨rfl, ?_, ?_, ?_⟩
  · intro hs
    simp [serial_2_pthread_step, main_step, hs, loop_end_eq, p1, p2]
  · intro hs h12
    simp [serial_2_pthread_step, main_step, hs, loop_end_eq, p1, p2, h12, SIZEOF_SIGNATURE]
  · intro hs h12
    simp [serial_2_pthread_step, main_step, hs, loop_end_eq, p1, p2, h12, SIZEOF_SIGNATURE]

/-- Witness of C32: a write of 5 bytes moves the sample master from
`STATE_WRITE_SERIAL_PACKET_SIGNATURE_MASTER` to `STATE_WRITE_SERIAL_PACKET`
and the sample slave from `STATE_WRITE_SERIAL_PACKET_SIGNATURE_SLAVE` to
`STATE_RESET`. -/
theorem C32_master_signature_short_write_witness :
    (serial_2_pthread_step sample_thread master_ready_thread (reply_count 5)).eng.state =
      t_state.STATE_WRITE_SERIAL_PACKET ∧
    (serial_2_pthread_step sample_thread slave_signing_thread (reply_count 5)).eng.state =
      t_state.STATE_RESET ∧
    (serial_2_pthread_step sample_thread slave_signing_thread (reply_count 5)).eng.errornumbers =
      slave_signing_thread.errornumbers + 1 :=
  ⟨((C32_master_signature_short_write sample_thread sample_main master_ready_thread
      (reply_count 5) (by decide)).2.1 (by decide)).1,
    ((C32_master_signature_short_write sample_thread sample_main slave_signing_thread
      (reply_count 5) (by decide)).2.2.1 (by decide) (by decide)).1,
    ((C32_master_signature_short_write sample_thread sample_main slave_signing_thread
      (reply_count 5) (by decide)).2.2.1 (by decide) (by decide)).2.1⟩

/-- Claim C33 (chunking of `print_payload`, when printing is enabled): for
`len <= 0` no line is drawn; for `1 <= len <= 16` a single line with the `len`
bytes of the payload is drawn; for every `len > 16` the loop ends (`fuel`
bounds the passes of the model of the loop; `len <= 16 * (fuel + 1)` is
enough), every divisor of the modulo is greater than 16 and so never zero,
every line before the last has exactly 16 bytes, the last line has between 1
and 16 bytes, the lengths add up to `len`, and the bytes of all lines, one
after the other, are exactly the first `len` bytes of the payload in order;
when the payload has `len` bytes every line holds as many bytes as its
length says. -/
theorem C33_print_payload_chunking (DBG_VERBOSE DBG_ERROR dbglvl : Int)
    (payload : List Nat) (len : Int) (fuel : Nat)
    (hon : dbglvl ≥ DBG_VERBOSE ∨ dbglvl = DBG_ERROR) :
    (len ≤ 0 → print_payload DBG_VERBOSE DBG_ERROR fuel payload len dbglvl = some []) ∧
    (1 ≤ len → len ≤ 16 →
      print_payload DBG_VERBOSE DBG_ERROR fuel payload len dbglvl =
        some [{ bytes := payload.take len.toNat, len := len, offset := 0 }]) ∧
    (16 < len → len ≤ 16 * ((fuel : Int) + 1) →
      ∃ body last divisors,
        print_payload DBG_VERBOSE DBG_ERROR fuel payload len dbglvl = some (body ++ [last]) ∧
        print_payload_divisors fuel len = some divisors ∧
        divisors.length = body.length ∧
        (∀ d ∈ divisors, 16 < d) ∧
        (∀ l ∈ body, l.len = 16) ∧
        1 ≤ last.len ∧ last.len ≤ 16 ∧
        ((body ++ [last]).map (fun l => l.len)).sum = len ∧
        ((body ++ [last]).map (fun l => l.bytes)).flatten = payload.take len.toNat ∧
        (len.toNat ≤ payload.length →
          ∀ l ∈ body ++ [last], (l.bytes.length : Int) = l.len)) := by
  refine ⟨?_, ?_, ?_⟩
  · intro h
    simp only [print_payload, hon, if_true, h]
  · intro h1 h2
    have h0 : ¬ len ≤ 0 := by omega
    simp only [print_payload, hon, if_true, h0, if_false, h2, print_hex_ascii_line]
  · intro h1 h2
    have h0 : ¬ len ≤ 0 := by omega
    have h3 : ¬ len ≤ 16 := by omega
    simp only [print_payload, hon, if_true, h0, if_false, h3]
    exact print_payload_loop_chunks fuel payload len 0 h1 h2

/-- Witness of C33: a payload of 35 bytes is drawn as lines of 16, 16 and 3
bytes. -/
theorem C33_print_payload_chunking_witness :
    print_payload 3 1 2 (List.range 35) 35 3 =
      some [{ bytes := List.range 16, len := 16, offset := 0 },
        { bytes := (List.range 32).drop 16, len := 16, offset := 16 },
        { bytes := (List.range 35).drop 32, len := 3, offset := 32 }] ∧
    print_payload_divisors 2 35 = some [35, 19] ∧
    ∃ body last divisors,
      print_payload 3 1 2 (List.range 35) 35 3 = some (body ++ [last]) ∧
      print_payload_divisors 2 35 = some divisors ∧
      divisors.length = body.length ∧
      (∀ d ∈ divisors, 16 < d) ∧
      (∀ l ∈ body, l.len = 16) ∧
      1 ≤ last.len ∧ last.len ≤ 16 ∧
      ((body ++ [last]).map (fun l => l.len)).sum = 35 ∧
      ((body ++ [last]).map (fun l => l.bytes)).flatten = (List.range 35).take (35 : Int).toNat ∧
      ((35 : Int).toNat ≤ (List.range 35).length →
        ∀ l ∈ body ++ [last], (l.bytes.length : Int) = l.len) :=
  ⟨by decide, by decide,
    (C33_print_payload_chunking 3 1 3 (List.range 35) 35 2 (by decide)).2.2 (by decide)
      (by decide)⟩

end Testunit
